import Mathlib

/-!
# libusb_vhci: edge triggers, port/address table, work queue and work pump

A shallow embedding of the user-space side of the virtual USB host controller
(`libusb_vhci.h`, `libusb_vhci.c`, `urb.cpp`, `work.cpp`, `hcd.cpp`,
`local_hcd.cpp`).

Conventions of the embedding

* Unsigned machine integers (`uint8_t`, `uint16_t`, `uint64_t`) are `Nat`, signed
  ones (`int32_t`, `int`) are `Int`; C truth values are comparisons with zero.
* A C++ exception is the `error` case of `Except cpp_exception`.
* Heap objects that the controller owns through pointers (`work*`, `usb::urb*`)
  are values; a work item keeps the address it lives at in the field `addr`, which
  is what a pointer comparison compares.
* Calls that leave the process (the giveback ioctl, the work-enqueued callbacks)
  are recorded in ghost lists of the controller state.
* The kernel header `linux/usb-vhci.h` is not among the sources. What the code
  needs from it is either a field of `kernel_header` (a parameter of every
  definition that uses it) or stated in the doc comment of the definition.
-/

namespace LibusbVhci

/-! ## Constants of `libusb_vhci.h` -/

def USB_VHCI_STATUS_SUCCESS : Int := 0x00000000
def USB_VHCI_STATUS_PENDING : Int := 0x10000001
def USB_VHCI_STATUS_STALL : Int := 0x74000001

def USB_VHCI_PORT_STAT_CONNECTION : Nat := 0x0001
def USB_VHCI_PORT_STAT_ENABLE : Nat := 0x0002
def USB_VHCI_PORT_STAT_SUSPEND : Nat := 0x0004
def USB_VHCI_PORT_STAT_OVERCURRENT : Nat := 0x0008
def USB_VHCI_PORT_STAT_RESET : Nat := 0x0010
def USB_VHCI_PORT_STAT_POWER : Nat := 0x0100
def USB_VHCI_PORT_STAT_LOW_SPEED : Nat := 0x0200
def USB_VHCI_PORT_STAT_HIGH_SPEED : Nat := 0x0400
def USB_VHCI_PORT_STAT_C_CONNECTION : Nat := 0x0001
def USB_VHCI_PORT_STAT_C_ENABLE : Nat := 0x0002
def USB_VHCI_PORT_STAT_C_SUSPEND : Nat := 0x0004
def USB_VHCI_PORT_STAT_C_OVERCURRENT : Nat := 0x0008
def USB_VHCI_PORT_STAT_C_RESET : Nat := 0x0010

def USB_VHCI_PORT_STAT_TRIGGER_DISABLE : Nat := 0x01
def USB_VHCI_PORT_STAT_TRIGGER_SUSPEND : Nat := 0x02
def USB_VHCI_PORT_STAT_TRIGGER_RESUMING : Nat := 0x04
def USB_VHCI_PORT_STAT_TRIGGER_RESET : Nat := 0x08
def USB_VHCI_PORT_STAT_TRIGGER_POWER_ON : Nat := 0x10
def USB_VHCI_PORT_STAT_TRIGGER_POWER_OFF : Nat := 0x20

/-- Constants of the kernel header `linux/usb-vhci.h` whose values neither the
sources nor the specification give. Every definition below that needs one of them
takes the header as a parameter, so what is proved holds for every choice. -/
structure kernel_header where
  USB_VHCI_PORT_STAT_FLAG_RESUMING : Nat
  USB_VHCI_URB_FLAGS_SHORT_NOT_OK : Nat
  USB_VHCI_URB_FLAGS_ZERO_PACKET : Nat
  deriving DecidableEq, Repr

/-- Modelled from the spec: the URB kind code `USB_VHCI_URB_TYPE_ISO` of the kernel
header `linux/usb-vhci.h`, which is not among the sources (section 6, URB kind
codes: iso = 0). -/
def USB_VHCI_URB_TYPE_ISO : Nat := 0

/-- Modelled from the spec: the URB kind code `USB_VHCI_URB_TYPE_INT` of the kernel
header `linux/usb-vhci.h`, which is not among the sources (section 6, URB kind
codes: int = 1). -/
def USB_VHCI_URB_TYPE_INT : Nat := 1

/-- Modelled from the spec: the URB kind code `USB_VHCI_URB_TYPE_CONTROL` of the kernel
header `linux/usb-vhci.h`, which is not among the sources (section 6, URB kind
codes: control = 2). -/
def USB_VHCI_URB_TYPE_CONTROL : Nat := 2

/-- Modelled from the spec: the URB kind code `USB_VHCI_URB_TYPE_BULK` of the kernel
header `linux/usb-vhci.h`, which is not among the sources (section 6, URB kind
codes: bulk = 3). -/
def USB_VHCI_URB_TYPE_BULK : Nat := 3

/-- The `errno` values that the embedded code sets itself. -/
inductive errno_code where
  | EBADMSG
  deriving DecidableEq, Repr

/-- The C++ exceptions that the embedded code throws, with their `what` text. -/
inductive cpp_exception where
  | invalid_argument (what : String)
  | out_of_range (what : String)
  | logic_error (what : String)
  | exception
  | bad_alloc
  deriving DecidableEq, Repr

/-! ## Records of the kernel channel

The ioctl records are declared in `linux/usb-vhci.h`; their fields are the ones
`libusb_vhci.c` reads and writes. -/

/-- The ioctl record `struct usb_vhci_ioc_port_stat`. -/
structure usb_vhci_ioc_port_stat where
  status : Nat
  change : Nat
  index : Nat
  flags : Nat
  deriving DecidableEq, Repr

/-- The ioctl record `struct usb_vhci_ioc_setup_packet`. -/
structure usb_vhci_ioc_setup_packet where
  bmRequestType : Nat
  bRequest : Nat
  wValue : Nat
  wIndex : Nat
  wLength : Nat
  deriving DecidableEq, Repr

/-- The ioctl record `struct usb_vhci_ioc_urb`, the header of an URB as the kernel
hands it out. -/
structure usb_vhci_ioc_urb where
  setup_packet : usb_vhci_ioc_setup_packet
  buffer_length : Int
  interval : Int
  packet_count : Int
  flags : Nat
  address : Nat
  endpoint : Nat
  type : Nat
  deriving DecidableEq, Repr

/-- What `ioctl(USB_VHCI_HCD_IOCFETCHWORK)` writes into `struct usb_vhci_ioc_work` when
it succeeds. The record is a union under the discriminator `type`; the values
`USB_VHCI_WORK_TYPE_*` of the discriminator are declared in the kernel header, so the
record is embedded as the tagged union they select, `other` standing for every
remaining value. -/
inductive usb_vhci_ioc_work where
  | PORT_STAT (port : usb_vhci_ioc_port_stat)
  | PROCESS_URB (handle : Nat) (urb : usb_vhci_ioc_urb)
  | CANCEL_URB (handle : Nat)
  | other
  deriving DecidableEq, Repr

/-- The ioctl record `struct usb_vhci_ioc_iso_packet`. -/
structure usb_vhci_ioc_iso_packet where
  offset : Nat
  packet_length : Nat
  packet_actual : Nat
  status : Int
  deriving DecidableEq, Repr

/-- What `ioctl(USB_VHCI_HCD_IOCFETCHDATA)` writes when it succeeds: the payload bytes
and the iso packet descriptors of `struct usb_vhci_ioc_urb_data`. -/
structure usb_vhci_ioc_urb_data where
  buffer : List Nat
  iso_packets : List usb_vhci_ioc_iso_packet
  deriving DecidableEq, Repr

/-! ## C interface (`libusb_vhci.h`, `libusb_vhci.c`) -/

/-- The C record `struct usb_vhci_iso_packet`. -/
structure usb_vhci_iso_packet where
  offset : Nat
  packet_length : Int
  packet_actual : Int
  status : Int
  deriving DecidableEq, Repr

/-- The C record `struct usb_vhci_urb`. The pointers `buffer` and `iso_packets` are
`none` when NULL and carry the array they point to otherwise. -/
structure usb_vhci_urb where
  handle : Nat
  buffer : Option (List Nat)
  iso_packets : Option (List usb_vhci_iso_packet)
  buffer_length : Int
  buffer_actual : Int
  packet_count : Int
  error_count : Int
  status : Int
  interval : Int
  flags : Nat
  wValue : Nat
  wIndex : Nat
  wLength : Nat
  bmRequestType : Nat
  bRequest : Nat
  devadr : Nat
  epadr : Nat
  type : Nat
  deriving DecidableEq, Repr

/-- The C record `struct usb_vhci_port_stat`. -/
structure usb_vhci_port_stat where
  status : Nat
  change : Nat
  index : Nat
  flags : Nat
  deriving DecidableEq, Repr

/-- The C record `struct usb_vhci_work`: a union under the discriminator `type`,
embedded as the tagged union of its three members. -/
inductive usb_vhci_work where
  | PORT_STAT (port_stat : usb_vhci_port_stat)
  | PROCESS_URB (urb : usb_vhci_urb)
  | CANCEL_URB (handle : Nat)
  deriving DecidableEq, Repr

/-- The macro `usb_vhci_is_out(epadr)`. -/
def usb_vhci_is_out (epadr : Nat) : Bool := epadr &&& 0x80 == 0

/-- The macro `usb_vhci_is_in(epadr)`. -/
def usb_vhci_is_in (epadr : Nat) : Bool := epadr &&& 0x80 != 0

/-- The macro `usb_vhci_is_iso(type)`. -/
def usb_vhci_is_iso (type : Nat) : Bool := type == USB_VHCI_URB_TYPE_ISO

/-- The macro `usb_vhci_is_control(type)`. -/
def usb_vhci_is_control (type : Nat) : Bool := type == USB_VHCI_URB_TYPE_CONTROL

/-- The header that `memset(&work->work.urb, 0, ...)` leaves behind. -/
def usb_vhci_urb.zero : usb_vhci_urb :=
  { handle := 0, buffer := none, iso_packets := none, buffer_length := 0, buffer_actual := 0,
    packet_count := 0, error_count := 0, status := 0, interval := 0, flags := 0, wValue := 0,
    wIndex := 0, wLength := 0, bmRequestType := 0, bRequest := 0, devadr := 0, epadr := 0,
    type := 0 }

/-- The C function `usb_vhci_fetch_work_timeout`, from the point where the ioctl has
succeeded and written `w`: the decoded work together with the return value (`1` when
`usb_vhci_fetch_data` is to be called), or the `errno` set with the return value `-1`. -/
def usb_vhci_fetch_work_timeout (K : kernel_header) (w : usb_vhci_ioc_work) :
    Except errno_code (usb_vhci_work × Int) :=
  match w with
  | .PORT_STAT port =>
    .ok (.PORT_STAT { status := port.status, change := port.change,
                      index := port.index, flags := port.flags }, 0)
  | .PROCESS_URB handle urb =>
    let work := usb_vhci_urb.zero
    let byType : Except errno_code usb_vhci_urb :=
      if urb.type = USB_VHCI_URB_TYPE_ISO then
        .ok { work with packet_count := urb.packet_count, interval := urb.interval }
      else if urb.type = USB_VHCI_URB_TYPE_INT then
        .ok { work with interval := urb.interval }
      else if urb.type = USB_VHCI_URB_TYPE_CONTROL then
        .ok { work with wValue := urb.setup_packet.wValue,
                        wIndex := urb.setup_packet.wIndex,
                        wLength := urb.setup_packet.wLength,
                        bmRequestType := urb.setup_packet.bmRequestType,
                        bRequest := urb.setup_packet.bRequest }
      else if urb.type = USB_VHCI_URB_TYPE_BULK then
        .ok { work with flags := urb.flags &&&
                (K.USB_VHCI_URB_FLAGS_SHORT_NOT_OK ||| K.USB_VHCI_URB_FLAGS_ZERO_PACKET) }
      else .error .EBADMSG
    match byType with
    | .error e => .error e
    | .ok work =>
      let work := { work with type := urb.type, status := USB_VHCI_STATUS_PENDING,
                              handle := handle, buffer_length := urb.buffer_length }
      let work :=
        if usb_vhci_is_out urb.endpoint || usb_vhci_is_iso work.type
        then { work with buffer_actual := urb.buffer_length } else work
      let work := { work with devadr := urb.address, epadr := urb.endpoint }
      .ok (.PROCESS_URB work, if work.buffer_actual ≠ 0 ∨ work.packet_count ≠ 0 then 1 else 0)
  | .CANCEL_URB handle => .ok (.CANCEL_URB handle, 0)
  | .other => .error .EBADMSG

/-- The C function `usb_vhci_fetch_work`, which only fixes the timeout of the ioctl;
`ioctl_result` is `none` when the ioctl returns `-1`. The result `none` is the return
value `-1`. -/
def usb_vhci_fetch_work (K : kernel_header) (ioctl_result : Option usb_vhci_ioc_work) :
    Option (usb_vhci_work × Int) :=
  match ioctl_result with
  | none => none
  | some w =>
    match usb_vhci_fetch_work_timeout K w with
    | .error _ => none
    | .ok r => some r

/-- The conversion `(int32_t)` of a `uint32_t`. -/
def to_int32 (n : Nat) : Int :=
  if n % 2 ^ 32 < 2 ^ 31 then ((n % 2 ^ 32 : Nat) : Int) else ((n % 2 ^ 32 : Nat) : Int) - 2 ^ 32

/-- Writing the array `src` over the beginning of the array `dst`, which keeps its
length. -/
def write_array {α : Type} (dst src : List α) : List α :=
  (src ++ dst.drop src.length).take dst.length

/-- The C function `usb_vhci_fetch_data`: `ioctl_result` is what the ioctl answers
(`none` when it returns `-1`). The kernel writes the payload through `urb->buffer`;
the loop writes `packet_count` iso packets through `urb->iso_packets`. Gives the
return value and the record behind `urb` afterwards. -/
def usb_vhci_fetch_data (urb : usb_vhci_urb) (ioctl_result : Option usb_vhci_ioc_urb_data) :
    Int × usb_vhci_urb :=
  match ioctl_result with
  | none => (-1, urb)
  | some u =>
    let pc := urb.packet_count
    let fetched : List usb_vhci_iso_packet :=
      (u.iso_packets.take pc.toNat).map fun k =>
        { offset := k.offset, packet_length := to_int32 k.packet_length,
          packet_actual := 0, status := USB_VHCI_STATUS_PENDING }
    (0, { urb with buffer := urb.buffer.map fun b => write_array b u.buffer,
                   iso_packets := urb.iso_packets.map fun p => write_array p fetched })

/-- The C function `usb_vhci_port_stat_triggers(stat, prev)`: six independent tests,
each or-ing one trigger bit into `flags`. -/
def usb_vhci_port_stat_triggers (K : kernel_header) (stat prev : usb_vhci_port_stat) : Nat :=
  let flags : Nat := 0
  let flags :=
    if stat.status &&& USB_VHCI_PORT_STAT_ENABLE = 0 ∧
       prev.status &&& USB_VHCI_PORT_STAT_ENABLE ≠ 0
    then flags ||| USB_VHCI_PORT_STAT_TRIGGER_DISABLE else flags
  let flags :=
    if stat.status &&& USB_VHCI_PORT_STAT_SUSPEND ≠ 0 ∧
       prev.status &&& USB_VHCI_PORT_STAT_SUSPEND = 0
    then flags ||| USB_VHCI_PORT_STAT_TRIGGER_SUSPEND else flags
  let flags :=
    if stat.flags &&& K.USB_VHCI_PORT_STAT_FLAG_RESUMING ≠ 0 ∧
       prev.flags &&& K.USB_VHCI_PORT_STAT_FLAG_RESUMING = 0
    then flags ||| USB_VHCI_PORT_STAT_TRIGGER_RESUMING else flags
  let flags :=
    if stat.status &&& USB_VHCI_PORT_STAT_RESET ≠ 0 ∧
       prev.status &&& USB_VHCI_PORT_STAT_RESET = 0
    then flags ||| USB_VHCI_PORT_STAT_TRIGGER_RESET else flags
  let flags :=
    if stat.status &&& USB_VHCI_PORT_STAT_POWER ≠ 0 ∧
       prev.status &&& USB_VHCI_PORT_STAT_POWER = 0
    then flags ||| USB_VHCI_PORT_STAT_TRIGGER_POWER_ON else flags
  let flags :=
    if stat.status &&& USB_VHCI_PORT_STAT_POWER = 0 ∧
       prev.status &&& USB_VHCI_PORT_STAT_POWER ≠ 0
    then flags ||| USB_VHCI_PORT_STAT_TRIGGER_POWER_OFF else flags
  flags

/-! ## The class `usb::urb` (`libusb_vhci.h`, `urb.cpp`) -/

/-- The C++ class `usb::urb`: it wraps one C record, `_urb`. -/
structure urb where
  _urb : usb_vhci_urb
  deriving DecidableEq, Repr

/-- The array that `std::copy(src, src + n, dst)` leaves in a fresh `dst` of `n`
elements, for `n` from 0 on (with a negative `n` the `new T[n]` before the copy throws,
which the callers test first). Reading past the end of `src` is undefined in C++; the
model reads `fill` there. -/
def copy_array {α : Type} (src : Option (List α)) (n : Int) (fill : α) : List α :=
  (src.getD []).take n.toNat ++ List.replicate (n.toNat - (src.getD []).length) fill

/-- The method `urb::_cpy(u)`, on the record `self` of the object. `new T[n]` with a
negative length `n` throws `std::bad_alloc` (as `std::bad_array_new_length`, which derives
from it); with a length from 0 on the allocation succeeds in the modelled runs. -/
def urb._cpy (self u : usb_vhci_urb) : Except cpp_exception usb_vhci_urb :=
  if self.buffer_length ≠ 0 ∧ self.buffer_length < 0 then .error .bad_alloc
  else
    let self :=
      if self.buffer_length ≠ 0
      then { self with buffer := some (copy_array u.buffer self.buffer_length 0) } else self
    if self.packet_count ≠ 0 ∧ self.packet_count < 0 then .error .bad_alloc
    else
      let self :=
        if self.packet_count ≠ 0
        then { self with
               iso_packets := some (copy_array u.iso_packets self.packet_count ⟨0, 0, 0, 0⟩) }
        else self
      .ok self

/-- The method `urb::_chk()`, on the record `self` of the object. -/
def urb._chk (self : usb_vhci_urb) : Except cpp_exception usb_vhci_urb :=
  if self.type = USB_VHCI_URB_TYPE_ISO then
    if self.packet_count ≠ 0 ∧ self.buffer_length = 0
    then .error (.invalid_argument "urb") else .ok self
  else if self.type = USB_VHCI_URB_TYPE_INT ∨ self.type = USB_VHCI_URB_TYPE_CONTROL ∨
          self.type = USB_VHCI_URB_TYPE_BULK then
    .ok { self with packet_count := 0 }
  else .error (.invalid_argument "urb")

/-- The constructor `urb::urb(const usb_vhci_urb& urb, bool own)`. -/
def urb.urb_own (u : usb_vhci_urb) (own : Bool) : Except cpp_exception urb :=
  if !own then
    match urb._chk { u with buffer := none, iso_packets := none } with
    | .error e => .error e
    | .ok self =>
      match urb._cpy self u with
      | .error e => .error e
      | .ok self => .ok ⟨self⟩
  else
    match urb._chk u with
    | .error e => .error e
    | .ok self =>
      if self.buffer_length = 0 ∧ self.buffer ≠ none then .error (.invalid_argument "urb")
      else if self.packet_count = 0 ∧ self.iso_packets ≠ none then
        .error (.invalid_argument "urb")
      else .ok ⟨self⟩

def urb.get_handle (u : urb) : Nat := u._urb.handle
def urb.get_status (u : urb) : Int := u._urb.status
def urb.get_wValue (u : urb) : Nat := u._urb.wValue
def urb.get_bmRequestType (u : urb) : Nat := u._urb.bmRequestType
def urb.get_bRequest (u : urb) : Nat := u._urb.bRequest
def urb.get_device_address (u : urb) : Nat := u._urb.devadr
def urb.get_endpoint_address (u : urb) : Nat := u._urb.epadr
def urb.get_endpoint_number (u : urb) : Nat := u._urb.epadr &&& 0x07
def urb.is_in (u : urb) : Bool := u._urb.epadr &&& 0x80 != 0
def urb.is_out (u : urb) : Bool := !u.is_in
def urb.is_control (u : urb) : Bool := u._urb.type == USB_VHCI_URB_TYPE_CONTROL
def urb.set_status (u : urb) (value : Int) : urb := { u with _urb := { u._urb with status := value } }
def urb.ack (u : urb) : urb := u.set_status USB_VHCI_STATUS_SUCCESS
def urb.stall (u : urb) : urb := u.set_status USB_VHCI_STATUS_STALL

/-! ## The classes `port_stat` and `work` (`libusb_vhci.h`, `work.cpp`) -/

/-- The C++ class `usb::vhci::port_stat`. -/
structure port_stat where
  status : Nat
  change : Nat
  flags : Nat
  deriving DecidableEq, Repr

def port_stat.get_resuming (K : kernel_header) (s : port_stat) : Bool :=
  s.flags &&& K.USB_VHCI_PORT_STAT_FLAG_RESUMING != 0
def port_stat.get_connection (s : port_stat) : Bool := s.status &&& USB_VHCI_PORT_STAT_CONNECTION != 0
def port_stat.get_enable (s : port_stat) : Bool := s.status &&& USB_VHCI_PORT_STAT_ENABLE != 0
def port_stat.get_suspend (s : port_stat) : Bool := s.status &&& USB_VHCI_PORT_STAT_SUSPEND != 0
def port_stat.get_reset (s : port_stat) : Bool := s.status &&& USB_VHCI_PORT_STAT_RESET != 0
def port_stat.get_power (s : port_stat) : Bool := s.status &&& USB_VHCI_PORT_STAT_POWER != 0
def port_stat.get_connection_changed (s : port_stat) : Bool :=
  s.change &&& USB_VHCI_PORT_STAT_C_CONNECTION != 0
def port_stat.get_reset_changed (s : port_stat) : Bool :=
  s.change &&& USB_VHCI_PORT_STAT_C_RESET != 0

/-- What a class derived from `work` adds to it: `process_urb_work` owns an URB,
`cancel_urb_work` carries a handle, `port_stat_work` a snapshot and its trigger flags. -/
inductive work_derived where
  | process_urb_work (urb : urb)
  | cancel_urb_work (handle : Nat)
  | port_stat_work (stat : port_stat) (trigger_flags : Nat)
  deriving DecidableEq, Repr

/-- A work item: an object of one of the three classes derived from `work`. `addr` is
the address of the object, the value of every `work*` that points to it; `port` and
`canceled` are the members of the base class. -/
structure work where
  addr : Nat
  port : Nat
  canceled : Bool
  derived : work_derived
  deriving DecidableEq, Repr

def work.get_port (w : work) : Nat := w.port
def work.is_canceled (w : work) : Bool := w.canceled

/-- The method `work::cancel()`. -/
def work.cancel (w : work) : work := { w with canceled := true }

/-- The constructor `process_urb_work(port, urb)` of an object placed at `addr`, with
the check of the base constructor `work::work(port)` first; `urb` is `none` for a
null pointer. -/
def process_urb_work.ctor (addr port : Nat) (u : Option urb) : Except cpp_exception work :=
  if port = 0 then .error (.invalid_argument "port")
  else
    match u with
    | none => .error (.invalid_argument "urb")
    | some u => .ok { addr := addr, port := port, canceled := false,
                      derived := .process_urb_work u }

/-- The constructor `cancel_urb_work(port, handle)` of an object placed at `addr`. -/
def cancel_urb_work.ctor (addr port handle : Nat) : Except cpp_exception work :=
  if port = 0 then .error (.invalid_argument "port")
  else .ok { addr := addr, port := port, canceled := false, derived := .cancel_urb_work handle }

/-- The trigger flags that the constructor `port_stat_work(port, stat, prev)` computes:
five tests and, for the power bit, a test with an `else if`. -/
def port_stat_work.trigger_flags (K : kernel_header) (stat prev : port_stat) : Nat :=
  let trigger_flags : Nat := 0
  let trigger_flags :=
    if !stat.get_enable && prev.get_enable
    then trigger_flags ||| USB_VHCI_PORT_STAT_TRIGGER_DISABLE else trigger_flags
  let trigger_flags :=
    if stat.get_suspend && !prev.get_suspend
    then trigger_flags ||| USB_VHCI_PORT_STAT_TRIGGER_SUSPEND else trigger_flags
  let trigger_flags :=
    if stat.get_resuming K && !prev.get_resuming K
    then trigger_flags ||| USB_VHCI_PORT_STAT_TRIGGER_RESUMING else trigger_flags
  let trigger_flags :=
    if stat.get_reset && !prev.get_reset
    then trigger_flags ||| USB_VHCI_PORT_STAT_TRIGGER_RESET else trigger_flags
  let trigger_flags :=
    if stat.get_power && !prev.get_power
    then trigger_flags ||| USB_VHCI_PORT_STAT_TRIGGER_POWER_ON
    else if !stat.get_power && prev.get_power
    then trigger_flags ||| USB_VHCI_PORT_STAT_TRIGGER_POWER_OFF else trigger_flags
  trigger_flags

/-- The constructor `port_stat_work(port, stat, prev)` of an object placed at `addr`. -/
def port_stat_work.ctor (K : kernel_header) (addr port : Nat) (stat prev : port_stat) :
    Except cpp_exception work :=
  if port = 0 then .error (.invalid_argument "port")
  else .ok { addr := addr, port := port, canceled := false,
             derived := .port_stat_work stat (port_stat_work.trigger_flags K stat prev) }

/-! ## The controller: `hcd` and `local_hcd` (`hcd.cpp`, `local_hcd.cpp`) -/

/-- The class `hcd::callback`: a function pointer and its argument. -/
structure callback where
  func : Nat
  arg : Nat
  deriving DecidableEq, Repr

/-- The record `local_hcd::_port_info`. -/
structure _port_info where
  adr : Nat
  stat : port_stat
  deriving DecidableEq, Repr

/-- The default constructor `_port_info()`: address unset (`0xff`), empty snapshot. -/
def _port_info.default : _port_info := { adr := 0xff, stat := ⟨0, 0, 0⟩ }

/-- The state of a `local_hcd` object with its `hcd` base: the port table, the inbox
(`std::deque<work*>`), the processing list (`std::list<work*>`) and the callbacks.

`port_count` is not a field of its own: the constructor allocates `port_info` with
`get_port_count()` entries and neither changes afterwards, so the count is the length
of the table. The file descriptor, the bus identity and the thread bookkeeping do not
enter the embedded code.

`givebacks` and `callback_calls` are ghost fields: the argument of every call of
`usb_vhci_giveback` and the callback of every call made by `on_work_enqueued`, oldest
first. -/
structure local_hcd where
  port_info : List _port_info
  inbox : List work
  processing : List work
  work_enqueued_callbacks : List callback
  givebacks : List usb_vhci_urb
  callback_calls : List callback
  deriving DecidableEq, Repr

/-- The constructor `local_hcd(ports)` in a run where `usb_vhci_open` succeeds. -/
def local_hcd.ctor (ports : Nat) : Except cpp_exception local_hcd :=
  if ports = 0 then .error (.invalid_argument "ports")
  else .ok { port_info := List.replicate ports _port_info.default, inbox := [],
             processing := [], work_enqueued_callbacks := [], givebacks := [],
             callback_calls := [] }

def hcd.get_port_count (st : local_hcd) : Nat := st.port_info.length

/-- The entry `port_info[i]` of the table. -/
def local_hcd.port_info_at (st : local_hcd) (i : Nat) : _port_info :=
  st.port_info.getD i _port_info.default

/-- The assignment `port_info[i].adr = adr`. -/
def local_hcd.set_adr (st : local_hcd) (i adr : Nat) : local_hcd :=
  { st with port_info := st.port_info.set i { st.port_info_at i with adr := adr } }

/-- The assignment `port_info[i].stat = stat`. -/
def local_hcd.set_stat (st : local_hcd) (i : Nat) (stat : port_stat) : local_hcd :=
  { st with port_info := st.port_info.set i { st.port_info_at i with stat := stat } }

/-- The method `local_hcd::address_from_port`. -/
def local_hcd.address_from_port (st : local_hcd) (port : Nat) : Except cpp_exception Nat :=
  if port = 0 then .error (.invalid_argument "port")
  else if port > hcd.get_port_count st then .error (.out_of_range "port")
  else .ok (st.port_info_at (port - 1)).adr

/-- The loop of `local_hcd::port_from_address` from index `i` on, `infos` being the
entries `port_info[i ..]`. -/
def port_from_address_loop (address : Nat) : List _port_info → Nat → Nat
  | [], _ => 0
  | info :: infos, i =>
    if info.adr = address then i + 1 else port_from_address_loop address infos (i + 1)

/-- The method `local_hcd::port_from_address`. -/
def local_hcd.port_from_address (st : local_hcd) (address : Nat) : Except cpp_exception Nat :=
  if address > 0x7f then .error (.invalid_argument "address")
  else .ok (port_from_address_loop address st.port_info 0)

/-- The method `local_hcd::get_port_stat`. -/
def local_hcd.get_port_stat (st : local_hcd) (port : Nat) : Except cpp_exception port_stat :=
  if port = 0 then .error (.invalid_argument "port")
  else if port > hcd.get_port_count st then .error (.out_of_range "port")
  else .ok (st.port_info_at (port - 1)).stat

/-- The method `hcd::on_work_enqueued`: every registered callback is called once, in
order. -/
def hcd.on_work_enqueued (st : local_hcd) : local_hcd :=
  { st with callback_calls := st.callback_calls ++ st.work_enqueued_callbacks }

/-- The method `hcd::enqueue_work`: `inbox.push_back(w)`. -/
def hcd.enqueue_work (st : local_hcd) (w : work) : local_hcd :=
  { st with inbox := st.inbox ++ [w] }

/-- The loop of `hcd::next_work` on the inbox and the processing list: the return
value, `*w`, and both lists afterwards. -/
def next_work_loop : List work → List work → Bool × Option work × List work × List work
  | [], processing => (false, none, [], processing)
  | _w :: inbox, processing =>
    if !_w.is_canceled then
      (decide ((_w :: inbox).length ≠ 1), some _w, inbox, processing ++ [_w])
    else next_work_loop inbox processing

/-- The method `hcd::next_work`: the return value and `*w`, and the state afterwards. -/
def hcd.next_work (st : local_hcd) : (Bool × Option work) × local_hcd :=
  let r := next_work_loop st.inbox st.processing
  ((r.1, r.2.1), { st with inbox := r.2.2.1, processing := r.2.2.2 })

/-- The test of both search loops of `hcd::cancel_process_urb_work`: the item is a
`process_urb_work` whose URB has the handle. -/
def is_process_urb_work_of (handle : Nat) (w : work) : Bool :=
  match w.derived with
  | .process_urb_work u => u.get_handle == handle
  | _ => false

/-- A write through a `work*` of value `addr`: the object at that address is replaced by
its image under `f`, wherever the inbox or the processing list points to it. -/
def local_hcd.write_work (st : local_hcd) (addr : Nat) (f : work → work) : local_hcd :=
  { st with inbox := st.inbox.map fun w => if w.addr = addr then f w else w,
            processing := st.processing.map fun w => if w.addr = addr then f w else w }

/-- The method `local_hcd::canceling_work`; `fresh` is the address that
`new cancel_urb_work` returns. -/
def local_hcd.canceling_work (st : local_hcd) (w : work) (in_progress : Bool) (fresh : Nat) :
    Except cpp_exception local_hcd :=
  if in_progress then
    match w.derived with
    | .process_urb_work u =>
      match cancel_urb_work.ctor fresh w.get_port u.get_handle with
      | .error e => .error e
      | .ok cw => .ok (hcd.on_work_enqueued (hcd.enqueue_work st cw))
    | _ => .ok st
  else .ok st

/-- The method `local_hcd::finishing_work`: for a `process_urb_work` one call of
`usb_vhci_giveback` with the record of its URB, whose result is ignored. -/
def local_hcd.finishing_work (st : local_hcd) (w : work) : local_hcd :=
  match w.derived with
  | .process_urb_work u => { st with givebacks := st.givebacks ++ [u._urb] }
  | _ => st

/-- The method `hcd::cancel_process_urb_work`: the return value and the state
afterwards; `fresh` is the address that `new` returns inside `canceling_work`. -/
def hcd.cancel_process_urb_work (st : local_hcd) (handle : Nat) (fresh : Nat) :
    Except cpp_exception (Bool × local_hcd) :=
  match st.inbox.find? (is_process_urb_work_of handle) with
  | none =>
    match st.processing.find? (is_process_urb_work_of handle) with
    | some wrk =>
      match st.canceling_work wrk true fresh with
      | .error e => .error e
      | .ok st => .ok (true, st)
    | none => .ok (false, st)
  | some wrk =>
    let st := st.write_work wrk.addr work.cancel
    let wrk := wrk.cancel
    match st.canceling_work wrk false fresh with
    | .error e => .error e
    | .ok st => .ok (false, st.finishing_work wrk)

/-- The `USB_VHCI_WORK_TYPE_PORT_STAT` case of `local_hcd::bg_work`; `fresh` is the
address that `new port_stat_work` returns. -/
def bg_work_port_stat (K : kernel_header) (st : local_hcd) (ps : usb_vhci_port_stat)
    (fresh : Nat) : Except cpp_exception local_hcd :=
  let index := ps.index
  let nps : port_stat := ⟨ps.status, ps.change, ps.flags⟩
  if index = 0 ∨ index > hcd.get_port_count st then .ok st
  else
    match port_stat_work.ctor K fresh index nps (st.port_info_at (index - 1)).stat with
    | .error e => .error e
    | .ok psw =>
      let st := hcd.enqueue_work st psw
      let st := st.set_stat (index - 1) nps
      let st := if nps.get_connection_changed then st.set_adr (index - 1) 0xff else st
      let st :=
        if nps.get_reset_changed && !nps.get_reset && nps.get_enable
        then st.set_adr (index - 1) 0x00 else st
      .ok (hcd.on_work_enqueued st)

/-- The `SET_ADDRESS?` block of `local_hcd::bg_work` (after `rollback_address` is
taken): the URB and the state afterwards. -/
def bg_work_set_address (st : local_hcd) (index : Nat) (u : urb) : urb × local_hcd :=
  if u.is_control then
    if u.get_endpoint_number = 0 ∧ u.get_bmRequestType = 0 ∧ u.get_bRequest = 5 then
      let val := u.get_wValue
      if val > 0x7f then (u.stall, st)
      else (u.ack, st.set_adr (index - 1) (val % 256))
    else (u, st)
  else (u, st)

/-- The unlocked first part of the `USB_VHCI_WORK_TYPE_PROCESS_URB` case of
`local_hcd::bg_work`: `hdr` is `w.work.urb`, `res` the return value of
`usb_vhci_fetch_work`, `data` the answer of the fetch-data ioctl should the pump ask
(`none`: it returns `-1`). The payload buffer and the iso array are allocated with the
lengths of the header (fresh memory is modelled as zeroes), the URB object takes them
over, and the payload is fetched when `res` is non-zero. Gives the URB object `u`, or
`none` when the fetch failed and the URB was deleted. -/
def bg_work_fetch_urb (hdr : usb_vhci_urb) (res : Int) (data : Option usb_vhci_ioc_urb_data) :
    Except cpp_exception (Option urb) :=
  let hdr :=
    if hdr.buffer_length ≠ 0
    then { hdr with buffer := some (List.replicate hdr.buffer_length.toNat 0) } else hdr
  let hdr :=
    if hdr.packet_count ≠ 0
    then { hdr with iso_packets := some (List.replicate hdr.packet_count.toNat ⟨0, 0, 0, 0⟩) }
    else hdr
  match urb.urb_own hdr true with
  | .error e => .error e
  | .ok u =>
    if res ≠ 0 then
      let r := usb_vhci_fetch_data u._urb data
      if r.1 = -1 then .ok none else .ok (some ⟨r.2⟩)
    else .ok (some u)

/-- The locked second part of the `USB_VHCI_WORK_TYPE_PROCESS_URB` case of
`local_hcd::bg_work`: `devadr` is `w.work.urb.devadr`, `u` the URB object, `fresh` the
address that `new process_urb_work` returns. The work item points to the URB, so it is
enqueued with what the `SET_ADDRESS?` block wrote. -/
def bg_work_route_urb (st : local_hcd) (devadr : Nat) (u : urb) (fresh : Nat) :
    Except cpp_exception local_hcd :=
  match st.port_from_address devadr with
  | .error e => .error e
  | .ok index =>
    if index = 0 then .ok st
    else
      match process_urb_work.ctor fresh index (some u) with
      | .error e => .error e
      | .ok puw =>
        let r := bg_work_set_address st index u
        let st := hcd.enqueue_work r.2 { puw with derived := .process_urb_work r.1 }
        .ok (hcd.on_work_enqueued st)

/-- The `USB_VHCI_WORK_TYPE_PROCESS_URB` case of `local_hcd::bg_work`. -/
def bg_work_process_urb (st : local_hcd) (hdr : usb_vhci_urb) (res : Int)
    (data : Option usb_vhci_ioc_urb_data) (fresh : Nat) : Except cpp_exception local_hcd :=
  match bg_work_fetch_urb hdr res data with
  | .error e => .error e
  | .ok none => .ok st
  | .ok (some u) => bg_work_route_urb st hdr.devadr u fresh

/-- The method `local_hcd::bg_work`, one iteration of the pump. `fetched` is what the
fetch-work ioctl answers (`none`: it returns `-1`), `data` what the fetch-data ioctl
answers should the pump ask, `fresh` the address of the work object that the iteration
allocates. Allocations succeed at once in the modelled runs, so the `nomem_retry`
paths, which restore the port table and enqueue nothing, are not taken. `bg_work` is
declared `throw()`: the result `error e` is the exception that ends the process. -/
def local_hcd.bg_work (K : kernel_header) (st : local_hcd) (fetched : Option usb_vhci_ioc_work)
    (data : Option usb_vhci_ioc_urb_data) (fresh : Nat) : Except cpp_exception local_hcd :=
  match usb_vhci_fetch_work K fetched with
  | none => .ok st
  | some (w, res) =>
    match w with
    | .PORT_STAT ps => bg_work_port_stat K st ps fresh
    | .PROCESS_URB hdr => bg_work_process_urb st hdr res data fresh
    | .CANCEL_URB handle =>
      match hcd.cancel_process_urb_work st handle fresh with
      | .error e => .error e
      | .ok r => .ok r.2

def USB_VHCI_STATUS_SHORT_PACKET : Int := 0x10000002
def USB_VHCI_STATUS_ERROR : Int := 0x7ff00000
def USB_VHCI_STATUS_CANCELED : Int := 0x30000001
def USB_VHCI_STATUS_TIMEDOUT : Int := 0x30000002
def USB_VHCI_STATUS_DEVICE_DISABLED : Int := 0x71000001
def USB_VHCI_STATUS_DEVICE_DISCONNECTED : Int := 0x71000002
def USB_VHCI_STATUS_BIT_STUFF : Int := 0x72000001
def USB_VHCI_STATUS_CRC : Int := 0x72000002
def USB_VHCI_STATUS_NO_RESPONSE : Int := 0x72000003
def USB_VHCI_STATUS_BABBLE : Int := 0x72000004
def USB_VHCI_STATUS_BUFFER_OVERRUN : Int := 0x72100001
def USB_VHCI_STATUS_BUFFER_UNDERRUN : Int := 0x72100002
def USB_VHCI_STATUS_ALL_ISO_PACKETS_FAILED : Int := 0x78000001

/-- The `errno` constants of the system header `errno.h` that `libusb_vhci.c` names.
The header is not among the sources, so the constants are a parameter of every
definition that uses them. -/
structure errno_h where
  EINPROGRESS : Int
  EREMOTEIO : Int
  EPROTO : Int
  EXDEV : Int
  ECONNRESET : Int
  ENOENT : Int
  ETIMEDOUT : Int
  ESHUTDOWN : Int
  ENODEV : Int
  EILSEQ : Int
  ETIME : Int
  EOVERFLOW : Int
  EPIPE : Int
  ECOMM : Int
  ENOSR : Int
  EINVAL : Int
  ECANCELED : Int
  deriving DecidableEq

/-- The C function `usb_vhci_to_errno(status, iso_urb)`: a `switch` over the status
constants of `libusb_vhci.h`, which are pairwise distinct. -/
def usb_vhci_to_errno (E : errno_h) (status : Int) (iso_urb : Nat) : Int :=
  if status = USB_VHCI_STATUS_SUCCESS then 0
  else if status = USB_VHCI_STATUS_PENDING then -E.EINPROGRESS
  else if status = USB_VHCI_STATUS_SHORT_PACKET then -E.EREMOTEIO
  else if status = USB_VHCI_STATUS_ERROR then (if iso_urb ≠ 0 then -E.EXDEV else -E.EPROTO)
  else if status = USB_VHCI_STATUS_CANCELED then -E.ECONNRESET
  else if status = USB_VHCI_STATUS_TIMEDOUT then -E.ETIMEDOUT
  else if status = USB_VHCI_STATUS_DEVICE_DISABLED then -E.ESHUTDOWN
  else if status = USB_VHCI_STATUS_DEVICE_DISCONNECTED then -E.ENODEV
  else if status = USB_VHCI_STATUS_BIT_STUFF then -E.EPROTO
  else if status = USB_VHCI_STATUS_CRC then -E.EILSEQ
  else if status = USB_VHCI_STATUS_NO_RESPONSE then -E.ETIME
  else if status = USB_VHCI_STATUS_BABBLE then -E.EOVERFLOW
  else if status = USB_VHCI_STATUS_STALL then -E.EPIPE
  else if status = USB_VHCI_STATUS_BUFFER_OVERRUN then -E.ECOMM
  else if status = USB_VHCI_STATUS_BUFFER_UNDERRUN then -E.ENOSR
  else if status = USB_VHCI_STATUS_ALL_ISO_PACKETS_FAILED then
    (if iso_urb ≠ 0 then -E.EINVAL else -E.EPROTO)
  else -E.EPROTO

/-- The C function `usb_vhci_from_errno(errno, iso_urb)`: a `switch` over `errno`, whose
labels are tested here in source order. A C `switch` has pairwise distinct labels
(`(from_errno_case_labels E).Nodup`); only then is the order of the tests immaterial. -/
def usb_vhci_from_errno (E : errno_h) (errno : Int) (iso_urb : Nat) : Int :=
  if errno = 0 then USB_VHCI_STATUS_SUCCESS
  else if errno = -E.EINPROGRESS then USB_VHCI_STATUS_PENDING
  else if errno = -E.EREMOTEIO then USB_VHCI_STATUS_SHORT_PACKET
  else if errno = -E.ENOENT ∨ errno = -E.ECONNRESET then USB_VHCI_STATUS_CANCELED
  else if errno = -E.ETIMEDOUT then USB_VHCI_STATUS_TIMEDOUT
  else if errno = -E.ESHUTDOWN then USB_VHCI_STATUS_DEVICE_DISABLED
  else if errno = -E.ENODEV then USB_VHCI_STATUS_DEVICE_DISCONNECTED
  else if errno = -E.EPROTO then USB_VHCI_STATUS_BIT_STUFF
  else if errno = -E.EILSEQ then USB_VHCI_STATUS_CRC
  else if errno = -E.ETIME then USB_VHCI_STATUS_NO_RESPONSE
  else if errno = -E.EOVERFLOW then USB_VHCI_STATUS_BABBLE
  else if errno = -E.EPIPE then USB_VHCI_STATUS_STALL
  else if errno = -E.ECOMM then USB_VHCI_STATUS_BUFFER_OVERRUN
  else if errno = -E.ENOSR then USB_VHCI_STATUS_BUFFER_UNDERRUN
  else if errno = -E.EINVAL then
    (if iso_urb ≠ 0 then USB_VHCI_STATUS_ALL_ISO_PACKETS_FAILED else USB_VHCI_STATUS_ERROR)
  else USB_VHCI_STATUS_ERROR

/-- The C function `usb_vhci_to_iso_packets_errno`. -/
def usb_vhci_to_iso_packets_errno (E : errno_h) (status : Int) : Int :=
  usb_vhci_to_errno E status 0

/-- The C function `usb_vhci_from_iso_packets_errno`. -/
def usb_vhci_from_iso_packets_errno (E : errno_h) (errno : Int) : Int :=
  usb_vhci_from_errno E errno 0

/-- The ioctl record `struct usb_vhci_ioc_iso_packet_giveback` of the kernel header. -/
structure usb_vhci_ioc_iso_packet_giveback where
  packet_actual : Nat
  status : Int
  deriving DecidableEq, Repr

/-- The ioctl record `struct usb_vhci_ioc_giveback` of the kernel header, with the
fields that `usb_vhci_giveback` writes; a pointer is `none` when NULL. -/
structure usb_vhci_ioc_giveback where
  handle : Nat
  status : Int
  buffer_actual : Int
  buffer : Option (List Nat)
  iso_packets : Option (List usb_vhci_ioc_iso_packet_giveback)
  packet_count : Int
  error_count : Int
  deriving DecidableEq, Repr

/-- The conversion `(uint32_t)` of an `int32_t`. -/
def to_uint32 (x : Int) : Nat := (x % 2 ^ 32).toNat

/-- The array that the loop of `usb_vhci_giveback` fills, `for(i = 0; i < pc; i++)`: per
packet of the URB the `errno` of its status and its `packet_actual`. -/
def usb_vhci_giveback_loop (E : errno_h) (urb : usb_vhci_urb) (pc : Int) :
    List usb_vhci_ioc_iso_packet_giveback :=
  ((urb.iso_packets.getD []).take pc.toNat).map fun p =>
    { status := usb_vhci_to_iso_packets_errno E p.status,
      packet_actual := to_uint32 p.packet_actual }

/-- The record `gb` that the C function `usb_vhci_giveback(fd, urb)` hands to the
giveback ioctl. For an iso URB the packet array comes from
`malloc(sizeof *gb.iso_packets * pc)`: a negative `pc` turns into a size that no `malloc`
serves, so the pointer stays NULL, and the loop `i < pc` does not run; for `pc` from 0 on
the allocation succeeds in the modelled runs (`malloc(0)` giving a pointer to no entry,
as glibc does). Reading past the end of the array of the URB is undefined in C; the
model stops at its end. -/
def usb_vhci_giveback_record (E : errno_h) (urb : usb_vhci_urb) : usb_vhci_ioc_giveback :=
  let gb : usb_vhci_ioc_giveback :=
    { handle := urb.handle,
      status := usb_vhci_to_errno E urb.status (if usb_vhci_is_iso urb.type then 1 else 0),
      buffer_actual := urb.buffer_actual, buffer := none, iso_packets := none,
      packet_count := 0, error_count := 0 }
  let gb :=
    if usb_vhci_is_in urb.epadr ∧ gb.buffer_actual > 0 then { gb with buffer := urb.buffer }
    else gb
  let gb :=
    if usb_vhci_is_iso urb.type then
      let pc := urb.packet_count
      { gb with
        iso_packets := if pc < 0 then none else some (usb_vhci_giveback_loop E urb pc),
        packet_count := pc, error_count := urb.error_count }
    else gb
  gb

/-- The C function `usb_vhci_giveback(fd, urb)`: the record handed to the ioctl and the
return value. `ioctl_errno` is `none` when the ioctl succeeds and the value of `errno`
when it returns `-1`. -/
def usb_vhci_giveback (E : errno_h) (urb : usb_vhci_urb) (ioctl_errno : Option Int) :
    usb_vhci_ioc_giveback × Int :=
  (usb_vhci_giveback_record E urb,
   match ioctl_errno with
   | some e => if e = E.ECANCELED then 0 else -1
   | none => 0)

/-! ## More of the controller (`hcd.cpp`) -/

/-- The method `hcd::finish_work(w)`: `finishing_work(w)`, then `processing.remove(w)`,
which removes every pointer equal to `w`; `w` is the object the pointer refers to. -/
def hcd.finish_work (st : local_hcd) (w : work) : local_hcd :=
  let st := st.finishing_work w
  { st with processing := st.processing.filter fun x => x.addr != w.addr }

/-- The method `hcd::add_work_enqueued_callback`. -/
def hcd.add_work_enqueued_callback (st : local_hcd) (c : callback) : local_hcd :=
  { st with work_enqueued_callbacks := st.work_enqueued_callbacks ++ [c] }

/-- The method `hcd::remove_work_enqueued_callback`: the first equal callback is
erased. -/
def hcd.remove_work_enqueued_callback (st : local_hcd) (c : callback) : local_hcd :=
  { st with work_enqueued_callbacks := st.work_enqueued_callbacks.erase c }

/-- The controller states that can be reached: from the constructor, by iterations of
the pump (`bg_work` with whatever the kernel answers) and by the operations of the
facade that touch the controller state (`next_work`, `finish_work` of an item in
processing, `cancel_process_urb_work`, adding and removing a callback). The port
operations and the getters only talk to the kernel or read; they leave the state as it
is and so reach nothing new. -/
inductive reachable (K : kernel_header) : local_hcd → Prop where
  | ctor (ports : Nat) (st : local_hcd) : local_hcd.ctor ports = .ok st → reachable K st
  | bg_work (st st' : local_hcd) (fetched : Option usb_vhci_ioc_work)
      (data : Option usb_vhci_ioc_urb_data) (fresh : Nat) :
      reachable K st → st.bg_work K fetched data fresh = .ok st' → reachable K st'
  | next_work (st : local_hcd) : reachable K st → reachable K (hcd.next_work st).2
  | finish_work (st : local_hcd) (w : work) :
      reachable K st → w ∈ st.processing → reachable K (hcd.finish_work st w)
  | cancel_process_urb_work (st st' : local_hcd) (handle fresh : Nat) (r : Bool) :
      reachable K st → hcd.cancel_process_urb_work st handle fresh = .ok (r, st') →
      reachable K st'
  | add_work_enqueued_callback (st : local_hcd) (c : callback) :
      reachable K st → reachable K (hcd.add_work_enqueued_callback st c)
  | remove_work_enqueued_callback (st : local_hcd) (c : callback) :
      reachable K st → reachable K (hcd.remove_work_enqueued_callback st c)

/-- The `errno` values of Linux (`asm-generic/errno-base.h`, `asm-generic/errno.h`), for
concrete runs. -/
def errno_linux : errno_h :=
  { EINPROGRESS := 115, EREMOTEIO := 121, EPROTO := 71, EXDEV := 18, ECONNRESET := 104,
    ENOENT := 2, ETIMEDOUT := 110, ESHUTDOWN := 108, ENODEV := 19, EILSEQ := 84, ETIME := 62,
    EOVERFLOW := 75, EPIPE := 32, ECOMM := 70, ENOSR := 63, EINVAL := 22, ECANCELED := 125 }

/-! ## More of the class `usb::urb` (`libusb_vhci.h`, `urb.cpp`) -/

/-- The enumerator `urb_type_isochronous` of `enum urb_type`. -/
def urb_type_isochronous : Nat := USB_VHCI_URB_TYPE_ISO

/-- The enumerator `urb_type_interrupt` of `enum urb_type`. -/
def urb_type_interrupt : Nat := USB_VHCI_URB_TYPE_INT

/-- The enumerator `urb_type_control` of `enum urb_type`. -/
def urb_type_control : Nat := USB_VHCI_URB_TYPE_CONTROL

/-- The enumerator `urb_type_bulk` of `enum urb_type`. -/
def urb_type_bulk : Nat := USB_VHCI_URB_TYPE_BULK

/-- The end of the field-wise constructor (`if(buffer_length) ...`): the payload buffer
is taken over, copied, or allocated, and the object is complete. `new uint8_t[n]` with a
negative `n` throws `std::bad_alloc`; the model reads zero in memory that `new` left
uninitialised. -/
def urb.urb_fields_buffer (self : usb_vhci_urb) (buffer_length : Int)
    (buffer : Option (List Nat)) (own_buffer : Bool) : Except cpp_exception urb :=
  if buffer_length ≠ 0 then
    match buffer with
    | some b =>
      if own_buffer then .ok ⟨{ self with buffer := some b }⟩
      else if buffer_length < 0 then .error .bad_alloc
      else .ok ⟨{ self with buffer := some (copy_array (some b) buffer_length 0) }⟩
    | none =>
      if buffer_length < 0 then .error .bad_alloc
      else .ok ⟨{ self with buffer := some (copy_array none buffer_length 0) }⟩
  else .ok ⟨self⟩

/-- The field-wise constructor `urb::urb(handle, type, buffer_length, buffer, own_buffer,
iso_packet_count, iso_packets, own_iso_packets, buffer_actual, status, error_count, flags,
interval, devadr, epadr, bmRequestType, bRequest, wValue, wIndex, wLength)`. The record
starts zeroed (`_urb()`); a pointer argument is `none` when NULL;
`new usb_vhci_iso_packet[n]` with a negative `n` throws `std::bad_alloc`. -/
def urb.urb_fields (handle type : Nat) (buffer_length : Int) (buffer : Option (List Nat))
    (own_buffer : Bool) (iso_packet_count : Int)
    (iso_packets : Option (List usb_vhci_iso_packet)) (own_iso_packets : Bool)
    (buffer_actual status error_count : Int)
    (flags interval devadr epadr bmRequestType bRequest wValue wIndex wLength : Nat) :
    Except cpp_exception urb :=
  let self : usb_vhci_urb :=
    { usb_vhci_urb.zero with
      handle := handle, buffer_length := buffer_length, buffer_actual := buffer_actual,
      status := status, flags := flags, interval := (interval : Int), devadr := devadr,
      epadr := epadr }
  if type ≠ urb_type_control ∧ bmRequestType ≠ 0 then
    .error (.invalid_argument "bmRequestType")
  else if type ≠ urb_type_control ∧ bRequest ≠ 0 then .error (.invalid_argument "bRequest")
  else if type ≠ urb_type_control ∧ wValue ≠ 0 then .error (.invalid_argument "wValue")
  else if type ≠ urb_type_control ∧ wIndex ≠ 0 then .error (.invalid_argument "wIndex")
  else if type ≠ urb_type_control ∧ wLength ≠ 0 then .error (.invalid_argument "wLength")
  else if type ≠ urb_type_isochronous ∧ iso_packet_count ≠ 0 then
    .error (.invalid_argument "iso_packet_count")
  else if type ≠ urb_type_isochronous ∧ iso_packets ≠ none then
    .error (.invalid_argument "iso_packets")
  else if type ≠ urb_type_isochronous ∧ error_count ≠ 0 then
    .error (.invalid_argument "error_count")
  else if type = urb_type_isochronous then
    let self := { self with type := USB_VHCI_URB_TYPE_ISO, packet_count := iso_packet_count,
                            error_count := error_count }
    if iso_packet_count ≠ 0 then
      if buffer_length = 0 then .error (.invalid_argument "iso_packet_count")
      else
        match iso_packets with
        | some p =>
          if own_iso_packets then
            urb.urb_fields_buffer { self with iso_packets := some p }
              buffer_length buffer own_buffer
          else if iso_packet_count < 0 then .error .bad_alloc
          else
            urb.urb_fields_buffer
              { self with
                iso_packets := some (copy_array (some p) iso_packet_count ⟨0, 0, 0, 0⟩) }
              buffer_length buffer own_buffer
        | none => .error (.invalid_argument "iso_packets")
    else urb.urb_fields_buffer self buffer_length buffer own_buffer
  else if type = urb_type_interrupt then
    urb.urb_fields_buffer { self with type := USB_VHCI_URB_TYPE_INT }
      buffer_length buffer own_buffer
  else if type = urb_type_control then
    urb.urb_fields_buffer
      { self with type := USB_VHCI_URB_TYPE_CONTROL, bmRequestType := bmRequestType,
                  bRequest := bRequest, wValue := wValue, wIndex := wIndex,
                  wLength := wLength }
      buffer_length buffer own_buffer
  else if type = urb_type_bulk then
    if interval ≠ 0 then .error (.invalid_argument "interval")
    else urb.urb_fields_buffer { self with type := USB_VHCI_URB_TYPE_BULK }
      buffer_length buffer own_buffer
  else .error (.invalid_argument "type")

/-- The constructor `urb::urb(const usb_vhci_urb& urb)`, which copies the payload and the
iso packets of the header. -/
def urb.urb_copy (u : usb_vhci_urb) : Except cpp_exception urb :=
  match urb._chk { u with buffer := none, iso_packets := none } with
  | .error e => .error e
  | .ok self =>
    match urb._cpy self u with
    | .error e => .error e
    | .ok self => .ok ⟨self⟩

def urb.get_buffer_length (u : urb) : Int := u._urb.buffer_length
def urb.get_buffer_actual (u : urb) : Int := u._urb.buffer_actual
def urb.get_iso_packet_count (u : urb) : Int := u._urb.packet_count
def urb.get_iso_error_count (u : urb) : Int := u._urb.error_count

/-- The getter `get_iso_packet_status(index)`, `_urb.iso_packets[index].status`. Reading
through a NULL pointer or past the end of the array is undefined in C++; the model reads
a zeroed packet there. -/
def urb.get_iso_packet_status (u : urb) (index : Int) : Int :=
  ((u._urb.iso_packets.getD []).getD index.toNat ⟨0, 0, 0, 0⟩).status

def urb.get_type (u : urb) : Nat := u._urb.type
def urb.is_isochronous (u : urb) : Bool := u.get_type == urb_type_isochronous
def urb.set_buffer_actual (u : urb) (value : Int) : urb :=
  { u with _urb := { u._urb with buffer_actual := value } }
def urb.set_iso_error_count (u : urb) (value : Int) : urb :=
  { u with _urb := { u._urb with error_count := value } }

/-- The counting loop of `urb::set_iso_results`,
`for(i; i < get_iso_packet_count(); i++) if(status(i) != SUCCESS) errors++;`, from the
index `i` and the count `errors` on; `fuel` bounds the number of iterations. -/
def set_iso_results_loop (u : urb) : Nat → Int → Int → Int
  | 0, _, errors => errors
  | fuel + 1, i, errors =>
    if i < u.get_iso_packet_count then
      set_iso_results_loop u fuel (i + 1)
        (if u.get_iso_packet_status i ≠ USB_VHCI_STATUS_SUCCESS then errors + 1 else errors)
    else errors

/-- The method `urb::set_iso_results()`. The loop leaves after `packet_count` iterations
(none when `packet_count` is negative), which is the fuel it gets. -/
def urb.set_iso_results (u : urb) : Except cpp_exception urb :=
  if !u.is_isochronous then .error (.logic_error "not an isochronous urb")
  else
    let errors := set_iso_results_loop u u.get_iso_packet_count.toNat 0 0
    let u := u.set_iso_error_count errors
    let u :=
      if errors = u.get_iso_packet_count then u.set_status USB_VHCI_STATUS_ALL_ISO_PACKETS_FAILED
      else u.ack
    let u := if u.is_in then u.set_buffer_actual u.get_buffer_length else u
    .ok u

/-! ## Port operations (`libusb_vhci.h`, `libusb_vhci.c`, `local_hcd.cpp`) -/

def USB_VHCI_DATA_RATE_FULL : Nat := 0
def USB_VHCI_DATA_RATE_LOW : Nat := 1
def USB_VHCI_DATA_RATE_HIGH : Nat := 2

/-- Modelled from the spec: the port status bit `USB_PORT_STAT_CONNECTION` of the kernel
headers, which are not among the sources (port status bits: connection = 0x0001). -/
def USB_PORT_STAT_CONNECTION : Nat := 0x0001

/-- Modelled from the spec: the port status bit `USB_PORT_STAT_ENABLE` of the kernel
headers, which are not among the sources (port status bits: enable = 0x0002). -/
def USB_PORT_STAT_ENABLE : Nat := 0x0002

/-- Modelled from the spec: the port status bit `USB_PORT_STAT_OVERCURRENT` of the
kernel headers, which are not among the sources (port status bits: overcurrent =
0x0008). -/
def USB_PORT_STAT_OVERCURRENT : Nat := 0x0008

/-- Modelled from the spec: the port status bit `USB_PORT_STAT_LOW_SPEED` of the kernel
headers, which are not among the sources (port status bits: low_speed = 0x0200). -/
def USB_PORT_STAT_LOW_SPEED : Nat := 0x0200

/-- Modelled from the spec: the port status bit `USB_PORT_STAT_HIGH_SPEED` of the kernel
headers, which are not among the sources (port status bits: high_speed = 0x0400). -/
def USB_PORT_STAT_HIGH_SPEED : Nat := 0x0400

/-- Modelled from the spec: the port change bit `USB_PORT_STAT_C_CONNECTION` of the
kernel headers, which are not among the sources (the change bits share the low five
status bits: connection = 0x0001). -/
def USB_PORT_STAT_C_CONNECTION : Nat := 0x0001

/-- Modelled from the spec: the port change bit `USB_PORT_STAT_C_ENABLE` of the kernel
headers, which are not among the sources (the change bits share the low five status
bits: enable = 0x0002). -/
def USB_PORT_STAT_C_ENABLE : Nat := 0x0002

/-- Modelled from the spec: the port change bit `USB_PORT_STAT_C_SUSPEND` of the kernel
headers, which are not among the sources (the change bits share the low five status
bits: suspend = 0x0004). -/
def USB_PORT_STAT_C_SUSPEND : Nat := 0x0004

/-- Modelled from the spec: the port change bit `USB_PORT_STAT_C_OVERCURRENT` of the
kernel headers, which are not among the sources (the change bits share the low five
status bits: overcurrent = 0x0008). -/
def USB_PORT_STAT_C_OVERCURRENT : Nat := 0x0008

/-- Modelled from the spec: the port change bit `USB_PORT_STAT_C_RESET` of the kernel
headers, which are not among the sources (the change bits share the low five status
bits: reset = 0x0010). -/
def USB_PORT_STAT_C_RESET : Nat := 0x0010

/-- The end of every C port function: the record `ps` goes to the port-stat ioctl, which
succeeds or not (`ioctl_ok`). Gives the record handed to the kernel and the return
value. -/
def port_stat_ioctl (ps : usb_vhci_ioc_port_stat) (ioctl_ok : Bool) :
    Option usb_vhci_ioc_port_stat × Int :=
  (some ps, if ioctl_ok then 0 else -1)

/-- The C function `usb_vhci_port_connect(fd, port, data_rate)`: the record handed to the
kernel (`none` when the function returns before the ioctl, with `errno = EINVAL`) and the
return value. -/
def usb_vhci_port_connect (port data_rate : Nat) (ioctl_ok : Bool) :
    Option usb_vhci_ioc_port_stat × Int :=
  if port = 0 ∨ (data_rate ≠ USB_VHCI_DATA_RATE_FULL ∧ data_rate ≠ USB_VHCI_DATA_RATE_LOW ∧
      data_rate ≠ USB_VHCI_DATA_RATE_HIGH) then (none, -1)
  else
    let status := USB_PORT_STAT_CONNECTION
    let status :=
      if data_rate = USB_VHCI_DATA_RATE_LOW then status ||| USB_PORT_STAT_LOW_SPEED else status
    let status :=
      if data_rate = USB_VHCI_DATA_RATE_HIGH then status ||| USB_PORT_STAT_HIGH_SPEED
      else status
    port_stat_ioctl { status := status, change := USB_PORT_STAT_C_CONNECTION, index := port,
                      flags := 0 } ioctl_ok

/-- The C function `usb_vhci_port_disconnect(fd, port)`. -/
def usb_vhci_port_disconnect (port : Nat) (ioctl_ok : Bool) :
    Option usb_vhci_ioc_port_stat × Int :=
  if port = 0 then (none, -1)
  else port_stat_ioctl { status := 0, change := USB_PORT_STAT_C_CONNECTION, index := port,
                         flags := 0 } ioctl_ok

/-- The C function `usb_vhci_port_disable(fd, port)`. -/
def usb_vhci_port_disable (port : Nat) (ioctl_ok : Bool) :
    Option usb_vhci_ioc_port_stat × Int :=
  if port = 0 then (none, -1)
  else port_stat_ioctl { status := 0, change := USB_PORT_STAT_C_ENABLE, index := port,
                         flags := 0 } ioctl_ok

/-- The C function `usb_vhci_port_resumed(fd, port)`. -/
def usb_vhci_port_resumed (port : Nat) (ioctl_ok : Bool) :
    Option usb_vhci_ioc_port_stat × Int :=
  if port = 0 then (none, -1)
  else port_stat_ioctl { status := 0, change := USB_PORT_STAT_C_SUSPEND, index := port,
                         flags := 0 } ioctl_ok

/-- The C function `usb_vhci_port_overcurrent(fd, port, set)`. -/
def usb_vhci_port_overcurrent (port set : Nat) (ioctl_ok : Bool) :
    Option usb_vhci_ioc_port_stat × Int :=
  if port = 0 then (none, -1)
  else port_stat_ioctl { status := if set ≠ 0 then USB_PORT_STAT_OVERCURRENT else 0,
                         change := USB_PORT_STAT_C_OVERCURRENT, index := port, flags := 0 }
    ioctl_ok

/-- The C function `usb_vhci_port_reset_done(fd, port, enable)`. -/
def usb_vhci_port_reset_done (port enable : Nat) (ioctl_ok : Bool) :
    Option usb_vhci_ioc_port_stat × Int :=
  if port = 0 then (none, -1)
  else
    let change := USB_PORT_STAT_C_RESET
    let change := change ||| (if enable ≠ 0 then 0 else USB_PORT_STAT_C_ENABLE)
    port_stat_ioctl { status := if enable ≠ 0 then USB_PORT_STAT_ENABLE else 0,
                      change := change, index := port, flags := 0 } ioctl_ok

/-- What a port operation of the facade leaves behind: the exception it throws, if any,
the record it handed to the kernel, if any, and the controller state afterwards. -/
structure port_op_result where
  exception : Option cpp_exception
  pushed : Option usb_vhci_ioc_port_stat
  st : local_hcd
  deriving DecidableEq

/-- The common body of the port operations of `local_hcd`: the two checks of `port`, the
call of the C function (`call port`), and `throw std::exception()` when it returns
`-1`. -/
def local_hcd.port_op (st : local_hcd) (port : Nat)
    (call : Nat → Option usb_vhci_ioc_port_stat × Int) : port_op_result :=
  if port = 0 then ⟨some (.invalid_argument "port"), none, st⟩
  else if port > hcd.get_port_count st then ⟨some (.out_of_range "port"), none, st⟩
  else
    let r := call port
    if r.2 = -1 then ⟨some .exception, r.1, st⟩ else ⟨none, r.1, st⟩

/-- The method `local_hcd::port_connect(port, rate)`. -/
def local_hcd.port_connect (st : local_hcd) (port rate : Nat) (ioctl_ok : Bool) :
    port_op_result :=
  st.port_op port fun p => usb_vhci_port_connect p rate ioctl_ok

/-- The method `local_hcd::port_disconnect(port)`. -/
def local_hcd.port_disconnect (st : local_hcd) (port : Nat) (ioctl_ok : Bool) :
    port_op_result :=
  st.port_op port fun p => usb_vhci_port_disconnect p ioctl_ok

/-- The method `local_hcd::port_disable(port)`. -/
def local_hcd.port_disable (st : local_hcd) (port : Nat) (ioctl_ok : Bool) : port_op_result :=
  st.port_op port fun p => usb_vhci_port_disable p ioctl_ok

/-- The method `local_hcd::port_resumed(port)`. -/
def local_hcd.port_resumed (st : local_hcd) (port : Nat) (ioctl_ok : Bool) : port_op_result :=
  st.port_op port fun p => usb_vhci_port_resumed p ioctl_ok

/-- The method `local_hcd::port_overcurrent(port, set)`; the `bool` becomes 1 or 0. -/
def local_hcd.port_overcurrent (st : local_hcd) (port : Nat) (set : Bool) (ioctl_ok : Bool) :
    port_op_result :=
  st.port_op port fun p => usb_vhci_port_overcurrent p (if set then 1 else 0) ioctl_ok

/-- The method `local_hcd::port_reset_done(port, enable)`; the `bool` becomes 1 or 0. -/
def local_hcd.port_reset_done (st : local_hcd) (port : Nat) (enable : Bool)
    (ioctl_ok : Bool) : port_op_result :=
  st.port_op port fun p => usb_vhci_port_reset_done p (if enable then 1 else 0) ioctl_ok

/-- The locked second part of the `USB_VHCI_WORK_TYPE_PROCESS_URB` case of
`local_hcd::bg_work` in a run where `enqueue_work` throws `bad_alloc`: the
`SET_ADDRESS?` block has run, the handler writes `rollback_address` back, and the pump
leaves the lock for `retry_pu` with nothing enqueued. Gives the state at that point. -/
def bg_work_route_urb_nomem (st : local_hcd) (devadr : Nat) (u : urb) (fresh : Nat) :
    Except cpp_exception local_hcd :=
  match st.port_from_address devadr with
  | .error e => .error e
  | .ok index =>
    if index = 0 then .ok st
    else
      match process_urb_work.ctor fresh index (some u) with
      | .error e => .error e
      | .ok _ =>
        let rollback_address := (st.port_info_at (index - 1)).adr
        let r := bg_work_set_address st index u
        .ok (r.2.set_adr (index - 1) rollback_address)

/-! ## Concrete inputs -/

/-- A kernel header for concrete runs: resuming flag `0x01`, URB flags `0x0001` and
`0x0040`. -/
def header_1 : kernel_header :=
  { USB_VHCI_PORT_STAT_FLAG_RESUMING := 0x01, USB_VHCI_URB_FLAGS_SHORT_NOT_OK := 0x0001,
    USB_VHCI_URB_FLAGS_ZERO_PACKET := 0x0040 }

/-- A controller with one port, whose address is `adr` and whose snapshot is `stat`,
an empty inbox and an empty processing list. -/
def one_port_hcd (adr : Nat) (stat : port_stat) : local_hcd :=
  { port_info := [{ adr := adr, stat := stat }], inbox := [], processing := [],
    work_enqueued_callbacks := [], givebacks := [], callback_calls := [] }

/-- The kernel's header of a control URB without payload for device address 0, with
`bmRequestType = 0`, `bRequest = 5` (`SET_ADDRESS`), `wLength = 0` and the given
`wValue` and endpoint address. -/
def set_address_urb (wValue endpoint : Nat) : usb_vhci_ioc_urb :=
  { setup_packet := { bmRequestType := 0, bRequest := 5, wValue := wValue, wIndex := 0,
                      wLength := 0 },
    buffer_length := 0, interval := 0, packet_count := 0, flags := 0, address := 0,
    endpoint := endpoint, type := USB_VHCI_URB_TYPE_CONTROL }

/-- The URB object that the pump obtains from `set_address_urb wValue endpoint` under
the handle `handle`, with the given status. -/
def set_address_urb_object (handle wValue endpoint : Nat) (status : Int) : urb :=
  { _urb := { usb_vhci_urb.zero with
      handle := handle, status := status, wValue := wValue, bRequest := 5,
      epadr := endpoint, type := USB_VHCI_URB_TYPE_CONTROL } }

/-- The `process_urb_work` item at address `addr` for port 1 that carries
`set_address_urb_object handle 42 0 USB_VHCI_STATUS_SUCCESS`. -/
def urb_item (addr handle : Nat) (canceled : Bool) : work :=
  { addr := addr, port := 1, canceled := canceled,
    derived := .process_urb_work (set_address_urb_object handle 42 0 USB_VHCI_STATUS_SUCCESS) }

/-- The kernel's header of a control URB without payload for device address 0 and
endpoint 0, with `bmRequestType = 0x80` and `bRequest = 6` (`GET_DESCRIPTOR`). -/
def get_descriptor_urb : usb_vhci_ioc_urb :=
  { set_address_urb 0x0100 0x80 with
    setup_packet := { bmRequestType := 0x80, bRequest := 6, wValue := 0x0100, wIndex := 0,
                      wLength := 0 } }

/-- The URB object that the pump obtains from `get_descriptor_urb` under the handle 9. -/
def get_descriptor_urb_object : urb :=
  { _urb := { usb_vhci_urb.zero with
      handle := 9, status := USB_VHCI_STATUS_PENDING, wValue := 0x0100, bmRequestType := 0x80,
      bRequest := 6, epadr := 0x80, type := USB_VHCI_URB_TYPE_CONTROL } }

/-- A controller with two ports, the given inbox and an empty processing list. -/
def two_port_hcd (info1 info2 : _port_info) (inbox : List work) : local_hcd :=
  { port_info := [info1, info2], inbox := inbox, processing := [],
    work_enqueued_callbacks := [], givebacks := [], callback_calls := [] }

/-- The `port_stat_work` item at address `addr` for the record `0x0103 / 0x0010` (reset
completed, port enabled) on a port without previous status: trigger flags `0x10`. -/
def reset_done_item (addr port : Nat) : work :=
  { addr := addr, port := port, canceled := false,
    derived := .port_stat_work ⟨0x0103, 0x0010, 0⟩ USB_VHCI_PORT_STAT_TRIGGER_POWER_ON }

/-- A wire header of a bulk URB to endpoint 2 of device 1 without payload, with the given
`wValue` and `interval`. -/
def bulk_header (wValue : Nat) (interval : Int) : usb_vhci_urb :=
  { usb_vhci_urb.zero with
    handle := 7, status := USB_VHCI_STATUS_PENDING, devadr := 1, epadr := 0x02,
    wValue := wValue, interval := interval, type := USB_VHCI_URB_TYPE_BULK }

/-- A wire header of an isochronous URB from endpoint 1 (IN, `0x81`) of device 1 with a
payload buffer of 4 bytes, `packet_count` iso packets announced and the given iso packet
array. -/
def iso_header (packet_count : Int) (iso_packets : Option (List usb_vhci_iso_packet)) :
    usb_vhci_urb :=
  { usb_vhci_urb.zero with
    handle := 7, status := USB_VHCI_STATUS_PENDING, devadr := 1, epadr := 0x81,
    buffer_length := 4, buffer := some [0, 0, 0, 0], packet_count := packet_count,
    iso_packets := iso_packets, type := USB_VHCI_URB_TYPE_ISO }

/-! ## Lemmas -/

/-- Six conditional or-assignments of the six trigger bits into a zero byte: each bit
of the result reports its own condition, and the result stays below `2 ^ 6`. -/
theorem trigger_bits_core (c1 c2 c3 c4 c5 c6 : Prop) [Decidable c1] [Decidable c2]
    [Decidable c3] [Decidable c4] [Decidable c5] [Decidable c6] (t : Nat)
    (ht : t =
      (let flags : Nat := 0
       let flags := if c1 then flags ||| USB_VHCI_PORT_STAT_TRIGGER_DISABLE else flags
       let flags := if c2 then flags ||| USB_VHCI_PORT_STAT_TRIGGER_SUSPEND else flags
       let flags := if c3 then flags ||| USB_VHCI_PORT_STAT_TRIGGER_RESUMING else flags
       let flags := if c4 then flags ||| USB_VHCI_PORT_STAT_TRIGGER_RESET else flags
       let flags := if c5 then flags ||| USB_VHCI_PORT_STAT_TRIGGER_POWER_ON else flags
       let flags := if c6 then flags ||| USB_VHCI_PORT_STAT_TRIGGER_POWER_OFF else flags
       flags)) :
    (t &&& USB_VHCI_PORT_STAT_TRIGGER_DISABLE ≠ 0 ↔ c1) ∧
    (t &&& USB_VHCI_PORT_STAT_TRIGGER_SUSPEND ≠ 0 ↔ c2) ∧
    (t &&& USB_VHCI_PORT_STAT_TRIGGER_RESUMING ≠ 0 ↔ c3) ∧
    (t &&& USB_VHCI_PORT_STAT_TRIGGER_RESET ≠ 0 ↔ c4) ∧
    (t &&& USB_VHCI_PORT_STAT_TRIGGER_POWER_ON ≠ 0 ↔ c5) ∧
    (t &&& USB_VHCI_PORT_STAT_TRIGGER_POWER_OFF ≠ 0 ↔ c6) ∧
    t < 2 ^ 6 := by
  subst ht
  by_cases h1 : c1 <;> by_cases h2 : c2 <;> by_cases h3 : c3 <;> by_cases h4 : c4 <;>
    by_cases h5 : c5 <;> by_cases h6 : c6 <;>
    simp only [h1, h2, h3, h4, h5, h6, if_true, if_false, iff_true, iff_false, not_not] <;>
    decide

theorem port_info_at_set_adr_same (st : local_hcd) (i a : Nat) (h : i < st.port_info.length) :
    (st.set_adr i a).port_info_at i = { st.port_info_at i with adr := a } := by
  simp [local_hcd.set_adr, local_hcd.port_info_at, List.getD_eq_getElem?_getD, h]

theorem port_info_at_set_adr_ne (st : local_hcd) (i j a : Nat) (h : i ≠ j) :
    (st.set_adr i a).port_info_at j = st.port_info_at j := by
  simp [local_hcd.set_adr, local_hcd.port_info_at, List.getD_eq_getElem?_getD, h]

theorem port_info_at_set_stat_same (st : local_hcd) (i : Nat) (s : port_stat)
    (h : i < st.port_info.length) :
    (st.set_stat i s).port_info_at i = { st.port_info_at i with stat := s } := by
  simp [local_hcd.set_stat, local_hcd.port_info_at, List.getD_eq_getElem?_getD, h]

theorem port_info_at_set_stat_ne (st : local_hcd) (i j : Nat) (s : port_stat) (h : i ≠ j) :
    (st.set_stat i s).port_info_at j = st.port_info_at j := by
  simp [local_hcd.set_stat, local_hcd.port_info_at, List.getD_eq_getElem?_getD, h]

theorem port_from_address_loop_bounds (address : Nat) (l : List _port_info) (i : Nat)
    (h : port_from_address_loop address l i ≠ 0) :
    i < port_from_address_loop address l i ∧ port_from_address_loop address l i ≤ i + l.length := by
  induction l generalizing i with
  | nil => simp [port_from_address_loop] at h
  | cons info infos ih =>
    simp only [port_from_address_loop] at h ⊢
    split
    · simp
    · rename_i hne
      simp only [hne, if_false] at h
      have := ih (i + 1) h
      simp only [List.length_cons]
      omega

theorem and7_of_and15 (x : Nat) (h : x &&& 0x0f = 0) : x &&& 0x07 = 0 := by
  have h1 : x &&& 0x07 = (x &&& 0x0f) &&& 0x07 := by
    rw [Nat.and_assoc]; rfl
  rw [h1, h]; rfl

/-- An URB object that the pump obtains keeps the scalar fields of the header. -/
theorem urb_own_fields (hdr : usb_vhci_urb) (u : urb) (h : urb.urb_own hdr true = .ok u) :
    u._urb.status = hdr.status ∧ u._urb.type = hdr.type ∧ u._urb.epadr = hdr.epadr ∧
    u._urb.devadr = hdr.devadr ∧ u._urb.handle = hdr.handle ∧ u._urb.wValue = hdr.wValue ∧
    u._urb.bmRequestType = hdr.bmRequestType ∧ u._urb.bRequest = hdr.bRequest := by
  unfold urb.urb_own at h
  simp only [Bool.not_true, Bool.false_eq_true, if_false] at h
  cases hc : urb._chk hdr with
  | error e => simp [hc] at h
  | ok self =>
    simp only [hc] at h
    have hs : self.status = hdr.status ∧ self.type = hdr.type ∧ self.epadr = hdr.epadr ∧
        self.devadr = hdr.devadr ∧ self.handle = hdr.handle ∧ self.wValue = hdr.wValue ∧
        self.bmRequestType = hdr.bmRequestType ∧ self.bRequest = hdr.bRequest := by
      unfold urb._chk at hc
      split_ifs at hc <;> simp at hc <;> (subst hc; simp)
    split_ifs at h
    simp at h
    subst h
    exact hs

theorem bg_work_fetch_urb_fields (hdr : usb_vhci_urb) (res : Int)
    (data : Option usb_vhci_ioc_urb_data) (u : urb)
    (h : bg_work_fetch_urb hdr res data = .ok (some u)) :
    u._urb.status = hdr.status ∧ u._urb.type = hdr.type ∧ u._urb.epadr = hdr.epadr ∧
    u._urb.devadr = hdr.devadr ∧ u._urb.handle = hdr.handle ∧ u._urb.wValue = hdr.wValue ∧
    u._urb.bmRequestType = hdr.bmRequestType ∧ u._urb.bRequest = hdr.bRequest := by
  unfold bg_work_fetch_urb at h
  simp only at h
  split at h
  · exact absurd h (by simp)
  · rename_i u0 hu0
    have hf := urb_own_fields _ _ hu0
    have hf' : u0._urb.status = hdr.status ∧ u0._urb.type = hdr.type ∧ u0._urb.epadr = hdr.epadr ∧
        u0._urb.devadr = hdr.devadr ∧ u0._urb.handle = hdr.handle ∧ u0._urb.wValue = hdr.wValue ∧
        u0._urb.bmRequestType = hdr.bmRequestType ∧ u0._urb.bRequest = hdr.bRequest := by
      clear h hu0
      split_ifs at hf <;> simpa using hf
    clear hf hu0
    split_ifs at h with h1 h2
    · simp at h
    · simp only [Except.ok.injEq, Option.some.injEq] at h
      subst h
      cases data with
      | none => simp [usb_vhci_fetch_data] at h2
      | some dd => simpa [usb_vhci_fetch_data] using hf'
    · simp only [Except.ok.injEq, Option.some.injEq] at h
      subst h
      exact hf'

/-- What the decoder writes into the header of an URB event. -/
theorem fetch_work_process_urb_fields (K : kernel_header) (handle : Nat) (ku : usb_vhci_ioc_urb)
    (hdr : usb_vhci_urb) (res : Int)
    (h : usb_vhci_fetch_work K (some (.PROCESS_URB handle ku)) = some (.PROCESS_URB hdr, res)) :
    hdr.status = USB_VHCI_STATUS_PENDING ∧ hdr.type = ku.type ∧ hdr.epadr = ku.endpoint ∧
    hdr.devadr = ku.address ∧ hdr.handle = handle ∧
    (ku.type = USB_VHCI_URB_TYPE_CONTROL →
      hdr.wValue = ku.setup_packet.wValue ∧ hdr.bmRequestType = ku.setup_packet.bmRequestType ∧
      hdr.bRequest = ku.setup_packet.bRequest) := by
  have key : hdr.status = USB_VHCI_STATUS_PENDING ∧ hdr.type = ku.type ∧
      hdr.epadr = ku.endpoint ∧ hdr.devadr = ku.address ∧ hdr.handle = handle ∧
      (ku.type = USB_VHCI_URB_TYPE_CONTROL →
        hdr.wValue = ku.setup_packet.wValue ∧
        hdr.bmRequestType = ku.setup_packet.bmRequestType ∧
        hdr.bRequest = ku.setup_packet.bRequest) := by
    simp only [usb_vhci_fetch_work, usb_vhci_fetch_work_timeout] at h
    by_cases hc : ku.type = USB_VHCI_URB_TYPE_CONTROL
    · simp [hc, usb_vhci_urb.zero, USB_VHCI_URB_TYPE_CONTROL, USB_VHCI_URB_TYPE_ISO,
        USB_VHCI_URB_TYPE_INT] at h
      obtain ⟨h1, _⟩ := h
      subst h1
      split_ifs <;> simp [hc, USB_VHCI_URB_TYPE_CONTROL]
    · refine ⟨?_, ?_, ?_, ?_, ?_, fun h' => absurd h' hc⟩ <;>
        (split_ifs at h <;> simp [usb_vhci_urb.zero] at h <;>
          (obtain ⟨h1, _⟩ := h; subst h1; rfl))
  exact key

/-- A control URB event is always decoded, into a header without buffers. -/
theorem fetch_work_control (K : kernel_header) (handle : Nat) (ku : usb_vhci_ioc_urb)
    (hc : ku.type = USB_VHCI_URB_TYPE_CONTROL) :
    ∃ hdr res, usb_vhci_fetch_work K (some (.PROCESS_URB handle ku)) = some (.PROCESS_URB hdr, res) ∧
      hdr.type = USB_VHCI_URB_TYPE_CONTROL ∧ hdr.buffer = none ∧ hdr.iso_packets = none ∧
      hdr.packet_count = 0 := by
  simp [usb_vhci_fetch_work, usb_vhci_fetch_work_timeout, hc, usb_vhci_urb.zero,
    USB_VHCI_URB_TYPE_CONTROL, USB_VHCI_URB_TYPE_ISO, USB_VHCI_URB_TYPE_INT]
  split_ifs <;> simp

/-- The pump wraps every decoded control header whose payload fetch does not fail. -/
theorem bg_work_fetch_urb_control (hdr : usb_vhci_urb) (res : Int) (d : usb_vhci_ioc_urb_data)
    (ht : hdr.type = USB_VHCI_URB_TYPE_CONTROL) (hb : hdr.buffer = none)
    (hi : hdr.iso_packets = none) (hpc : hdr.packet_count = 0) :
    ∃ u, bg_work_fetch_urb hdr res (some d) = .ok (some u) := by
  cases hdr
  simp only at ht hb hi hpc
  subst ht hb hi hpc
  unfold bg_work_fetch_urb urb.urb_own urb._chk usb_vhci_fetch_data
  rename_i buffer_length _ _ _ _ _ _ _ _ _ _ _ _
  by_cases hbl : buffer_length = 0 <;> by_cases hres : res = 0 <;>
    simp [hbl, hres, USB_VHCI_URB_TYPE_CONTROL, USB_VHCI_URB_TYPE_ISO, USB_VHCI_URB_TYPE_INT]

/-- An URB event that is decoded, wrapped and resolved to a port is enqueued for that
port after the `SET_ADDRESS?` block. -/
theorem bg_work_routed (K : kernel_header) (st : local_hcd) (handle : Nat)
    (ku : usb_vhci_ioc_urb) (data : Option usb_vhci_ioc_urb_data) (fresh p : Nat)
    (hdr : usb_vhci_urb) (res : Int) (u : urb)
    (hdec : usb_vhci_fetch_work K (some (.PROCESS_URB handle ku)) = some (.PROCESS_URB hdr, res))
    (hfetch : bg_work_fetch_urb hdr res data = .ok (some u))
    (hp : st.port_from_address hdr.devadr = .ok p) (hp0 : p ≠ 0) :
    st.bg_work K (some (.PROCESS_URB handle ku)) data fresh =
      .ok (hcd.on_work_enqueued (hcd.enqueue_work (bg_work_set_address st p u).2
        { addr := fresh, port := p, canceled := false,
          derived := .process_urb_work (bg_work_set_address st p u).1 })) := by
  simp [local_hcd.bg_work, hdec, bg_work_process_urb, hfetch, bg_work_route_urb, hp, hp0,
    process_urb_work.ctor]

theorem address_from_port_set_adr (st : local_hcd) (i a q : Nat) :
    (st.set_adr i a).address_from_port q =
      if q = i + 1 ∧ i < st.port_info.length then .ok a else st.address_from_port q := by
  unfold local_hcd.address_from_port hcd.get_port_count
  have hlen : (st.set_adr i a).port_info.length = st.port_info.length := by
    simp [local_hcd.set_adr]
  rw [hlen]
  by_cases hq : q = i + 1
  · subst hq
    by_cases hi : i < st.port_info.length
    · have h1 : ¬ (i + 1 > st.port_info.length) := by omega
      simp [hi, h1, port_info_at_set_adr_same]
    · have h1 : i + 1 > st.port_info.length := by omega
      simp [hi, h1]
  · simp only [hq, false_and, if_false]
    by_cases hq0 : q = 0
    · simp [hq0]
    · have : i ≠ q - 1 := by omega
      simp [hq0, port_info_at_set_adr_ne _ _ _ _ this]

theorem address_from_port_enqueued (st : local_hcd) (w : work) (q : Nat) :
    (hcd.on_work_enqueued (hcd.enqueue_work st w)).address_from_port q = st.address_from_port q := rfl

theorem port_from_address_le (st : local_hcd) (address p : Nat)
    (hp : st.port_from_address address = .ok p) (hp0 : p ≠ 0) : p ≤ st.port_info.length := by
  unfold local_hcd.port_from_address at hp
  split_ifs at hp
  simp only [Except.ok.injEq] at hp
  subst hp
  have := port_from_address_loop_bounds address st.port_info 0 hp0
  omega


/-- The trigger flags of the C++ constructor are those of the C function. -/
theorem trigger_flags_eq_triggers (K : kernel_header) (stat prev : port_stat) (i j : Nat) :
    port_stat_work.trigger_flags K stat prev =
      usb_vhci_port_stat_triggers K ⟨stat.status, stat.change, i, stat.flags⟩
        ⟨prev.status, prev.change, j, prev.flags⟩ := by
  unfold port_stat_work.trigger_flags usb_vhci_port_stat_triggers
  simp only [port_stat.get_enable, port_stat.get_suspend, port_stat.get_resuming,
    port_stat.get_reset, port_stat.get_power, Bool.and_eq_true, Bool.not_eq_true',
    bne_iff_ne, ne_eq, bne_eq_false_iff_eq]
  by_cases h1 : stat.status &&& USB_VHCI_PORT_STAT_POWER = 0 <;>
    by_cases h2 : prev.status &&& USB_VHCI_PORT_STAT_POWER = 0 <;>
    simp [h1, h2]

theorem port_info_length_set_adr (st : local_hcd) (i a : Nat) :
    (st.set_adr i a).port_info.length = st.port_info.length := by
  simp [local_hcd.set_adr]

theorem port_info_length_set_stat (st : local_hcd) (i : Nat) (s : port_stat) :
    (st.set_stat i s).port_info.length = st.port_info.length := by
  simp [local_hcd.set_stat]

theorem port_info_length_enqueue_work (st : local_hcd) (w : work) :
    (hcd.enqueue_work st w).port_info.length = st.port_info.length := rfl

theorem address_from_port_set_stat (st : local_hcd) (i q : Nat) (s : port_stat) :
    (st.set_stat i s).address_from_port q = st.address_from_port q := by
  unfold local_hcd.address_from_port hcd.get_port_count
  have hlen : (st.set_stat i s).port_info.length = st.port_info.length := by
    simp [local_hcd.set_stat]
  rw [hlen]
  by_cases hq0 : q = 0
  · simp [hq0]
  · by_cases hq : q > st.port_info.length
    · simp [hq0, hq]
    · simp only [hq0, hq, if_false]
      by_cases hi : i = q - 1
      · subst hi
        rw [port_info_at_set_stat_same _ _ _ (by omega)]
      · rw [port_info_at_set_stat_ne _ _ _ _ hi]

theorem get_port_stat_set_adr (st : local_hcd) (i a q : Nat) :
    (st.set_adr i a).get_port_stat q = st.get_port_stat q := by
  unfold local_hcd.get_port_stat hcd.get_port_count
  have hlen : (st.set_adr i a).port_info.length = st.port_info.length := by
    simp [local_hcd.set_adr]
  rw [hlen]
  by_cases hq0 : q = 0
  · simp [hq0]
  · by_cases hq : q > st.port_info.length
    · simp [hq0, hq]
    · simp only [hq0, hq, if_false]
      by_cases hi : i = q - 1
      · subst hi
        rw [port_info_at_set_adr_same _ _ _ (by omega)]
      · rw [port_info_at_set_adr_ne _ _ _ _ hi]

theorem get_port_stat_set_stat (st : local_hcd) (p : Nat) (s : port_stat) (h1 : 1 ≤ p)
    (h2 : p ≤ st.port_info.length) : (st.set_stat (p - 1) s).get_port_stat p = .ok s := by
  unfold local_hcd.get_port_stat hcd.get_port_count
  have hlen : (st.set_stat (p - 1) s).port_info.length = st.port_info.length := by
    simp [local_hcd.set_stat]
  rw [hlen, if_neg (by omega), if_neg (by omega), port_info_at_set_stat_same _ _ _ (by omega)]

/-- The pump step of a port status event for a port in range, written out. -/
theorem bg_work_port_stat_in_range (K : kernel_header) (st : local_hcd)
    (ks : usb_vhci_ioc_port_stat) (data : Option usb_vhci_ioc_urb_data) (fresh : Nat)
    (h1 : 1 ≤ ks.index) (h2 : ks.index ≤ hcd.get_port_count st) :
    st.bg_work K (some (.PORT_STAT ks)) data fresh =
      .ok (hcd.on_work_enqueued
        (let nps : port_stat := ⟨ks.status, ks.change, ks.flags⟩
         let st1 := (hcd.enqueue_work st
            { addr := fresh, port := ks.index, canceled := false,
              derived := .port_stat_work nps
                (port_stat_work.trigger_flags K nps (st.port_info_at (ks.index - 1)).stat) }).set_stat
            (ks.index - 1) nps
         let st2 := if nps.get_connection_changed then st1.set_adr (ks.index - 1) 0xff else st1
         if nps.get_reset_changed && !nps.get_reset && nps.get_enable
         then st2.set_adr (ks.index - 1) 0x00 else st2)) := by
  have h3 : ¬ ks.index > hcd.get_port_count st := by omega
  have h4 : ks.index ≠ 0 := by omega
  simp only [local_hcd.bg_work, usb_vhci_fetch_work, usb_vhci_fetch_work_timeout,
    bg_work_port_stat, h3, if_false, port_stat_work.ctor, h4, or_self]

theorem address_from_port_on_work_enqueued (st : local_hcd) (q : Nat) :
    (hcd.on_work_enqueued st).address_from_port q = st.address_from_port q := rfl

theorem address_from_port_enqueue_work (st : local_hcd) (w : work) (q : Nat) :
    (hcd.enqueue_work st w).address_from_port q = st.address_from_port q := rfl


/-- A `SET_ADDRESS` event (control, endpoint 0, `bmRequestType = 0`, `bRequest = 5`) for
an address that resolves to port `p`: the pump wraps it into an URB object `u` that
passes the test of the `SET_ADDRESS?` block and enqueues it for `p`. -/
theorem set_address_event_routed (K : kernel_header) (st : local_hcd) (handle : Nat)
    (ku : usb_vhci_ioc_urb) (d : usb_vhci_ioc_urb_data) (fresh p : Nat)
    (hcontrol : ku.type = USB_VHCI_URB_TYPE_CONTROL)
    (hep0 : ku.endpoint &&& 0x0f = 0)
    (hrt : ku.setup_packet.bmRequestType = 0)
    (hrq : ku.setup_packet.bRequest = 5)
    (hp : st.port_from_address ku.address = .ok p) (hp0 : p ≠ 0) :
    ∃ u : urb,
      st.bg_work K (some (.PROCESS_URB handle ku)) (some d) fresh =
        .ok (hcd.on_work_enqueued (hcd.enqueue_work (bg_work_set_address st p u).2
          { addr := fresh, port := p, canceled := false,
            derived := .process_urb_work (bg_work_set_address st p u).1 })) ∧
      u.is_control = true ∧
      (u.get_endpoint_number = 0 ∧ u.get_bmRequestType = 0 ∧ u.get_bRequest = 5) ∧
      u.get_wValue = ku.setup_packet.wValue ∧ u.get_handle = handle ∧
      p ≤ st.port_info.length := by
  obtain ⟨hdr, res, hdec, ht, hb, hi, hpc⟩ := fetch_work_control K handle ku hcontrol
  obtain ⟨u, hu⟩ := bg_work_fetch_urb_control hdr res d ht hb hi hpc
  obtain ⟨_, h2, h3, h4, h5, h6⟩ := fetch_work_process_urb_fields K handle ku hdr res hdec
  obtain ⟨h6a, h6b, h6c⟩ := h6 hcontrol
  obtain ⟨_, g2, g3, _, g5, g6, g7, g8⟩ := bg_work_fetch_urb_fields hdr res _ u hu
  rw [← h4] at hp
  refine ⟨u, bg_work_routed K st handle ku (some d) fresh p hdr res u hdec hu hp hp0, ?_,
    ⟨?_, ?_, ?_⟩, ?_, ?_, port_from_address_le st _ p hp hp0⟩
  · simp [urb.is_control, g2, h2, hcontrol]
  · rw [urb.get_endpoint_number, g3, h3]; exact and7_of_and15 _ hep0
  · rw [urb.get_bmRequestType, g7, h6b, hrt]
  · rw [urb.get_bRequest, g8, h6c, hrq]
  · rw [urb.get_wValue, g6, h6a]
  · rw [urb.get_handle, g5, h5]

/-! ## Claims -/

/-- Claim C1: for every pair of port snapshots, `usb_vhci_port_stat_triggers(cur, prev)`
has each trigger bit set exactly when its edge rule holds (disable `0x01`: `prev`
enabled and `cur` not; suspend `0x02`: `cur` suspended and `prev` not; resuming `0x04`:
`cur` resuming and `prev` not; reset `0x08`: `cur` in reset and `prev` not; power on
`0x10`: `cur` powered and `prev` not; power off `0x20`: `prev` powered and `cur` not),
and no other bit of the result is set. -/
theorem C1_port_stat_triggers (K : kernel_header) (prev cur : usb_vhci_port_stat) :
    (usb_vhci_port_stat_triggers K cur prev &&& USB_VHCI_PORT_STAT_TRIGGER_DISABLE ≠ 0 ↔
        (prev.status &&& USB_VHCI_PORT_STAT_ENABLE ≠ 0 ∧
         cur.status &&& USB_VHCI_PORT_STAT_ENABLE = 0)) ∧
    (usb_vhci_port_stat_triggers K cur prev &&& USB_VHCI_PORT_STAT_TRIGGER_SUSPEND ≠ 0 ↔
        (prev.status &&& USB_VHCI_PORT_STAT_SUSPEND = 0 ∧
         cur.status &&& USB_VHCI_PORT_STAT_SUSPEND ≠ 0)) ∧
    (usb_vhci_port_stat_triggers K cur prev &&& USB_VHCI_PORT_STAT_TRIGGER_RESUMING ≠ 0 ↔
        (prev.flags &&& K.USB_VHCI_PORT_STAT_FLAG_RESUMING = 0 ∧
         cur.flags &&& K.USB_VHCI_PORT_STAT_FLAG_RESUMING ≠ 0)) ∧
    (usb_vhci_port_stat_triggers K cur prev &&& USB_VHCI_PORT_STAT_TRIGGER_RESET ≠ 0 ↔
        (prev.status &&& USB_VHCI_PORT_STAT_RESET = 0 ∧
         cur.status &&& USB_VHCI_PORT_STAT_RESET ≠ 0)) ∧
    (usb_vhci_port_stat_triggers K cur prev &&& USB_VHCI_PORT_STAT_TRIGGER_POWER_ON ≠ 0 ↔
        (prev.status &&& USB_VHCI_PORT_STAT_POWER = 0 ∧
         cur.status &&& USB_VHCI_PORT_STAT_POWER ≠ 0)) ∧
    (usb_vhci_port_stat_triggers K cur prev &&& USB_VHCI_PORT_STAT_TRIGGER_POWER_OFF ≠ 0 ↔
        (prev.status &&& USB_VHCI_PORT_STAT_POWER ≠ 0 ∧
         cur.status &&& USB_VHCI_PORT_STAT_POWER = 0)) ∧
    (∀ i : Nat, 6 ≤ i → (usb_vhci_port_stat_triggers K cur prev).testBit i = false) := by
  obtain ⟨h1, h2, h3, h4, h5, h6, hlt⟩ :=
    trigger_bits_core _ _ _ _ _ _ (usb_vhci_port_stat_triggers K cur prev) rfl
  refine ⟨h1.trans and_comm, h2.trans and_comm, h3.trans and_comm, h4.trans and_comm,
    h5.trans and_comm, h6.trans and_comm, ?_⟩
  intro i hi
  exact Nat.testBit_lt_two_pow (lt_of_lt_of_le hlt (Nat.pow_le_pow_right (by decide) hi))


/-- Claim C3: a `SET_ADDRESS` event (control OUT, endpoint 0, `bmRequestType = 0`,
`bRequest = 5`) with `wValue > 0x7f`, for a device address that `port_from_address`
resolves to port `p`, the fetch-data ioctl answering `d` if the pump asks for the
payload: the pump step succeeds, the URB is enqueued for `p` as the last
item of the inbox with status stall, and the port table is what it was, so the address
of every port, `p` included, is unchanged. -/
theorem C3_set_address_stall (K : kernel_header) (st : local_hcd) (handle : Nat)
    (ku : usb_vhci_ioc_urb) (d : usb_vhci_ioc_urb_data) (fresh p : Nat)
    (hcontrol : ku.type = USB_VHCI_URB_TYPE_CONTROL)
    (_hout : ku.endpoint &&& 0x80 = 0)
    (hep0 : ku.endpoint &&& 0x0f = 0)
    (hrt : ku.setup_packet.bmRequestType = 0)
    (hrq : ku.setup_packet.bRequest = 5)
    (hval : ku.setup_packet.wValue > 0x7f)
    (hp : st.port_from_address ku.address = .ok p) (hp0 : p ≠ 0) :
    ∃ st' u,
      st.bg_work K (some (.PROCESS_URB handle ku)) (some d) fresh = .ok st' ∧
      st'.inbox = st.inbox ++ [{ addr := fresh, port := p, canceled := false,
                                 derived := .process_urb_work u }] ∧
      u.get_handle = handle ∧ u.get_status = USB_VHCI_STATUS_STALL ∧
      st'.port_info = st.port_info ∧
      ∀ q, st'.address_from_port q = st.address_from_port q := by
  obtain ⟨u, hrun, c1, c2, c3, c4, _⟩ :=
    set_address_event_routed K st handle ku d fresh p hcontrol hep0 hrt hrq hp hp0
  have hset : bg_work_set_address st p u = (u.stall, st) := by
    have c5 : u.get_wValue > 0x7f := by rw [c3]; exact hval
    unfold bg_work_set_address
    rw [if_pos c1, if_pos c2]
    show (if u.get_wValue > 127 then (u.stall, st)
      else (u.ack, st.set_adr (p - 1) (u.get_wValue % 256))) = _
    rw [if_pos c5]
  rw [hset] at hrun
  exact ⟨_, u.stall, hrun, rfl, c4, rfl, rfl, fun _ => rfl⟩

/-- Claim C3 at a concrete input: port 1 has address 0 and the request carries
`wValue = 0x80`; the URB is stalled and `address_from_port 1` is still 0. -/
theorem C3_set_address_stall_witness :
    (set_address_urb 0x80 0).type = USB_VHCI_URB_TYPE_CONTROL ∧
    (set_address_urb 0x80 0).endpoint &&& 0x80 = 0 ∧
    (set_address_urb 0x80 0).endpoint &&& 0x0f = 0 ∧
    (set_address_urb 0x80 0).setup_packet.bmRequestType = 0 ∧
    (set_address_urb 0x80 0).setup_packet.bRequest = 5 ∧
    (set_address_urb 0x80 0).setup_packet.wValue > 0x7f ∧
    (one_port_hcd 0 ⟨0x0103, 0x0010, 0⟩).port_from_address (set_address_urb 0x80 0).address =
      .ok 1 ∧
    ∃ st' u,
      (one_port_hcd 0 ⟨0x0103, 0x0010, 0⟩).bg_work header_1
        (some (.PROCESS_URB 77 (set_address_urb 0x80 0))) (some ⟨[], []⟩) 1000 = .ok st' ∧
      st'.inbox = [{ addr := 1000, port := 1, canceled := false,
                     derived := .process_urb_work u }] ∧
      u.get_handle = 77 ∧ u.get_status = USB_VHCI_STATUS_STALL ∧
      st'.port_info = [{ adr := 0, stat := ⟨0x0103, 0x0010, 0⟩ }] ∧
      st'.address_from_port 1 = .ok 0 := by
  obtain ⟨st', u, h1, h2, h3, h4, h5, h6⟩ :=
    C3_set_address_stall header_1 (one_port_hcd 0 ⟨0x0103, 0x0010, 0⟩) 77
      (set_address_urb 0x80 0) ⟨[], []⟩ 1000 1 rfl rfl rfl rfl rfl (by decide) rfl (by decide)
  exact ⟨rfl, rfl, rfl, rfl, rfl, by decide, rfl, st', u, h1, h2, h3, h4, h5, h6 1⟩


theorem and15_iff_and7 (x : Nat) (h : x &&& 0x08 = 0) : x &&& 0x0f = 0 ↔ x &&& 0x07 = 0 := by
  have h1 : x &&& 0x0f = x &&& 0x07 := by
    have : (0x0f : Nat) = 0x07 ||| 0x08 := by decide
    rw [this, Nat.and_or_distrib_left, h, Nat.or_zero]
  rw [h1]

/-- Claim C4 as stated fails: a `SET_ADDRESS` request whose endpoint address has the
direction bit set (`0x80`, IN) is routed to port 1, whose address is 0, and the pump
intercepts it although it is not an OUT transfer: the URB is enqueued with status
success instead of pending and the address of port 1 becomes 42. The same happens to
the request on endpoint address `0x08`, whose low 4 bits are not 0. -/
theorem C4_counterexample :
    usb_vhci_is_out (set_address_urb 42 0x80).endpoint = false ∧
    (one_port_hcd 0 ⟨0x0103, 0x0010, 0⟩).address_from_port 1 = .ok 0 ∧
    (∃ st',
      (one_port_hcd 0 ⟨0x0103, 0x0010, 0⟩).bg_work header_1
          (some (.PROCESS_URB 77 (set_address_urb 42 0x80))) none 1000 = .ok st' ∧
      st'.inbox = [{ addr := 1000, port := 1, canceled := false,
                     derived := .process_urb_work
                       (set_address_urb_object 77 42 0x80 USB_VHCI_STATUS_SUCCESS) }] ∧
      USB_VHCI_STATUS_SUCCESS ≠ USB_VHCI_STATUS_PENDING ∧
      st'.address_from_port 1 = .ok 42) ∧
    (set_address_urb 42 0x08).endpoint &&& 0x0f ≠ 0 ∧
    (∃ st',
      (one_port_hcd 0 ⟨0x0103, 0x0010, 0⟩).bg_work header_1
          (some (.PROCESS_URB 77 (set_address_urb 42 0x08))) none 1000 = .ok st' ∧
      st'.inbox = [{ addr := 1000, port := 1, canceled := false,
                     derived := .process_urb_work
                       (set_address_urb_object 77 42 0x08 USB_VHCI_STATUS_SUCCESS) }] ∧
      st'.address_from_port 1 = .ok 42) :=
  ⟨rfl, rfl, ⟨_, rfl, rfl, by decide, rfl⟩, by decide, ⟨_, rfl, rfl, rfl⟩⟩

theorem bg_work_set_address_inbox (st : local_hcd) (index : Nat) (u : urb) :
    (bg_work_set_address st index u).2.inbox = st.inbox := by
  unfold bg_work_set_address
  simp only []
  split_ifs <;> rfl

/-- Claim C4, amended: for every URB that the pump routes to a port `p` and whose endpoint
address has bit 3 (`0x08`) clear: its status is pending when it is routed, it is
enqueued for `p` as the last item of the inbox, and the pump has intercepted it (its
status is no longer pending) if and only if it is a control URB whose endpoint number
(low 4 bits of the endpoint address) is 0, with `bmRequestType = 0` and `bRequest = 5`,
whatever its direction bit; every other such URB is enqueued as it was, with the port
table untouched. -/
theorem C4_intercept_amended (K : kernel_header) (st : local_hcd) (handle : Nat)
    (ku : usb_vhci_ioc_urb) (data : Option usb_vhci_ioc_urb_data) (fresh p : Nat)
    (hdr : usb_vhci_urb) (res : Int) (u : urb)
    (hdec : usb_vhci_fetch_work K (some (.PROCESS_URB handle ku)) = some (.PROCESS_URB hdr, res))
    (hfetch : bg_work_fetch_urb hdr res data = .ok (some u))
    (hp : st.port_from_address hdr.devadr = .ok p) (hp0 : p ≠ 0)
    (hbit3 : u.get_endpoint_address &&& 0x08 = 0) :
    u.get_status = USB_VHCI_STATUS_PENDING ∧
    ∃ st' u',
      st.bg_work K (some (.PROCESS_URB handle ku)) data fresh = .ok st' ∧
      st'.inbox = st.inbox ++ [{ addr := fresh, port := p, canceled := false,
                                 derived := .process_urb_work u' }] ∧
      (u'.get_status ≠ USB_VHCI_STATUS_PENDING ↔
        (u.is_control = true ∧ u.get_endpoint_address &&& 0x0f = 0 ∧
         u.get_bmRequestType = 0 ∧ u.get_bRequest = 5)) ∧
      (¬ (u.is_control = true ∧ u.get_endpoint_address &&& 0x0f = 0 ∧
          u.get_bmRequestType = 0 ∧ u.get_bRequest = 5) →
        u' = u ∧ st'.port_info = st.port_info) := by
  have hpend : u.get_status = USB_VHCI_STATUS_PENDING := by
    rw [urb.get_status, (bg_work_fetch_urb_fields hdr res data u hfetch).1,
      (fetch_work_process_urb_fields K handle ku hdr res hdec).1]
  have hrun := bg_work_routed K st handle ku data fresh p hdr res u hdec hfetch hp hp0
  have h15 := and15_iff_and7 _ hbit3
  refine ⟨hpend, _, (bg_work_set_address st p u).1, hrun, ?_, ?_, ?_⟩
  · show (bg_work_set_address st p u).2.inbox ++ _ = _
    rw [bg_work_set_address_inbox]
  · by_cases c1 : u.is_control = true
    · by_cases c2 : u.get_endpoint_number = 0 ∧ u.get_bmRequestType = 0 ∧ u.get_bRequest = 5
      · have hc : u.is_control = true ∧ u.get_endpoint_address &&& 0x0f = 0 ∧
            u.get_bmRequestType = 0 ∧ u.get_bRequest = 5 := ⟨c1, h15.2 c2.1, c2.2⟩
        refine iff_of_true ?_ hc
        unfold bg_work_set_address
        rw [if_pos c1, if_pos c2]
        show (if u.get_wValue > 127 then (u.stall, st)
          else (u.ack, st.set_adr (p - 1) (u.get_wValue % 256))).1.get_status ≠ _
        split_ifs <;> simp [urb.stall, urb.ack, urb.set_status, urb.get_status,
          USB_VHCI_STATUS_STALL, USB_VHCI_STATUS_SUCCESS, USB_VHCI_STATUS_PENDING]
      · have hc : ¬ (u.is_control = true ∧ u.get_endpoint_address &&& 0x0f = 0 ∧
            u.get_bmRequestType = 0 ∧ u.get_bRequest = 5) := fun h => c2 ⟨h15.1 h.2.1, h.2.2⟩
        refine iff_of_false ?_ hc
        unfold bg_work_set_address
        rw [if_pos c1, if_neg c2]
        exact not_not.2 hpend
    · have hc : ¬ (u.is_control = true ∧ u.get_endpoint_address &&& 0x0f = 0 ∧
          u.get_bmRequestType = 0 ∧ u.get_bRequest = 5) := fun h => c1 h.1
      refine iff_of_false ?_ hc
      unfold bg_work_set_address
      rw [if_neg c1]
      exact not_not.2 hpend
  · intro hc
    have hset : bg_work_set_address st p u = (u, st) := by
      unfold bg_work_set_address
      by_cases c1 : u.is_control = true
      · have c2 : ¬ (u.get_endpoint_number = 0 ∧ u.get_bmRequestType = 0 ∧
            u.get_bRequest = 5) := fun h => hc ⟨c1, h15.2 h.1, h.2⟩
        rw [if_pos c1, if_neg c2]
      · rw [if_neg c1]
    rw [hset]
    exact ⟨rfl, rfl⟩

/-- Claim C4, amended, at a concrete input: a `GET_DESCRIPTOR` request (`bmRequestType =
0x80`, `bRequest = 6`) on endpoint 0 of the device at address 0, which is bound to
port 1: it is enqueued as it was. -/
theorem C4_intercept_amended_witness :
    usb_vhci_fetch_work header_1 (some (.PROCESS_URB 9 get_descriptor_urb)) =
      some (usb_vhci_work.PROCESS_URB get_descriptor_urb_object._urb, 0) ∧
    bg_work_fetch_urb get_descriptor_urb_object._urb 0 none = .ok (some get_descriptor_urb_object) ∧
    (one_port_hcd 0 ⟨0x0103, 0x0010, 0⟩).port_from_address 0 = .ok 1 ∧
    get_descriptor_urb_object.get_endpoint_address &&& 0x08 = 0 ∧
    ∃ st' u',
      (one_port_hcd 0 ⟨0x0103, 0x0010, 0⟩).bg_work header_1
        (some (.PROCESS_URB 9 get_descriptor_urb)) none 1000 = .ok st' ∧
      st'.inbox = [{ addr := 1000, port := 1, canceled := false,
                     derived := .process_urb_work u' }] ∧
      u' = get_descriptor_urb_object ∧
      st'.port_info = [{ adr := 0, stat := ⟨0x0103, 0x0010, 0⟩ }] := by
  obtain ⟨_, st', u', h1, h2, _, h4⟩ :=
    C4_intercept_amended header_1 (one_port_hcd 0 ⟨0x0103, 0x0010, 0⟩) 9 get_descriptor_urb none
      1000 1 get_descriptor_urb_object._urb 0 get_descriptor_urb_object rfl rfl rfl (by decide) rfl
  have h5 := h4 (by decide)
  exact ⟨rfl, rfl, rfl, rfl, st', u', h1, h2, h5.1, h5.2⟩

/-- Claim C5: a port status event for a port `p` in `[1, port_count]` with the record
`n`. The pump step succeeds and the address of `p` afterwards is 0 if `n` has the
reset-change bit set, the reset status bit clear and the enable status bit set;
otherwise unset (`0xff`) if `n` has the connection-change bit set; otherwise the address
`p` had before. The address of every other port is what it was. -/
theorem C5_port_stat_address (K : kernel_header) (st : local_hcd) (ks : usb_vhci_ioc_port_stat)
    (data : Option usb_vhci_ioc_urb_data) (fresh : Nat)
    (h1 : 1 ≤ ks.index) (h2 : ks.index ≤ hcd.get_port_count st) :
    ∃ st', st.bg_work K (some (.PORT_STAT ks)) data fresh = .ok st' ∧
      st'.address_from_port ks.index =
        (if ks.change &&& USB_VHCI_PORT_STAT_C_RESET ≠ 0 ∧
            ks.status &&& USB_VHCI_PORT_STAT_RESET = 0 ∧
            ks.status &&& USB_VHCI_PORT_STAT_ENABLE ≠ 0 then .ok 0x00
         else if ks.change &&& USB_VHCI_PORT_STAT_C_CONNECTION ≠ 0 then .ok 0xff
         else st.address_from_port ks.index) ∧
      ∀ q, q ≠ ks.index → st'.address_from_port q = st.address_from_port q := by
  refine ⟨_, bg_work_port_stat_in_range K st ks data fresh h1 h2, ?_, ?_⟩
  · unfold hcd.get_port_count at h2
    have hi : ks.index = ks.index - 1 + 1 ∧ ks.index - 1 < st.port_info.length := by omega
    simp only [port_stat.get_connection_changed, port_stat.get_reset_changed,
      port_stat.get_reset, port_stat.get_enable, Bool.and_eq_true, Bool.not_eq_true',
      bne_iff_ne, ne_eq, bne_eq_false_iff_eq, and_assoc]
    rw [address_from_port_on_work_enqueued]
    split_ifs <;>
      simp only [address_from_port_set_adr, address_from_port_set_stat,
        address_from_port_enqueue_work, port_info_length_set_adr, port_info_length_set_stat,
        port_info_length_enqueue_work, if_pos hi]
  · intro q hq
    have hi : ¬ (q = ks.index - 1 + 1 ∧ ks.index - 1 < st.port_info.length) := by omega
    rw [address_from_port_on_work_enqueued]
    simp only []
    split_ifs <;>
      simp only [address_from_port_set_adr, address_from_port_set_stat,
        address_from_port_enqueue_work, port_info_length_set_adr, port_info_length_set_stat,
        port_info_length_enqueue_work, if_neg hi]

/-- Claim C5 at a concrete input: previous snapshot `0x0111 / 0x0010`, new record
`0x0103 / 0x0010` for port 1, whose address was unset; afterwards the address is 0. -/
theorem C5_port_stat_address_witness :
    (1 ≤ 1 ∧ 1 ≤ hcd.get_port_count (one_port_hcd 0xff ⟨0x0111, 0x0010, 0⟩)) ∧
    ∃ st',
      (one_port_hcd 0xff ⟨0x0111, 0x0010, 0⟩).bg_work header_1
        (some (.PORT_STAT ⟨0x0103, 0x0010, 1, 0⟩)) none 1000 = .ok st' ∧
      st'.address_from_port 1 = .ok 0x00 := by
  obtain ⟨st', h1, h2, _⟩ :=
    C5_port_stat_address header_1 (one_port_hcd 0xff ⟨0x0111, 0x0010, 0⟩)
      ⟨0x0103, 0x0010, 1, 0⟩ none 1000 (by decide) (by decide)
  exact ⟨⟨by decide, by decide⟩, st', h1, h2⟩

theorem get_port_stat_on_work_enqueued (st : local_hcd) (q : Nat) :
    (hcd.on_work_enqueued st).get_port_stat q = st.get_port_stat q := rfl

theorem inbox_set_adr (st : local_hcd) (i a : Nat) : (st.set_adr i a).inbox = st.inbox := rfl

theorem inbox_set_stat (st : local_hcd) (i : Nat) (s : port_stat) :
    (st.set_stat i s).inbox = st.inbox := rfl

/-- Claim C6: a port status event for a port `p` in `[1, port_count]` with the record `n`:
the pump step appends exactly one `port_stat_work` item to the inbox, with port `p`,
snapshot `n` and the trigger flags of `usb_vhci_port_stat_triggers` for `cur = n` and
`prev =` the snapshot that `get_port_stat p` returned before, and `get_port_stat p`
returns `n` afterwards. An event for port 0 or for a port above `port_count` leaves the
whole controller state as it was. -/
theorem C6_port_stat_enqueued (K : kernel_header) (st : local_hcd)
    (ks : usb_vhci_ioc_port_stat) (data : Option usb_vhci_ioc_urb_data) (fresh : Nat) :
    (1 ≤ ks.index ∧ ks.index ≤ hcd.get_port_count st →
      ∃ st' prev,
        st.get_port_stat ks.index = .ok prev ∧
        st.bg_work K (some (.PORT_STAT ks)) data fresh = .ok st' ∧
        st'.inbox = st.inbox ++
          [{ addr := fresh, port := ks.index, canceled := false,
             derived := .port_stat_work ⟨ks.status, ks.change, ks.flags⟩
               (usb_vhci_port_stat_triggers K ⟨ks.status, ks.change, ks.index, ks.flags⟩
                 ⟨prev.status, prev.change, ks.index, prev.flags⟩) }] ∧
        st'.get_port_stat ks.index = .ok ⟨ks.status, ks.change, ks.flags⟩) ∧
    (ks.index = 0 ∨ ks.index > hcd.get_port_count st →
      st.bg_work K (some (.PORT_STAT ks)) data fresh = .ok st) := by
  constructor
  · rintro ⟨h1, h2⟩
    refine ⟨_, (st.port_info_at (ks.index - 1)).stat, ?_,
      bg_work_port_stat_in_range K st ks data fresh h1 h2, ?_, ?_⟩
    · unfold local_hcd.get_port_stat
      rw [if_neg (by omega), if_neg (by omega)]
    · rw [← trigger_flags_eq_triggers K ⟨ks.status, ks.change, ks.flags⟩
        (st.port_info_at (ks.index - 1)).stat ks.index ks.index]
      simp only []
      split_ifs <;> rfl
    · unfold hcd.get_port_count at h2
      rw [get_port_stat_on_work_enqueued]
      simp only []
      split_ifs <;>
        (try simp only [get_port_stat_set_adr]) <;>
        exact get_port_stat_set_stat _ _ _ h1 h2
  · intro h
    simp only [local_hcd.bg_work, usb_vhci_fetch_work, usb_vhci_fetch_work_timeout,
      bg_work_port_stat, h, if_true]

/-- Claim C6 at a concrete input: the controller as constructed with one port (all-zero
snapshot) and the status `0x0100`: one item for port 1 with the trigger flags `0x10` (power on); and an event for
port 2 of the same controller changes nothing. -/
theorem C6_port_stat_enqueued_witness :
    local_hcd.ctor 1 = .ok (one_port_hcd 0xff ⟨0, 0, 0⟩) ∧
    (1 ≤ 1 ∧ 1 ≤ hcd.get_port_count (one_port_hcd 0xff ⟨0, 0, 0⟩)) ∧
    (∃ st',
      (one_port_hcd 0xff ⟨0, 0, 0⟩).bg_work header_1 (some (.PORT_STAT ⟨0x0100, 0, 1, 0⟩)) none
        1000 = .ok st' ∧
      st'.inbox = [{ addr := 1000, port := 1, canceled := false,
                     derived := .port_stat_work ⟨0x0100, 0, 0⟩
                       USB_VHCI_PORT_STAT_TRIGGER_POWER_ON }] ∧
      st'.get_port_stat 1 = .ok ⟨0x0100, 0, 0⟩) ∧
    (one_port_hcd 0xff ⟨0, 0, 0⟩).bg_work header_1 (some (.PORT_STAT ⟨0x0100, 0, 2, 0⟩)) none
      1000 = .ok (one_port_hcd 0xff ⟨0, 0, 0⟩) := by
  have h := C6_port_stat_enqueued header_1 (one_port_hcd 0xff ⟨0, 0, 0⟩) ⟨0x0100, 0, 1, 0⟩ none 1000
  have h' := C6_port_stat_enqueued header_1 (one_port_hcd 0xff ⟨0, 0, 0⟩) ⟨0x0100, 0, 2, 0⟩ none 1000
  obtain ⟨st', prev, hprev, hrun, hin, hstat⟩ := h.1 ⟨by decide, by decide⟩
  have hp : prev = ⟨0, 0, 0⟩ := by
    have : (Except.ok ⟨0, 0, 0⟩ : Except cpp_exception port_stat) = .ok prev := hprev
    exact (Except.ok.inj this).symm
  subst hp
  exact ⟨rfl, ⟨by decide, by decide⟩, ⟨st', hrun, hin, hstat⟩, h'.2 (Or.inr (by decide))⟩

theorem next_work_loop_all_canceled (inbox processing : List work)
    (h : ∀ c ∈ inbox, c.canceled = true) :
    next_work_loop inbox processing = (false, none, [], processing) := by
  induction inbox with
  | nil => rfl
  | cons c cs ih =>
    have hc : c.canceled = true := h c (List.mem_cons_self _ _)
    simp only [next_work_loop, work.is_canceled, hc, Bool.not_true, Bool.false_eq_true, if_false]
    exact ih fun x hx => h x (List.mem_cons_of_mem _ hx)

theorem next_work_loop_skip (cs : List work) (w : work) (rest processing : List work)
    (hcs : ∀ c ∈ cs, c.canceled = true) (hw : w.canceled = false) :
    next_work_loop (cs ++ w :: rest) processing =
      (decide (rest ≠ []), some w, rest, processing ++ [w]) := by
  induction cs with
  | nil =>
    simp only [List.nil_append, next_work_loop, work.is_canceled, hw, Bool.not_false, if_true]
    cases rest <;> simp
  | cons c cs ih =>
    have hc : c.canceled = true := hcs c (List.mem_cons_self _ _)
    simp only [List.cons_append, next_work_loop, work.is_canceled, hc, Bool.not_true,
      Bool.false_eq_true, if_false]
    exact ih fun x hx => hcs x (List.mem_cons_of_mem _ hx)

/-- Claim C7: `next_work` on an inbox that consists of canceled items `cs`, a first
non-canceled item `w` and the items `rest` behind it: the canceled items are deleted,
`w` is returned and appended to the processing list, the hint is true exactly when
`rest` is not empty, and the inbox is `rest` afterwards. On an inbox without a
non-canceled item (empty or all canceled) no item is returned, the hint is false, the
inbox is empty afterwards and the processing list is what it was. Nothing else of the
controller state changes. -/
theorem C7_next_work (st : local_hcd) :
    (∀ (cs : List work) (w : work) (rest : List work),
      st.inbox = cs ++ w :: rest → (∀ c ∈ cs, c.canceled = true) → w.canceled = false →
      hcd.next_work st =
        ((decide (rest ≠ []), some w),
         { st with inbox := rest, processing := st.processing ++ [w] })) ∧
    ((∀ c ∈ st.inbox, c.canceled = true) →
      hcd.next_work st = ((false, none), { st with inbox := [] })) := by
  constructor
  · intro cs w rest hin hcs hw
    unfold hcd.next_work
    rw [hin, next_work_loop_skip cs w rest st.processing hcs hw]
  · intro h
    unfold hcd.next_work
    rw [next_work_loop_all_canceled st.inbox st.processing h]

/-- Claim C7 at a concrete input: an inbox of a canceled item, a live item and one more
item: the live one is returned with the hint true; and an inbox of one canceled item
gives no item and the hint false. -/
theorem C7_next_work_witness :
    hcd.next_work { one_port_hcd 42 ⟨0, 0, 0⟩ with
        inbox := [urb_item 1000 7 true, urb_item 1001 8 false, urb_item 1002 9 true] } =
      ((true, some (urb_item 1001 8 false)),
       { one_port_hcd 42 ⟨0, 0, 0⟩ with
         inbox := [urb_item 1002 9 true], processing := [urb_item 1001 8 false] }) ∧
    hcd.next_work { one_port_hcd 42 ⟨0, 0, 0⟩ with inbox := [urb_item 1000 7 true] } =
      ((false, none), one_port_hcd 42 ⟨0, 0, 0⟩) :=
  ⟨(C7_next_work { one_port_hcd 42 ⟨0, 0, 0⟩ with
        inbox := [urb_item 1000 7 true, urb_item 1001 8 false, urb_item 1002 9 true] }).1
      [urb_item 1000 7 true] (urb_item 1001 8 false) [urb_item 1002 9 true] rfl
      (by decide) rfl,
   (C7_next_work { one_port_hcd 42 ⟨0, 0, 0⟩ with inbox := [urb_item 1000 7 true] }).2
      (by decide)⟩

/-- The inbox branch of `cancel_process_urb_work`, written out. -/
theorem cancel_process_urb_work_inbox (st : local_hcd) (H fresh : Nat) (w : work)
    (hw : st.inbox.find? (is_process_urb_work_of H) = some w) :
    hcd.cancel_process_urb_work st H fresh =
      .ok (false, (st.write_work w.addr work.cancel).finishing_work w.cancel) := by
  simp [hcd.cancel_process_urb_work, hw, local_hcd.canceling_work]

/-- The processing branch of `cancel_process_urb_work`, written out. -/
theorem cancel_process_urb_work_processing (st : local_hcd) (H fresh : Nat) (w : work)
    (hin : st.inbox.find? (is_process_urb_work_of H) = none)
    (hw : st.processing.find? (is_process_urb_work_of H) = some w) (hport : w.port ≠ 0) :
    hcd.cancel_process_urb_work st H fresh =
      .ok (true, hcd.on_work_enqueued (hcd.enqueue_work st
        { addr := fresh, port := w.port, canceled := false, derived := .cancel_urb_work H })) := by
  have hm : is_process_urb_work_of H w = true := List.find?_some hw
  unfold is_process_urb_work_of at hm
  cases hd : w.derived with
  | process_urb_work u =>
    rw [hd] at hm
    have hH : u.get_handle = H := by simpa using hm
    simp [hcd.cancel_process_urb_work, hin, hw, local_hcd.canceling_work, hd,
      cancel_urb_work.ctor, work.get_port, hport, hH]
  | cancel_urb_work h => rw [hd] at hm; simp at hm
  | port_stat_work s t => rw [hd] at hm; simp at hm

/-- Claim C9: when no inbox item matches the handle `H` and the search of
`cancel_process_urb_work(H)` finds the `process_urb_work` item `w` in the processing
list (`w.port` is not 0, as for every constructed work item), the call returns true,
leaves the processing list, the giveback record and the port table as they were, and
appends exactly one `cancel_urb_work` item with the port of `w` and the handle `H` to
the inbox, so that every item enqueued afterwards stands behind it. -/
theorem C9_cancel_in_processing (st : local_hcd) (H fresh : Nat) (w : work)
    (hin : st.inbox.find? (is_process_urb_work_of H) = none)
    (hw : st.processing.find? (is_process_urb_work_of H) = some w) (hport : w.port ≠ 0) :
    ∃ st', hcd.cancel_process_urb_work st H fresh = .ok (true, st') ∧
      st'.processing = st.processing ∧ st'.givebacks = st.givebacks ∧
      st'.port_info = st.port_info ∧
      st'.inbox = st.inbox ++
        [{ addr := fresh, port := w.port, canceled := false, derived := .cancel_urb_work H }] ∧
      ∀ x : work, (hcd.enqueue_work st' x).inbox = st.inbox ++
        [{ addr := fresh, port := w.port, canceled := false, derived := .cancel_urb_work H },
         x] := by
  refine ⟨_, cancel_process_urb_work_processing st H fresh w hin hw hport, rfl, rfl, rfl, rfl,
    fun x => ?_⟩
  simp [hcd.enqueue_work, hcd.on_work_enqueued]

/-- Claim C9 at a concrete input: the URB item with handle 8 is in the processing list
and the inbox holds a port status item: the `cancel_urb_work` item for port 1 and
handle 8 is appended behind it. -/
theorem C9_cancel_in_processing_witness :
    List.find? (is_process_urb_work_of 8)
        [({ addr := 1000, port := 1, canceled := false,
            derived := .port_stat_work ⟨0x0100, 0, 0⟩ 0x10 } : work)] = none ∧
    List.find? (is_process_urb_work_of 8) [urb_item 1001 8 false] =
      some (urb_item 1001 8 false) ∧
    (urb_item 1001 8 false).port ≠ 0 ∧
    ∃ st',
      hcd.cancel_process_urb_work { one_port_hcd 42 ⟨0x0100, 0, 0⟩ with
          inbox := [{ addr := 1000, port := 1, canceled := false,
                      derived := .port_stat_work ⟨0x0100, 0, 0⟩ 0x10 }],
          processing := [urb_item 1001 8 false] } 8 2000 = .ok (true, st') ∧
      st'.processing = [urb_item 1001 8 false] ∧ st'.givebacks = [] ∧
      st'.inbox =
        [{ addr := 1000, port := 1, canceled := false,
           derived := .port_stat_work ⟨0x0100, 0, 0⟩ 0x10 },
         { addr := 2000, port := 1, canceled := false, derived := .cancel_urb_work 8 }] := by
  obtain ⟨st', h1, h2, h3, _, h5, _⟩ :=
    C9_cancel_in_processing { one_port_hcd 42 ⟨0x0100, 0, 0⟩ with
        inbox := [{ addr := 1000, port := 1, canceled := false,
                    derived := .port_stat_work ⟨0x0100, 0, 0⟩ 0x10 }],
        processing := [urb_item 1001 8 false] } 8 2000 (urb_item 1001 8 false) rfl rfl
      (by decide)
  exact ⟨rfl, rfl, by decide, st', h1, h2, h3, h5⟩

/-- Claim C10 as stated fails: the URB item with handle 8 is in the processing list,
not canceled, and nothing is in the inbox: `cancel_process_urb_work(8)` returns true and
the item is still in the processing list with its canceled flag false. -/
theorem C10_counterexample :
    ∃ st',
      hcd.cancel_process_urb_work
        { one_port_hcd 42 ⟨0, 0, 0⟩ with processing := [urb_item 1001 8 false] } 8 2000 =
          .ok (true, st') ∧
      st'.processing = [urb_item 1001 8 false] ∧
      (urb_item 1001 8 false).is_canceled = false :=
  ⟨_, rfl, rfl, rfl⟩

/-- Claim C10, amended: when no inbox item matches the handle `H` and the search of
`cancel_process_urb_work(H)` finds the `process_urb_work` item `w` in the processing
list, the call returns true and does not write to `w`: the search finds the same item
afterwards, with the canceled flag it had before the call. -/
theorem C10_cancel_in_processing_flag (st : local_hcd) (H fresh : Nat) (w : work)
    (hin : st.inbox.find? (is_process_urb_work_of H) = none)
    (hw : st.processing.find? (is_process_urb_work_of H) = some w) (hport : w.port ≠ 0) :
    ∃ st' w', hcd.cancel_process_urb_work st H fresh = .ok (true, st') ∧
      st'.processing.find? (is_process_urb_work_of H) = some w' ∧
      w' = w ∧ w'.is_canceled = w.is_canceled :=
  ⟨_, w, cancel_process_urb_work_processing st H fresh w hin hw hport, hw, rfl, rfl⟩

/-- Claim C10, amended, at a concrete input: the item with handle 8 in the processing list
keeps the canceled flag false. -/
theorem C10_cancel_in_processing_flag_witness :
    List.find? (is_process_urb_work_of 8) ([] : List work) = none ∧
    List.find? (is_process_urb_work_of 8) [urb_item 1001 8 false] =
      some (urb_item 1001 8 false) ∧
    (urb_item 1001 8 false).port ≠ 0 ∧
    ∃ st' w',
      hcd.cancel_process_urb_work
        { one_port_hcd 42 ⟨0, 0, 0⟩ with processing := [urb_item 1001 8 false] } 8 2000 =
          .ok (true, st') ∧
      st'.processing.find? (is_process_urb_work_of 8) = some w' ∧
      w' = urb_item 1001 8 false ∧ w'.is_canceled = false := by
  obtain ⟨st', w', h1, h2, h3, h4⟩ :=
    C10_cancel_in_processing_flag
      { one_port_hcd 42 ⟨0, 0, 0⟩ with processing := [urb_item 1001 8 false] } 8 2000
      (urb_item 1001 8 false) rfl rfl (by decide)
  exact ⟨rfl, rfl, by decide, st', w', h1, h2, h3, h4⟩

/-! ## Cancellation, completion, addresses and status codes -/

/-- What the loop of `port_from_address` returns: 0 exactly when no entry has the
address, and otherwise the 1-based index (counted from `i`) of the first entry that has
it. -/
theorem port_from_address_loop_spec (address : Nat) (l : List _port_info) (i : Nat) :
    (port_from_address_loop address l i = 0 ↔
      ∀ j, j < l.length → (l.getD j _port_info.default).adr ≠ address) ∧
    (port_from_address_loop address l i ≠ 0 →
      i < port_from_address_loop address l i ∧
      port_from_address_loop address l i ≤ i + l.length ∧
      (l.getD (port_from_address_loop address l i - 1 - i) _port_info.default).adr = address ∧
      ∀ j, j < port_from_address_loop address l i - 1 - i →
        (l.getD j _port_info.default).adr ≠ address) := by
  induction l generalizing i with
  | nil => simp [port_from_address_loop]
  | cons info infos ih =>
    by_cases h : info.adr = address
    · simp only [port_from_address_loop, h, if_true]
      refine ⟨⟨fun h0 => absurd h0 (by omega), fun hall => ?_⟩, fun _ => ⟨by omega, ?_, ?_, ?_⟩⟩
      · exact absurd (by simpa using h) (hall 0 (by simp))
      · simp
      · simpa using h
      · intro j hj
        omega
    · simp only [port_from_address_loop, h, if_false]
      obtain ⟨ih1, ih2⟩ := ih (i + 1)
      constructor
      · rw [ih1]
        constructor
        · intro hall j hj
          cases j with
          | zero => simpa using h
          | succ j =>
            simp only [List.getD_cons_succ]
            exact hall j (by simpa using hj)
        · intro hall j hj
          have := hall (j + 1) (by simpa using hj)
          simpa using this
      · intro hne
        obtain ⟨b1, b2, b3, b4⟩ := ih2 hne
        refine ⟨by omega, by simp only [List.length_cons]; omega, ?_, ?_⟩
        · have e : port_from_address_loop address infos (i + 1) - 1 - i =
              (port_from_address_loop address infos (i + 1) - 1 - (i + 1)) + 1 := by omega
          rw [e, List.getD_cons_succ]
          exact b3
        · intro j hj
          cases j with
          | zero => simpa using h
          | succ j =>
            simp only [List.getD_cons_succ]
            exact b4 j (by omega)

theorem address_from_port_eq_ok (st : local_hcd) (q a : Nat) :
    st.address_from_port q = .ok a ↔
      1 ≤ q ∧ q ≤ st.port_info.length ∧ (st.port_info.getD (q - 1) _port_info.default).adr = a := by
  unfold local_hcd.address_from_port hcd.get_port_count local_hcd.port_info_at
  by_cases h0 : q = 0
  · simp [h0]
  · by_cases h1 : q > st.port_info.length
    · simp only [h0, h1, if_false, if_true]
      constructor
      · intro h; exact absurd h (by simp)
      · intro h; omega
    · simp only [h0, h1, if_false, Except.ok.injEq]
      constructor
      · intro h; exact ⟨by omega, by omega, h⟩
      · intro h; exact h.2.2

/-- Claim C17: for every port table and every address `a <= 0x7f`, `port_from_address(a)`
returns a value `p` that is 0 exactly when no port has the address `a`, and that is
otherwise the smallest port whose address is `a` (`address_from_port p = a`, and no port
below `p` has the address `a`); for every `a > 0x7f` it fails with
`invalid_argument`. -/
theorem C17_port_from_address (st : local_hcd) (a : Nat) :
    (a ≤ 0x7f →
      ∃ p, st.port_from_address a = .ok p ∧
        (p = 0 ↔ ∀ q, st.address_from_port q ≠ .ok a) ∧
        (p ≠ 0 → st.address_from_port p = .ok a ∧
          ∀ q, q < p → st.address_from_port q ≠ .ok a)) ∧
    (a > 0x7f → st.port_from_address a = .error (.invalid_argument "address")) := by
  constructor
  · intro ha
    have hna : ¬ a > 0x7f := by omega
    obtain ⟨s1, s2⟩ := port_from_address_loop_spec a st.port_info 0
    refine ⟨port_from_address_loop a st.port_info 0, by
      simp only [local_hcd.port_from_address, hna, if_false], ?_, ?_⟩
    · rw [s1]
      constructor
      · intro hall q hq
        obtain ⟨q1, q2, q3⟩ := (address_from_port_eq_ok st q a).1 hq
        exact hall (q - 1) (by omega) q3
      · intro hall j hj hadr
        exact hall (j + 1) ((address_from_port_eq_ok st (j + 1) a).2
          ⟨by omega, by omega, by simpa using hadr⟩)
    · intro hne
      obtain ⟨b1, b2, b3, b4⟩ := s2 hne
      constructor
      · exact (address_from_port_eq_ok st _ a).2 ⟨by omega, by omega, by simpa using b3⟩
      · intro q hq hqa
        obtain ⟨q1, q2, q3⟩ := (address_from_port_eq_ok st q a).1 hqa
        exact b4 (q - 1) (by omega) q3
  · intro ha
    simp only [local_hcd.port_from_address, ha, if_true]

/-- Claim C17 at a concrete input: three ports with the addresses unset, 5 and 5; the
address 5 resolves to port 2, the address 6 to no port, and the address `0x80` is an
argument error. -/
theorem C17_port_from_address_witness :
    (5 ≤ 0x7f ∧
      ({ one_port_hcd 0xff ⟨0, 0, 0⟩ with
          port_info := [⟨0xff, ⟨0, 0, 0⟩⟩, ⟨5, ⟨0, 0, 0⟩⟩, ⟨5, ⟨0, 0, 0⟩⟩] } : local_hcd).port_from_address 5
        = .ok 2) ∧
    ({ one_port_hcd 0xff ⟨0, 0, 0⟩ with
        port_info := [⟨0xff, ⟨0, 0, 0⟩⟩, ⟨5, ⟨0, 0, 0⟩⟩, ⟨5, ⟨0, 0, 0⟩⟩] } : local_hcd).port_from_address 6
      = .ok 0 ∧
    (0x80 > 0x7f ∧
      ({ one_port_hcd 0xff ⟨0, 0, 0⟩ with
          port_info := [⟨0xff, ⟨0, 0, 0⟩⟩, ⟨5, ⟨0, 0, 0⟩⟩, ⟨5, ⟨0, 0, 0⟩⟩] } : local_hcd).port_from_address
        0x80 = .error (.invalid_argument "address")) := by
  have h := C17_port_from_address { one_port_hcd 0xff ⟨0, 0, 0⟩ with
      port_info := [⟨0xff, ⟨0, 0, 0⟩⟩, ⟨5, ⟨0, 0, 0⟩⟩, ⟨5, ⟨0, 0, 0⟩⟩] } 0x80
  exact ⟨⟨by decide, rfl⟩, rfl, by decide, h.2 (by decide)⟩

theorem mem_filter_addr_ne (l : List work) (w x : work) :
    x ∈ l.filter (fun y => y.addr != w.addr) ↔ x ∈ l ∧ x.addr ≠ w.addr := by
  simp [List.mem_filter]

/-- Claim C14: for every work item `w` in the processing list, `finish_work(w)` calls
`usb_vhci_giveback` exactly once, with the URB of `w`, when `w` is a `process_urb_work`,
and not at all when `w` is a `port_stat_work` or a `cancel_urb_work`; afterwards `w` is
not in the processing list, the items at other addresses are all there in their order
(when `w` is the only item at its address, between `front` and `back`, the list is
`front ++ back`), and the inbox and the port table are what they were. -/
theorem C14_finish_work (st : local_hcd) (w : work) (_hw : w ∈ st.processing) :
    (∀ u, w.derived = .process_urb_work u →
      (hcd.finish_work st w).givebacks = st.givebacks ++ [u._urb]) ∧
    ((∀ u, w.derived ≠ .process_urb_work u) → (hcd.finish_work st w).givebacks = st.givebacks) ∧
    w ∉ (hcd.finish_work st w).processing ∧
    (hcd.finish_work st w).processing = st.processing.filter (fun x => x.addr != w.addr) ∧
    (∀ front back : List work, st.processing = front ++ w :: back →
      (∀ x ∈ front ++ back, x.addr ≠ w.addr) →
      (hcd.finish_work st w).processing = front ++ back) ∧
    (hcd.finish_work st w).inbox = st.inbox ∧
    (hcd.finish_work st w).port_info = st.port_info := by
  have hproc : (hcd.finish_work st w).processing =
      st.processing.filter (fun x => x.addr != w.addr) := by
    unfold hcd.finish_work local_hcd.finishing_work
    cases w.derived <;> rfl
  refine ⟨?_, ?_, ?_, hproc, ?_, ?_, ?_⟩
  · intro u hu
    simp [hcd.finish_work, local_hcd.finishing_work, hu]
  · intro hn
    unfold hcd.finish_work local_hcd.finishing_work
    cases hd : w.derived with
    | process_urb_work u => exact absurd hd (hn u)
    | cancel_urb_work h => rfl
    | port_stat_work s t => rfl
  · rw [hproc, mem_filter_addr_ne]
    exact fun h => h.2 rfl
  · intro front back hsplit hdist
    rw [hproc, hsplit, List.filter_append, List.filter_cons]
    have h1 : (w.addr != w.addr) = false := by simp
    rw [h1]
    simp only [Bool.false_eq_true, if_false]
    rw [← List.filter_append]
    apply List.filter_eq_self.2
    intro x hx
    simpa using hdist x hx
  · unfold hcd.finish_work local_hcd.finishing_work
    cases w.derived <;> rfl
  · unfold hcd.finish_work local_hcd.finishing_work
    cases w.derived <;> rfl

/-- Claim C14 at a concrete input: the processing list holds a port status item, the URB
item with handle 8 and a cancel item; finishing the URB item gives its URB back once and
leaves the other two, finishing the cancel item gives nothing back. -/
theorem C14_finish_work_witness :
    urb_item 1001 8 false ∈
      [({ addr := 1000, port := 1, canceled := false,
          derived := .port_stat_work ⟨0x0100, 0, 0⟩ 0x10 } : work),
       urb_item 1001 8 false,
       { addr := 1002, port := 1, canceled := false, derived := .cancel_urb_work 7 }] ∧
    (hcd.finish_work { one_port_hcd 42 ⟨0x0100, 0, 0⟩ with
        processing := [{ addr := 1000, port := 1, canceled := false,
                         derived := .port_stat_work ⟨0x0100, 0, 0⟩ 0x10 },
                       urb_item 1001 8 false,
                       { addr := 1002, port := 1, canceled := false,
                         derived := .cancel_urb_work 7 }] }
      (urb_item 1001 8 false)).givebacks =
      [(set_address_urb_object 8 42 0 USB_VHCI_STATUS_SUCCESS)._urb] ∧
    (hcd.finish_work { one_port_hcd 42 ⟨0x0100, 0, 0⟩ with
        processing := [{ addr := 1000, port := 1, canceled := false,
                         derived := .port_stat_work ⟨0x0100, 0, 0⟩ 0x10 },
                       urb_item 1001 8 false,
                       { addr := 1002, port := 1, canceled := false,
                         derived := .cancel_urb_work 7 }] }
      (urb_item 1001 8 false)).processing =
      [{ addr := 1000, port := 1, canceled := false,
         derived := .port_stat_work ⟨0x0100, 0, 0⟩ 0x10 },
       { addr := 1002, port := 1, canceled := false, derived := .cancel_urb_work 7 }] ∧
    (hcd.finish_work { one_port_hcd 42 ⟨0x0100, 0, 0⟩ with
        processing := [{ addr := 1002, port := 1, canceled := false,
                         derived := .cancel_urb_work 7 }] }
      { addr := 1002, port := 1, canceled := false, derived := .cancel_urb_work 7 }).givebacks
      = [] := by
  have h := C14_finish_work { one_port_hcd 42 ⟨0x0100, 0, 0⟩ with
      processing := [{ addr := 1000, port := 1, canceled := false,
                       derived := .port_stat_work ⟨0x0100, 0, 0⟩ 0x10 },
                     urb_item 1001 8 false,
                     { addr := 1002, port := 1, canceled := false,
                       derived := .cancel_urb_work 7 }] }
    (urb_item 1001 8 false) (by decide)
  have h' := C14_finish_work { one_port_hcd 42 ⟨0x0100, 0, 0⟩ with
      processing := [{ addr := 1002, port := 1, canceled := false,
                       derived := .cancel_urb_work 7 }] }
    { addr := 1002, port := 1, canceled := false, derived := .cancel_urb_work 7 } (by decide)
  exact ⟨by decide, h.1 _ rfl,
    h.2.2.2.2.1 [{ addr := 1000, port := 1, canceled := false,
                   derived := .port_stat_work ⟨0x0100, 0, 0⟩ 0x10 }]
      [{ addr := 1002, port := 1, canceled := false, derived := .cancel_urb_work 7 }] rfl
      (by decide),
    h'.2.1 (by intro u hu; cases hu)⟩

theorem is_process_urb_work_of_cancel (H : Nat) (w : work) (x : work) :
    is_process_urb_work_of H (if x.addr = w.addr then x.cancel else x) =
      is_process_urb_work_of H x := by
  split_ifs <;> rfl

/-- What the inbox branch of `cancel_process_urb_work` leaves behind: the inbox with the
object of `w` marked canceled, where the search still finds it, and one more giveback. -/
theorem cancel_in_inbox_state (st : local_hcd) (H fresh : Nat) (w : work)
    (hw : st.inbox.find? (is_process_urb_work_of H) = some w) :
    ∃ u, w.derived = .process_urb_work u ∧ u.get_handle = H ∧
      hcd.cancel_process_urb_work st H fresh =
        .ok (false, (st.write_work w.addr work.cancel).finishing_work w.cancel) ∧
      ((st.write_work w.addr work.cancel).finishing_work w.cancel).inbox =
        st.inbox.map (fun x => if x.addr = w.addr then x.cancel else x) ∧
      ((st.write_work w.addr work.cancel).finishing_work w.cancel).givebacks =
        st.givebacks ++ [u._urb] ∧
      ((st.write_work w.addr work.cancel).finishing_work w.cancel).port_info = st.port_info ∧
      (st.inbox.map (fun x => if x.addr = w.addr then x.cancel else x)).find?
        (is_process_urb_work_of H) = some w.cancel := by
  have hm : is_process_urb_work_of H w = true := List.find?_some hw
  have hfind : (st.inbox.map (fun x => if x.addr = w.addr then x.cancel else x)).find?
      (is_process_urb_work_of H) = some w.cancel := by
    rw [List.find?_map]
    have hcomp : (is_process_urb_work_of H ∘ fun x => if x.addr = w.addr then x.cancel else x) =
        is_process_urb_work_of H := by
      funext x
      exact is_process_urb_work_of_cancel H w x
    rw [hcomp, hw]
    simp
  unfold is_process_urb_work_of at hm
  cases hd : w.derived with
  | process_urb_work u =>
    rw [hd] at hm
    have hH : u.get_handle = H := by simpa using hm
    refine ⟨u, rfl, hH, cancel_process_urb_work_inbox st H fresh w hw, ?_, ?_, ?_, hfind⟩ <;>
      simp [local_hcd.finishing_work, local_hcd.write_work, work.cancel, hd]
  | cancel_urb_work h => rw [hd] at hm; simp at hm
  | port_stat_work s t => rw [hd] at hm; simp at hm

/-- Claim C11 as stated fails: the inbox holds three URB items and the one with handle 8
is canceled; after the call the inbox still holds all three items, the second one
marked canceled, and is not the previous inbox without that item. -/
theorem C11_counterexample :
    ∃ st',
      hcd.cancel_process_urb_work { one_port_hcd 42 ⟨0, 0, 0⟩ with
          inbox := [urb_item 1000 7 false, urb_item 1001 8 false, urb_item 1002 9 false] }
        8 2000 = .ok (false, st') ∧
      st'.inbox = [urb_item 1000 7 false, urb_item 1001 8 true, urb_item 1002 9 false] ∧
      st'.inbox ≠ [urb_item 1000 7 false, urb_item 1002 9 false] :=
  ⟨_, rfl, rfl, by decide⟩

/-- Claim C11, amended: when the search of `cancel_process_urb_work(H)` finds the item
`w` in the inbox, the call removes nothing from the inbox. Afterwards the inbox has the
items it had, in their order, with the object of `w` marked canceled (when `w` is the
only item at its address, between `front` and `back`, the inbox is
`front ++ w.cancel :: back`). The item is deleted by `next_work`: with the canceled item
at the head of the inbox, `next_work` does what it does on the items behind it. -/
theorem C11_cancel_keeps_item (st : local_hcd) (H fresh : Nat) (w : work)
    (hw : st.inbox.find? (is_process_urb_work_of H) = some w) :
    ∃ st', hcd.cancel_process_urb_work st H fresh = .ok (false, st') ∧
      st'.inbox.length = st.inbox.length ∧
      st'.inbox = st.inbox.map (fun x => if x.addr = w.addr then x.cancel else x) ∧
      (∀ front back : List work, st.inbox = front ++ w :: back →
        (∀ x ∈ front ++ back, x.addr ≠ w.addr) →
        st'.inbox = front ++ w.cancel :: back) ∧
      (∀ back : List work, st'.inbox = w.cancel :: back →
        hcd.next_work st' = hcd.next_work { st' with inbox := back }) := by
  obtain ⟨u, _, _, hrun, hin, _, _, _⟩ := cancel_in_inbox_state st H fresh w hw
  refine ⟨_, hrun, ?_, hin, ?_, ?_⟩
  · rw [hin, List.length_map]
  · intro front back hsplit hdist
    rw [hin, hsplit, List.map_append, List.map_cons, if_pos rfl]
    have hmap : ∀ l : List work, (∀ x ∈ l, x.addr ≠ w.addr) →
        l.map (fun x => if x.addr = w.addr then x.cancel else x) = l := by
      intro l hl
      induction l with
      | nil => rfl
      | cons a l ih =>
        rw [List.map_cons, if_neg (hl a (List.mem_cons_self _ _)),
          ih fun x hx => hl x (List.mem_cons_of_mem _ hx)]
    rw [hmap front fun x hx => hdist x (List.mem_append_left _ hx),
      hmap back fun x hx => hdist x (List.mem_append_right _ hx)]
  · intro back hback
    unfold hcd.next_work
    rw [hback]
    simp [next_work_loop, work.is_canceled, work.cancel]

/-- Claim C11, amended, at a concrete input: the inbox of three URB items keeps its three
items when the second one is canceled. -/
theorem C11_cancel_keeps_item_witness :
    List.find? (is_process_urb_work_of 8)
        [urb_item 1000 7 false, urb_item 1001 8 false, urb_item 1002 9 false] =
      some (urb_item 1001 8 false) ∧
    ∃ st',
      hcd.cancel_process_urb_work { one_port_hcd 42 ⟨0, 0, 0⟩ with
          inbox := [urb_item 1000 7 false, urb_item 1001 8 false, urb_item 1002 9 false] }
        8 2000 = .ok (false, st') ∧
      st'.inbox.length = 3 ∧
      st'.inbox = [urb_item 1000 7 false, urb_item 1001 8 true, urb_item 1002 9 false] := by
  obtain ⟨st', h1, h2, _, h4, _⟩ := C11_cancel_keeps_item { one_port_hcd 42 ⟨0, 0, 0⟩ with
      inbox := [urb_item 1000 7 false, urb_item 1001 8 false, urb_item 1002 9 false] }
    8 2000 (urb_item 1001 8 false) rfl
  exact ⟨rfl, st', h1, h2,
    h4 [urb_item 1000 7 false] [urb_item 1002 9 false] rfl (by decide)⟩

theorem giveback_record_status (E : errno_h) (urb : usb_vhci_urb) :
    (usb_vhci_giveback_record E urb).status =
      usb_vhci_to_errno E urb.status (if usb_vhci_is_iso urb.type then 1 else 0) := by
  unfold usb_vhci_giveback_record
  simp only []
  split_ifs <;> rfl

/-- Claim C13 as stated fails: a pending URB (handle 9) is canceled while in the inbox;
the giveback of `cancel_process_urb_work(9)` hands the kernel the status
`-EINPROGRESS` (`-115` under the Linux values), not `-ECONNRESET` (`-104`). -/
theorem C13_counterexample :
    get_descriptor_urb_object.get_status = USB_VHCI_STATUS_PENDING ∧
    ∃ st',
      hcd.cancel_process_urb_work { one_port_hcd 0 ⟨0x0103, 0x0010, 0⟩ with
          inbox := [{ addr := 1000, port := 1, canceled := false,
                      derived := .process_urb_work get_descriptor_urb_object }] } 9 2000 =
        .ok (false, st') ∧
      st'.givebacks = [get_descriptor_urb_object._urb] ∧
      (usb_vhci_giveback_record errno_linux get_descriptor_urb_object._urb).status = -115 ∧
      -errno_linux.ECONNRESET = -104 ∧
      (usb_vhci_giveback_record errno_linux get_descriptor_urb_object._urb).status ≠
        -errno_linux.ECONNRESET :=
  ⟨rfl, _, rfl, rfl, by decide, by decide, by decide⟩

/-- Claim C13, amended: when the search of `cancel_process_urb_work(H)` finds the
`process_urb_work` item `w` in the inbox, the giveback of the call hands the kernel the
`errno` of the status that the URB has at that moment,
`usb_vhci_to_errno(urb.status, iso)`; canceling does not write to the URB. The kernel
gets `-ECONNRESET` when that status is canceled and, for one, `-EINPROGRESS` when the
URB is still pending. -/
theorem C13_cancel_giveback_status (E : errno_h) (st : local_hcd) (H fresh : Nat) (w : work)
    (hw : st.inbox.find? (is_process_urb_work_of H) = some w) :
    ∃ st' u, w.derived = .process_urb_work u ∧
      hcd.cancel_process_urb_work st H fresh = .ok (false, st') ∧
      st'.givebacks = st.givebacks ++ [u._urb] ∧
      (usb_vhci_giveback_record E u._urb).status =
        usb_vhci_to_errno E u.get_status (if usb_vhci_is_iso u._urb.type then 1 else 0) ∧
      (u.get_status = USB_VHCI_STATUS_CANCELED →
        (usb_vhci_giveback_record E u._urb).status = -E.ECONNRESET) ∧
      (u.get_status = USB_VHCI_STATUS_PENDING →
        (usb_vhci_giveback_record E u._urb).status = -E.EINPROGRESS) := by
  obtain ⟨u, hu, _, hrun, _, hgb, _, _⟩ := cancel_in_inbox_state st H fresh w hw
  refine ⟨_, u, hu, hrun, hgb, giveback_record_status E u._urb, ?_, ?_⟩
  · intro hs
    rw [giveback_record_status]
    unfold urb.get_status at hs
    rw [hs]
    simp [usb_vhci_to_errno, USB_VHCI_STATUS_CANCELED, USB_VHCI_STATUS_SUCCESS,
      USB_VHCI_STATUS_PENDING, USB_VHCI_STATUS_SHORT_PACKET, USB_VHCI_STATUS_ERROR]
  · intro hs
    rw [giveback_record_status]
    unfold urb.get_status at hs
    rw [hs]
    simp [usb_vhci_to_errno, USB_VHCI_STATUS_SUCCESS, USB_VHCI_STATUS_PENDING]

/-- Claim C13, amended, at a concrete input: the pending URB with handle 9 is given back
with the status `-EINPROGRESS`. -/
theorem C13_cancel_giveback_status_witness :
    List.find? (is_process_urb_work_of 9)
        [({ addr := 1000, port := 1, canceled := false,
            derived := .process_urb_work get_descriptor_urb_object } : work)] =
      some { addr := 1000, port := 1, canceled := false,
             derived := .process_urb_work get_descriptor_urb_object } ∧
    ∃ st',
      hcd.cancel_process_urb_work { one_port_hcd 0 ⟨0x0103, 0x0010, 0⟩ with
          inbox := [{ addr := 1000, port := 1, canceled := false,
                      derived := .process_urb_work get_descriptor_urb_object }] } 9 2000 =
        .ok (false, st') ∧
      st'.givebacks = [get_descriptor_urb_object._urb] ∧
      (usb_vhci_giveback_record errno_linux get_descriptor_urb_object._urb).status =
        -errno_linux.EINPROGRESS := by
  obtain ⟨st', u, hu, h1, h2, _, _, h5⟩ :=
    C13_cancel_giveback_status errno_linux { one_port_hcd 0 ⟨0x0103, 0x0010, 0⟩ with
        inbox := [{ addr := 1000, port := 1, canceled := false,
                    derived := .process_urb_work get_descriptor_urb_object }] } 9 2000
      { addr := 1000, port := 1, canceled := false,
        derived := .process_urb_work get_descriptor_urb_object } rfl
  have hu' : u = get_descriptor_urb_object := by
    have : work_derived.process_urb_work get_descriptor_urb_object = .process_urb_work u := hu
    exact (work_derived.process_urb_work.inj this).symm
  subst hu'
  exact ⟨rfl, st', h1, h2, h5 rfl⟩

/-- The pump obtains an URB object, or drops the URB after a failed payload fetch, from
every decoded header but an isochronous one with packets and no buffer. -/
theorem bg_work_fetch_urb_decoded (K : kernel_header) (handle : Nat) (ku : usb_vhci_ioc_urb)
    (hdr : usb_vhci_urb) (res : Int) (data : Option usb_vhci_ioc_urb_data)
    (hdec : usb_vhci_fetch_work K (some (.PROCESS_URB handle ku)) = some (.PROCESS_URB hdr, res))
    (hok : ¬ (ku.type = USB_VHCI_URB_TYPE_ISO ∧ ku.packet_count ≠ 0 ∧ ku.buffer_length = 0)) :
    ∃ ou, bg_work_fetch_urb hdr res data = .ok ou := by
  simp only [usb_vhci_fetch_work, usb_vhci_fetch_work_timeout] at hdec
  by_cases hbl : ku.buffer_length = 0 <;> by_cases hpc : ku.packet_count = 0 <;>
    split_ifs at hdec <;>
    simp [usb_vhci_urb.zero] at hdec <;>
    (obtain ⟨h1, _⟩ := hdec
     subst h1
     simp_all [bg_work_fetch_urb, urb.urb_own, urb._chk, USB_VHCI_URB_TYPE_ISO,
       USB_VHCI_URB_TYPE_INT, USB_VHCI_URB_TYPE_CONTROL, USB_VHCI_URB_TYPE_BULK]
     try (split_ifs <;> simp))

/-- Claim C15: a URB event whose device address `port_from_address` resolves to no port
(result 0, so the address is at most `0x7f`), and whose URB object the pump can
construct (every header but an isochronous one with packets and no buffer): the pump
step leaves the whole controller state as it was; nothing is appended to the inbox,
nothing is given back, and the port table and the processing list are unchanged,
whatever the request is. -/
theorem C15_unbound_address_dropped (K : kernel_header) (st : local_hcd) (handle : Nat)
    (ku : usb_vhci_ioc_urb) (data : Option usb_vhci_ioc_urb_data) (fresh : Nat)
    (hp : st.port_from_address ku.address = .ok 0)
    (hok : ¬ (ku.type = USB_VHCI_URB_TYPE_ISO ∧ ku.packet_count ≠ 0 ∧ ku.buffer_length = 0)) :
    st.bg_work K (some (.PROCESS_URB handle ku)) data fresh = .ok st := by
  cases hdec : usb_vhci_fetch_work K (some (.PROCESS_URB handle ku)) with
  | none => simp [local_hcd.bg_work, hdec]
  | some r =>
    obtain ⟨w, res⟩ := r
    cases w with
    | PORT_STAT ps =>
      simp only [usb_vhci_fetch_work, usb_vhci_fetch_work_timeout] at hdec
      split_ifs at hdec <;> simp at hdec
    | CANCEL_URB h =>
      simp only [usb_vhci_fetch_work, usb_vhci_fetch_work_timeout] at hdec
      split_ifs at hdec <;> simp at hdec
    | PROCESS_URB hdr =>
      obtain ⟨ou, hou⟩ := bg_work_fetch_urb_decoded K handle ku hdr res data hdec hok
      have hadr : hdr.devadr = ku.address :=
        (fetch_work_process_urb_fields K handle ku hdr res hdec).2.2.2.1
      cases ou with
      | none => simp [local_hcd.bg_work, hdec, bg_work_process_urb, hou]
      | some u =>
        simp [local_hcd.bg_work, hdec, bg_work_process_urb, hou, bg_work_route_urb, hadr, hp]

/-- Claim C15 at a concrete input: the single port has the address 5 and a `SET_ADDRESS`
request arrives for the device address 0, which is bound to no port; the state stays as
it is. -/
theorem C15_unbound_address_dropped_witness :
    (one_port_hcd 5 ⟨0x0103, 0x0010, 0⟩).port_from_address (set_address_urb 42 0).address =
      .ok 0 ∧
    ¬ ((set_address_urb 42 0).type = USB_VHCI_URB_TYPE_ISO ∧
       (set_address_urb 42 0).packet_count ≠ 0 ∧ (set_address_urb 42 0).buffer_length = 0) ∧
    (one_port_hcd 5 ⟨0x0103, 0x0010, 0⟩).bg_work header_1
      (some (.PROCESS_URB 77 (set_address_urb 42 0))) none 1000 =
      .ok (one_port_hcd 5 ⟨0x0103, 0x0010, 0⟩) :=
  ⟨rfl, by decide,
   C15_unbound_address_dropped header_1 (one_port_hcd 5 ⟨0x0103, 0x0010, 0⟩) 77
     (set_address_urb 42 0) none 1000 rfl (by decide)⟩

/-- Claim C19: for each of the sixteen status codes and each iso flag,
`usb_vhci_to_errno` returns the `errno` of the table (error: `-EXDEV` if iso, else
`-EPROTO`; all iso packets failed: `-EINVAL` if iso, else `-EPROTO`), and every status
value outside the table maps to `-EPROTO`. -/
theorem C19_to_errno_table (E : errno_h) (iso_urb : Nat) :
    usb_vhci_to_errno E USB_VHCI_STATUS_SUCCESS iso_urb = 0 ∧
    usb_vhci_to_errno E USB_VHCI_STATUS_PENDING iso_urb = -E.EINPROGRESS ∧
    usb_vhci_to_errno E USB_VHCI_STATUS_SHORT_PACKET iso_urb = -E.EREMOTEIO ∧
    usb_vhci_to_errno E USB_VHCI_STATUS_ERROR iso_urb =
      (if iso_urb ≠ 0 then -E.EXDEV else -E.EPROTO) ∧
    usb_vhci_to_errno E USB_VHCI_STATUS_CANCELED iso_urb = -E.ECONNRESET ∧
    usb_vhci_to_errno E USB_VHCI_STATUS_TIMEDOUT iso_urb = -E.ETIMEDOUT ∧
    usb_vhci_to_errno E USB_VHCI_STATUS_DEVICE_DISABLED iso_urb = -E.ESHUTDOWN ∧
    usb_vhci_to_errno E USB_VHCI_STATUS_DEVICE_DISCONNECTED iso_urb = -E.ENODEV ∧
    usb_vhci_to_errno E USB_VHCI_STATUS_BIT_STUFF iso_urb = -E.EPROTO ∧
    usb_vhci_to_errno E USB_VHCI_STATUS_CRC iso_urb = -E.EILSEQ ∧
    usb_vhci_to_errno E USB_VHCI_STATUS_NO_RESPONSE iso_urb = -E.ETIME ∧
    usb_vhci_to_errno E USB_VHCI_STATUS_BABBLE iso_urb = -E.EOVERFLOW ∧
    usb_vhci_to_errno E USB_VHCI_STATUS_STALL iso_urb = -E.EPIPE ∧
    usb_vhci_to_errno E USB_VHCI_STATUS_BUFFER_OVERRUN iso_urb = -E.ECOMM ∧
    usb_vhci_to_errno E USB_VHCI_STATUS_BUFFER_UNDERRUN iso_urb = -E.ENOSR ∧
    usb_vhci_to_errno E USB_VHCI_STATUS_ALL_ISO_PACKETS_FAILED iso_urb =
      (if iso_urb ≠ 0 then -E.EINVAL else -E.EPROTO) ∧
    ∀ status : Int,
      status ∉ [USB_VHCI_STATUS_SUCCESS, USB_VHCI_STATUS_PENDING, USB_VHCI_STATUS_SHORT_PACKET,
        USB_VHCI_STATUS_ERROR, USB_VHCI_STATUS_CANCELED, USB_VHCI_STATUS_TIMEDOUT,
        USB_VHCI_STATUS_DEVICE_DISABLED, USB_VHCI_STATUS_DEVICE_DISCONNECTED,
        USB_VHCI_STATUS_BIT_STUFF, USB_VHCI_STATUS_CRC, USB_VHCI_STATUS_NO_RESPONSE,
        USB_VHCI_STATUS_BABBLE, USB_VHCI_STATUS_STALL, USB_VHCI_STATUS_BUFFER_OVERRUN,
        USB_VHCI_STATUS_BUFFER_UNDERRUN, USB_VHCI_STATUS_ALL_ISO_PACKETS_FAILED] →
      usb_vhci_to_errno E status iso_urb = -E.EPROTO := by
  refine ⟨?_, ?_, ?_, ?_, ?_, ?_, ?_, ?_, ?_, ?_, ?_, ?_, ?_, ?_, ?_, ?_, ?_⟩
  all_goals try (
    simp [usb_vhci_to_errno, USB_VHCI_STATUS_SUCCESS, USB_VHCI_STATUS_PENDING,
      USB_VHCI_STATUS_SHORT_PACKET, USB_VHCI_STATUS_ERROR, USB_VHCI_STATUS_CANCELED,
      USB_VHCI_STATUS_TIMEDOUT, USB_VHCI_STATUS_DEVICE_DISABLED,
      USB_VHCI_STATUS_DEVICE_DISCONNECTED, USB_VHCI_STATUS_BIT_STUFF, USB_VHCI_STATUS_CRC,
      USB_VHCI_STATUS_NO_RESPONSE, USB_VHCI_STATUS_BABBLE, USB_VHCI_STATUS_STALL,
      USB_VHCI_STATUS_BUFFER_OVERRUN, USB_VHCI_STATUS_BUFFER_UNDERRUN,
      USB_VHCI_STATUS_ALL_ISO_PACKETS_FAILED]; done)
  intro status hs
  simp only [List.mem_cons, List.mem_singleton, List.not_mem_nil, or_false, not_or] at hs
  obtain ⟨h1, h2, h3, h4, h5, h6, h7, h8, h9, h10, h11, h12, h13, h14, h15, h16⟩ := hs
  simp only [usb_vhci_to_errno, h1, h2, h3, h4, h5, h6, h7, h8, h9, h10, h11, h12, h13, h14,
    h15, h16, if_false]

/-- Claim C19 at a concrete input: under the Linux values, stall maps to `-32`
(`-EPIPE`), an erroneous iso URB to `-18` (`-EXDEV`), and the status value `0x12345`,
which is not in the table, to `-71` (`-EPROTO`). -/
theorem C19_to_errno_table_witness :
    usb_vhci_to_errno errno_linux USB_VHCI_STATUS_STALL 0 = -32 ∧
    usb_vhci_to_errno errno_linux USB_VHCI_STATUS_ERROR 1 = -18 ∧
    usb_vhci_to_errno errno_linux 0x12345 0 = -71 := by
  have h := C19_to_errno_table errno_linux 0
  have h' := C19_to_errno_table errno_linux 1
  exact ⟨h.2.2.2.2.2.2.2.2.2.2.2.2.1, h'.2.2.2.1,
    h.2.2.2.2.2.2.2.2.2.2.2.2.2.2.2.2 0x12345 (by decide)⟩

theorem address_from_port_congr (st st' : local_hcd) (h : st'.port_info = st.port_info)
    (q : Nat) : st'.address_from_port q = st.address_from_port q := by
  unfold local_hcd.address_from_port hcd.get_port_count local_hcd.port_info_at
  rw [h]

/-- What the `SET_ADDRESS?` block does to the controller state: nothing, or it binds the
`wValue` of an accepted request to the port. -/
theorem bg_work_set_address_cases (st : local_hcd) (index : Nat) (u : urb) :
    (bg_work_set_address st index u).2 = st ∨
    (u.is_control = true ∧ u.get_bmRequestType = 0 ∧ u.get_bRequest = 5 ∧
      u.get_wValue ≤ 0x7f ∧
      (bg_work_set_address st index u).2 = st.set_adr (index - 1) u.get_wValue) := by
  unfold bg_work_set_address
  by_cases c1 : u.is_control = true
  · by_cases c2 : u.get_endpoint_number = 0 ∧ u.get_bmRequestType = 0 ∧ u.get_bRequest = 5
    · rw [if_pos c1, if_pos c2]
      by_cases c3 : u.get_wValue > 0x7f
      · left
        show (if u.get_wValue > 127 then (u.stall, st)
          else (u.ack, st.set_adr (index - 1) (u.get_wValue % 256))).2 = st
        rw [if_pos c3]
      · right
        refine ⟨c1, c2.2.1, c2.2.2, by omega, ?_⟩
        show (if u.get_wValue > 127 then (u.stall, st)
          else (u.ack, st.set_adr (index - 1) (u.get_wValue % 256))).2 = _
        rw [if_neg c3]
        have : u.get_wValue % 256 = u.get_wValue := by omega
        rw [this]
    · left
      rw [if_pos c1, if_neg c2]
  · left
    rw [if_neg c1]

/-- A pump step on a URB event either leaves the state as it was or enqueues the URB for
the port that its address resolves to. -/
theorem bg_work_process_urb_cases (K : kernel_header) (st st' : local_hcd) (handle : Nat)
    (ku : usb_vhci_ioc_urb) (data : Option usb_vhci_ioc_urb_data) (fresh : Nat)
    (hrun : st.bg_work K (some (.PROCESS_URB handle ku)) data fresh = .ok st') :
    st' = st ∨
    ∃ hdr res u p,
      usb_vhci_fetch_work K (some (.PROCESS_URB handle ku)) = some (.PROCESS_URB hdr, res) ∧
      bg_work_fetch_urb hdr res data = .ok (some u) ∧
      st.port_from_address hdr.devadr = .ok p ∧ p ≠ 0 ∧
      st' = hcd.on_work_enqueued (hcd.enqueue_work (bg_work_set_address st p u).2
        { addr := fresh, port := p, canceled := false,
          derived := .process_urb_work (bg_work_set_address st p u).1 }) := by
  cases hdec : usb_vhci_fetch_work K (some (.PROCESS_URB handle ku)) with
  | none =>
    simp only [local_hcd.bg_work, hdec, Except.ok.injEq] at hrun
    exact Or.inl hrun.symm
  | some r =>
    obtain ⟨w, res⟩ := r
    cases w with
    | PORT_STAT ps =>
      simp only [usb_vhci_fetch_work, usb_vhci_fetch_work_timeout] at hdec
      split_ifs at hdec <;> simp at hdec
    | CANCEL_URB h =>
      simp only [usb_vhci_fetch_work, usb_vhci_fetch_work_timeout] at hdec
      split_ifs at hdec <;> simp at hdec
    | PROCESS_URB hdr =>
      simp only [local_hcd.bg_work, hdec, bg_work_process_urb] at hrun
      cases hf : bg_work_fetch_urb hdr res data with
      | error e => simp [hf] at hrun
      | ok ou =>
        cases ou with
        | none =>
          simp only [hf, Except.ok.injEq] at hrun
          exact Or.inl hrun.symm
        | some u =>
          simp only [hf, bg_work_route_urb] at hrun
          cases hp : st.port_from_address hdr.devadr with
          | error e => simp [hp] at hrun
          | ok p =>
            simp only [hp] at hrun
            by_cases hp0 : p = 0
            · simp only [hp0, if_true, Except.ok.injEq] at hrun
              exact Or.inl hrun.symm
            · right
              simp only [hp0, if_false, process_urb_work.ctor, Except.ok.injEq] at hrun
              exact ⟨hdr, res, u, p, rfl, hf, hp, hp0, hrun.symm⟩

theorem cancel_process_urb_work_port_info (st st' : local_hcd) (handle fresh : Nat) (r : Bool)
    (h : hcd.cancel_process_urb_work st handle fresh = .ok (r, st')) :
    st'.port_info = st.port_info := by
  unfold hcd.cancel_process_urb_work at h
  cases hin : st.inbox.find? (is_process_urb_work_of handle) with
  | some w =>
    simp only [hin, local_hcd.canceling_work, Bool.false_eq_true, if_false, Except.ok.injEq,
      Prod.mk.injEq] at h
    rw [← h.2]
    unfold local_hcd.finishing_work
    cases w.cancel.derived <;> rfl
  | none =>
    simp only [hin] at h
    cases hpr : st.processing.find? (is_process_urb_work_of handle) with
    | none =>
      simp only [hpr, Except.ok.injEq, Prod.mk.injEq] at h
      rw [← h.2]
    | some w =>
      simp only [hpr, local_hcd.canceling_work, if_true] at h
      cases hd : w.derived with
      | process_urb_work u =>
        simp only [hd, cancel_urb_work.ctor] at h
        split_ifs at h
        simp only [Except.ok.injEq, Prod.mk.injEq] at h
        rw [← h.2]
        rfl
      | cancel_urb_work hh =>
        simp only [hd, Except.ok.injEq, Prod.mk.injEq] at h
        rw [← h.2]
      | port_stat_work s t =>
        simp only [hd, Except.ok.injEq, Prod.mk.injEq] at h
        rw [← h.2]

/-- The addresses after the pump step of a port status event for a port in range. -/
theorem bg_work_port_stat_address (K : kernel_header) (st st' : local_hcd)
    (ks : usb_vhci_ioc_port_stat) (data : Option usb_vhci_ioc_urb_data) (fresh : Nat)
    (h1 : 1 ≤ ks.index) (h2 : ks.index ≤ hcd.get_port_count st)
    (hrun : st.bg_work K (some (.PORT_STAT ks)) data fresh = .ok st') (q : Nat) :
    st'.address_from_port q =
      if q = ks.index then
        (if ks.change &&& USB_VHCI_PORT_STAT_C_RESET ≠ 0 ∧
            ks.status &&& USB_VHCI_PORT_STAT_RESET = 0 ∧
            ks.status &&& USB_VHCI_PORT_STAT_ENABLE ≠ 0 then .ok 0x00
         else if ks.change &&& USB_VHCI_PORT_STAT_C_CONNECTION ≠ 0 then .ok 0xff
         else st.address_from_port q)
      else st.address_from_port q := by
  rw [bg_work_port_stat_in_range K st ks data fresh h1 h2] at hrun
  have hst := (Except.ok.inj hrun).symm
  subst hst
  unfold hcd.get_port_count at h2
  rw [address_from_port_on_work_enqueued]
  simp only [port_stat.get_connection_changed, port_stat.get_reset_changed,
    port_stat.get_reset, port_stat.get_enable, Bool.and_eq_true, Bool.not_eq_true',
    bne_iff_ne, ne_eq, bne_eq_false_iff_eq, and_assoc]
  by_cases hq : q = ks.index
  · have hi : q = ks.index - 1 + 1 ∧ ks.index - 1 < st.port_info.length := by omega
    rw [if_pos hq]
    split_ifs <;>
      simp only [address_from_port_set_adr, address_from_port_set_stat,
        address_from_port_enqueue_work, port_info_length_set_adr, port_info_length_set_stat,
        port_info_length_enqueue_work, if_pos hi]
  · have hi : ¬ (q = ks.index - 1 + 1 ∧ ks.index - 1 < st.port_info.length) := by omega
    rw [if_neg hq]
    split_ifs <;>
      simp only [address_from_port_set_adr, address_from_port_set_stat,
        address_from_port_enqueue_work, port_info_length_set_adr, port_info_length_set_stat,
        port_info_length_enqueue_work, if_neg hi]

/-- How one pump step can change the address of a port `q`: not at all; by a port status
event for `q` that completes a reset with the port enabled (address 0) or, failing that,
reports a connection change (address unset); or by an accepted `SET_ADDRESS` request
routed to `q` (address `wValue`). -/
theorem bg_work_address_step (K : kernel_header) (st st' : local_hcd)
    (fetched : Option usb_vhci_ioc_work) (data : Option usb_vhci_ioc_urb_data) (fresh : Nat)
    (hrun : st.bg_work K fetched data fresh = .ok st') (q : Nat) :
    st'.address_from_port q = st.address_from_port q ∨
    (∃ ks, fetched = some (.PORT_STAT ks) ∧ ks.index = q ∧ 1 ≤ q ∧ q ≤ hcd.get_port_count st ∧
      (((ks.change &&& USB_VHCI_PORT_STAT_C_RESET ≠ 0 ∧
          ks.status &&& USB_VHCI_PORT_STAT_RESET = 0 ∧
          ks.status &&& USB_VHCI_PORT_STAT_ENABLE ≠ 0) ∧
          st'.address_from_port q = .ok 0x00) ∨
       (ks.change &&& USB_VHCI_PORT_STAT_C_CONNECTION ≠ 0 ∧
          st'.address_from_port q = .ok 0xff))) ∨
    (∃ handle ku, fetched = some (.PROCESS_URB handle ku) ∧
      ku.type = USB_VHCI_URB_TYPE_CONTROL ∧ ku.setup_packet.bmRequestType = 0 ∧
      ku.setup_packet.bRequest = 5 ∧ ku.setup_packet.wValue ≤ 0x7f ∧
      st.port_from_address ku.address = .ok q ∧ q ≠ 0 ∧
      st'.address_from_port q = .ok ku.setup_packet.wValue) := by
  cases fetched with
  | none =>
    simp only [local_hcd.bg_work, usb_vhci_fetch_work, Except.ok.injEq] at hrun
    subst hrun
    exact Or.inl rfl
  | some w =>
    cases w with
    | other =>
      simp only [local_hcd.bg_work, usb_vhci_fetch_work, usb_vhci_fetch_work_timeout,
        Except.ok.injEq] at hrun
      subst hrun
      exact Or.inl rfl
    | CANCEL_URB h =>
      simp only [local_hcd.bg_work, usb_vhci_fetch_work, usb_vhci_fetch_work_timeout] at hrun
      cases hc : hcd.cancel_process_urb_work st h fresh with
      | error e => simp [hc] at hrun
      | ok r =>
        simp only [hc, Except.ok.injEq] at hrun
        subst hrun
        exact Or.inl (address_from_port_congr _ _
          (cancel_process_urb_work_port_info st r.2 h fresh r.1 hc) q)
    | PORT_STAT ks =>
      by_cases hr : 1 ≤ ks.index ∧ ks.index ≤ hcd.get_port_count st
      · have ha := bg_work_port_stat_address K st st' ks data fresh hr.1 hr.2 hrun q
        by_cases hq : q = ks.index
        · rw [if_pos hq] at ha
          by_cases hR : ks.change &&& USB_VHCI_PORT_STAT_C_RESET ≠ 0 ∧
              ks.status &&& USB_VHCI_PORT_STAT_RESET = 0 ∧
              ks.status &&& USB_VHCI_PORT_STAT_ENABLE ≠ 0
          · rw [if_pos hR] at ha
            exact Or.inr (Or.inl ⟨ks, rfl, hq.symm, hq ▸ hr.1, hq ▸ hr.2, Or.inl ⟨hR, ha⟩⟩)
          · rw [if_neg hR] at ha
            by_cases hC : ks.change &&& USB_VHCI_PORT_STAT_C_CONNECTION ≠ 0
            · rw [if_pos hC] at ha
              exact Or.inr (Or.inl ⟨ks, rfl, hq.symm, hq ▸ hr.1, hq ▸ hr.2, Or.inr ⟨hC, ha⟩⟩)
            · rw [if_neg hC] at ha
              exact Or.inl ha
        · rw [if_neg hq] at ha
          exact Or.inl ha
      · have hout : ks.index = 0 ∨ ks.index > hcd.get_port_count st := by omega
        simp only [local_hcd.bg_work, usb_vhci_fetch_work, usb_vhci_fetch_work_timeout,
          bg_work_port_stat, hout, if_true, Except.ok.injEq] at hrun
        subst hrun
        exact Or.inl rfl
    | PROCESS_URB handle ku =>
      rcases bg_work_process_urb_cases K st st' handle ku data fresh hrun with h | h
      · subst h
        exact Or.inl rfl
      · obtain ⟨hdr, res, u, p, hdec, hf, hp, hp0, hst⟩ := h
        subst hst
        rw [address_from_port_enqueued]
        rcases bg_work_set_address_cases st p u with hs | hs
        · rw [hs]
          exact Or.inl rfl
        · obtain ⟨c1, c2, c3, c4, hs⟩ := hs
          rw [hs, address_from_port_set_adr]
          by_cases hq : q = p - 1 + 1 ∧ p - 1 < st.port_info.length
          · rw [if_pos hq]
            have hqp : q = p := by omega
            obtain ⟨_, h2, _, h4, _, h6⟩ :=
              fetch_work_process_urb_fields K handle ku hdr res hdec
            obtain ⟨_, g2, _, _, _, g6, g7, g8⟩ := bg_work_fetch_urb_fields hdr res data u hf
            have hcontrol : ku.type = USB_VHCI_URB_TYPE_CONTROL := by
              have : u._urb.type = USB_VHCI_URB_TYPE_CONTROL := by
                simpa [urb.is_control] using c1
              rw [← h2, ← g2]
              exact this
            obtain ⟨h6a, h6b, h6c⟩ := h6 hcontrol
            have hw : u.get_wValue = ku.setup_packet.wValue := by
              rw [urb.get_wValue, g6, h6a]
            refine Or.inr (Or.inr ⟨handle, ku, rfl, hcontrol, ?_, ?_, ?_, ?_, ?_, ?_⟩)
            · rw [← h6b, ← g7]; exact c2
            · rw [← h6c, ← g8]; exact c3
            · rw [← hw]; exact c4
            · rw [← h4, hqp]; exact hp
            · omega
            · rw [hw]
          · rw [if_neg hq]
            exact Or.inl rfl

/-- The result of `port_from_address` for an address that some port has: the smallest
such port. -/
theorem port_from_address_smallest (st : local_hcd) (p a : Nat) (ha : a ≤ 0x7f)
    (hpa : st.address_from_port p = .ok a) :
    ∃ q, st.port_from_address a = .ok q ∧ 1 ≤ q ∧ q ≤ p ∧ st.address_from_port q = .ok a ∧
      ∀ r, r < q → st.address_from_port r ≠ .ok a := by
  have hna : ¬ a > 0x7f := by omega
  obtain ⟨s1, s2⟩ := port_from_address_loop_spec a st.port_info 0
  obtain ⟨p1, p2, p3⟩ := (address_from_port_eq_ok st p a).1 hpa
  have hne : port_from_address_loop a st.port_info 0 ≠ 0 := by
    intro h0
    exact (s1.1 h0) (p - 1) (by omega) p3
  obtain ⟨b1, b2, b3, b4⟩ := s2 hne
  have hmin : ∀ r, r < port_from_address_loop a st.port_info 0 →
      st.address_from_port r ≠ .ok a := by
    intro r hr hra
    obtain ⟨q1, q2, q3⟩ := (address_from_port_eq_ok st r a).1 hra
    exact b4 (r - 1) (by omega) q3
  refine ⟨port_from_address_loop a st.port_info 0, by
    simp only [local_hcd.port_from_address, hna, if_false], by omega, ?_,
    (address_from_port_eq_ok st _ a).2 ⟨by omega, by omega, by simpa using b3⟩, hmin⟩
  by_contra hgt
  exact hmin p (by omega) hpa

theorem finish_work_port_info (st : local_hcd) (w : work) :
    (hcd.finish_work st w).port_info = st.port_info := by
  unfold hcd.finish_work local_hcd.finishing_work
  cases w.derived <;> rfl

/-- In every reachable state the address of a port is unset (`0xff`) or at most
`0x7f`. -/
theorem reachable_address_range (K : kernel_header) (st : local_hcd) (hr : reachable K st) :
    ∀ q a, st.address_from_port q = .ok a → a = 0xff ∨ a ≤ 0x7f := by
  induction hr with
  | ctor ports st hc =>
    intro q a hq
    unfold local_hcd.ctor at hc
    split_ifs at hc
    simp only [Except.ok.injEq] at hc
    subst hc
    obtain ⟨q1, q2, q3⟩ := (address_from_port_eq_ok _ q a).1 hq
    simp only [List.length_replicate] at q2
    left
    rw [← q3]
    simp only [List.getD_eq_getElem?_getD, List.getElem?_replicate]
    split_ifs <;> rfl
  | bg_work st st' fetched data fresh _ hrun ih =>
    intro q a hq
    rcases bg_work_address_step K st st' fetched data fresh hrun q with h | h | h
    · rw [h] at hq
      exact ih q a hq
    · obtain ⟨ks, _, _, _, _, h | h⟩ := h
      · rw [h.2] at hq
        right
        have := Except.ok.inj hq
        omega
      · rw [h.2] at hq
        left
        exact (Except.ok.inj hq).symm
    · obtain ⟨handle, ku, _, _, _, _, hv, _, _, h⟩ := h
      rw [h] at hq
      right
      have := Except.ok.inj hq
      omega
  | next_work st _ ih => exact ih
  | finish_work st w _ _ ih =>
    intro q a hq
    rw [address_from_port_congr _ _ (finish_work_port_info st w)] at hq
    exact ih q a hq
  | cancel_process_urb_work st st' handle fresh r _ hc ih =>
    intro q a hq
    rw [address_from_port_congr _ _ (cancel_process_urb_work_port_info st st' handle fresh r hc)]
      at hq
    exact ih q a hq
  | add_work_enqueued_callback st c _ ih => exact ih
  | remove_work_enqueued_callback st c _ ih => exact ih

/-- Claim C16 as stated fails: a controller is constructed with two ports, and the kernel
reports a completed reset with the port enabled first for port 1 and then for port 2.
In the state reached, port 2 has the address 0, which is not unset, and
`port_from_address 0` is port 1, not port 2. -/
theorem C16_counterexample :
    local_hcd.ctor 2 = .ok (two_port_hcd _port_info.default _port_info.default []) ∧
    (two_port_hcd _port_info.default _port_info.default []).bg_work header_1
        (some (.PORT_STAT ⟨0x0103, 0x0010, 1, 0⟩)) none 1000 =
      .ok (two_port_hcd ⟨0, ⟨0x0103, 0x0010, 0⟩⟩ _port_info.default [reset_done_item 1000 1]) ∧
    (two_port_hcd ⟨0, ⟨0x0103, 0x0010, 0⟩⟩ _port_info.default
        [reset_done_item 1000 1]).bg_work header_1
        (some (.PORT_STAT ⟨0x0103, 0x0010, 2, 0⟩)) none 1001 =
      .ok (two_port_hcd ⟨0, ⟨0x0103, 0x0010, 0⟩⟩ ⟨0, ⟨0x0103, 0x0010, 0⟩⟩
        [reset_done_item 1000 1, reset_done_item 1001 2]) ∧
    reachable header_1 (two_port_hcd ⟨0, ⟨0x0103, 0x0010, 0⟩⟩ ⟨0, ⟨0x0103, 0x0010, 0⟩⟩
      [reset_done_item 1000 1, reset_done_item 1001 2]) ∧
    (two_port_hcd ⟨0, ⟨0x0103, 0x0010, 0⟩⟩ ⟨0, ⟨0x0103, 0x0010, 0⟩⟩
      [reset_done_item 1000 1, reset_done_item 1001 2]).address_from_port 2 = .ok 0 ∧
    (0 : Nat) ≠ 0xff ∧
    (two_port_hcd ⟨0, ⟨0x0103, 0x0010, 0⟩⟩ ⟨0, ⟨0x0103, 0x0010, 0⟩⟩
      [reset_done_item 1000 1, reset_done_item 1001 2]).port_from_address 0 = .ok 1 ∧
    (1 : Nat) ≠ 2 := by
  have h0 : local_hcd.ctor 2 = .ok (two_port_hcd _port_info.default _port_info.default []) :=
    rfl
  have h1 : (two_port_hcd _port_info.default _port_info.default []).bg_work header_1
      (some (.PORT_STAT ⟨0x0103, 0x0010, 1, 0⟩)) none 1000 =
      .ok (two_port_hcd ⟨0, ⟨0x0103, 0x0010, 0⟩⟩ _port_info.default
        [reset_done_item 1000 1]) := rfl
  have h2 : (two_port_hcd ⟨0, ⟨0x0103, 0x0010, 0⟩⟩ _port_info.default
      [reset_done_item 1000 1]).bg_work header_1
      (some (.PORT_STAT ⟨0x0103, 0x0010, 2, 0⟩)) none 1001 =
      .ok (two_port_hcd ⟨0, ⟨0x0103, 0x0010, 0⟩⟩ ⟨0, ⟨0x0103, 0x0010, 0⟩⟩
        [reset_done_item 1000 1, reset_done_item 1001 2]) := rfl
  exact ⟨h0, h1, h2,
    reachable.bg_work _ _ _ _ _ (reachable.bg_work _ _ _ _ _ (reachable.ctor 2 _ h0) h1) h2,
    rfl, by decide, rfl, by decide⟩

/-- Claim C16, amended: in every reachable controller state, for every port `p` whose
address `a` is not unset (`0xff`), `port_from_address(a)` succeeds and returns the
smallest port that has the address `a`: a port `q` with `1 <= q <= p` and
`address_from_port q = a`, below which no port has the address `a`. It is `p` exactly
when no port below `p` has the same address. -/
theorem C16_port_of_address_amended (K : kernel_header) (st : local_hcd)
    (hr : reachable K st) (p a : Nat) (hpa : st.address_from_port p = .ok a)
    (hne : a ≠ 0xff) :
    ∃ q, st.port_from_address a = .ok q ∧ 1 ≤ q ∧ q ≤ p ∧ st.address_from_port q = .ok a ∧
      (∀ r, r < q → st.address_from_port r ≠ .ok a) ∧
      (q = p ↔ ∀ r, r < p → st.address_from_port r ≠ .ok a) := by
  have ha : a ≤ 0x7f := by
    rcases reachable_address_range K st hr p a hpa with h | h
    · exact absurd h hne
    · exact h
  obtain ⟨q, h1, h2, h3, h4, h5⟩ := port_from_address_smallest st p a ha hpa
  refine ⟨q, h1, h2, h3, h4, h5, ?_, ?_⟩
  · intro hqp
    rw [← hqp]
    exact h5
  · intro hall
    by_contra hqp
    exact hall q (by omega) h4

/-- Claim C16, amended, at a concrete input: in the reachable state in which both ports
have the address 0, `port_from_address 0` is port 1 for port 2 as well as for port 1. -/
theorem C16_port_of_address_amended_witness :
    reachable header_1 (two_port_hcd ⟨0, ⟨0x0103, 0x0010, 0⟩⟩ ⟨0, ⟨0x0103, 0x0010, 0⟩⟩
      [reset_done_item 1000 1, reset_done_item 1001 2]) ∧
    (two_port_hcd ⟨0, ⟨0x0103, 0x0010, 0⟩⟩ ⟨0, ⟨0x0103, 0x0010, 0⟩⟩
      [reset_done_item 1000 1, reset_done_item 1001 2]).address_from_port 2 = .ok 0 ∧
    (0 : Nat) ≠ 0xff ∧
    ∃ q, (two_port_hcd ⟨0, ⟨0x0103, 0x0010, 0⟩⟩ ⟨0, ⟨0x0103, 0x0010, 0⟩⟩
        [reset_done_item 1000 1, reset_done_item 1001 2]).port_from_address 0 = .ok q ∧
      1 ≤ q ∧ q ≤ 2 ∧ q = 1 := by
  have h0 : local_hcd.ctor 2 = .ok (two_port_hcd _port_info.default _port_info.default []) :=
    rfl
  have h1 : (two_port_hcd _port_info.default _port_info.default []).bg_work header_1
      (some (.PORT_STAT ⟨0x0103, 0x0010, 1, 0⟩)) none 1000 =
      .ok (two_port_hcd ⟨0, ⟨0x0103, 0x0010, 0⟩⟩ _port_info.default
        [reset_done_item 1000 1]) := rfl
  have h2 : (two_port_hcd ⟨0, ⟨0x0103, 0x0010, 0⟩⟩ _port_info.default
      [reset_done_item 1000 1]).bg_work header_1
      (some (.PORT_STAT ⟨0x0103, 0x0010, 2, 0⟩)) none 1001 =
      .ok (two_port_hcd ⟨0, ⟨0x0103, 0x0010, 0⟩⟩ ⟨0, ⟨0x0103, 0x0010, 0⟩⟩
        [reset_done_item 1000 1, reset_done_item 1001 2]) := rfl
  have hr : reachable header_1 (two_port_hcd ⟨0, ⟨0x0103, 0x0010, 0⟩⟩
      ⟨0, ⟨0x0103, 0x0010, 0⟩⟩ [reset_done_item 1000 1, reset_done_item 1001 2]) :=
    reachable.bg_work _ _ _ _ _ (reachable.bg_work _ _ _ _ _ (reachable.ctor 2 _ h0) h1) h2
  obtain ⟨q, q1, q2, q3, _, _, _⟩ :=
    C16_port_of_address_amended header_1 _ hr 2 0 rfl (by decide)
  have hq : q = 1 := by
    have : (Except.ok 1 : Except cpp_exception Nat) = .ok q := q1
    exact (Except.ok.inj this).symm
  exact ⟨hr, rfl, by decide, q, q1, q2, q3, hq⟩

/-- Claim C18 as stated fails: port 1 has the address 5 and a `SET_ADDRESS` request with
`wValue = 0` arrives for the device address 5. The step is a URB event, not a port
status event, and it takes the address of port 1 from 5 to 0. -/
theorem C18_counterexample :
    (one_port_hcd 5 ⟨0x0103, 0, 0⟩).address_from_port 1 = .ok 5 ∧ (5 : Nat) ≠ 0 ∧
    ∃ st',
      (one_port_hcd 5 ⟨0x0103, 0, 0⟩).bg_work header_1
        (some (.PROCESS_URB 77 { set_address_urb 0 0 with address := 5 })) none 1000 =
        .ok st' ∧
      st'.address_from_port 1 = .ok 0 :=
  ⟨rfl, by decide, _, rfl, rfl⟩

/-- Claim C18, amended: for every pump step and every port `p`, if the address of `p` is
not 0 before the step and is 0 after it, then the step was either a port status event
for `p` whose record has the reset-change bit set, the reset status bit clear and the
enable status bit set, or a URB event carrying a `SET_ADDRESS` request (control,
`bmRequestType = 0`, `bRequest = 5`) with `wValue = 0` for a device address that
resolves to `p`. The facade operations `next_work`, `finish_work`,
`cancel_process_urb_work` and the callback registration leave every address as it
is. -/
theorem C18_address_zero_amended (K : kernel_header) (st : local_hcd) :
    (∀ (st' : local_hcd) (fetched : Option usb_vhci_ioc_work)
        (data : Option usb_vhci_ioc_urb_data) (fresh p : Nat),
      st.bg_work K fetched data fresh = .ok st' →
      st.address_from_port p ≠ .ok 0 → st'.address_from_port p = .ok 0 →
      (∃ ks, fetched = some (.PORT_STAT ks) ∧ ks.index = p ∧
        ks.change &&& USB_VHCI_PORT_STAT_C_RESET ≠ 0 ∧
        ks.status &&& USB_VHCI_PORT_STAT_RESET = 0 ∧
        ks.status &&& USB_VHCI_PORT_STAT_ENABLE ≠ 0) ∨
      (∃ handle ku, fetched = some (.PROCESS_URB handle ku) ∧
        ku.type = USB_VHCI_URB_TYPE_CONTROL ∧ ku.setup_packet.bmRequestType = 0 ∧
        ku.setup_packet.bRequest = 5 ∧ ku.setup_packet.wValue = 0 ∧
        st.port_from_address ku.address = .ok p)) ∧
    (∀ p, (hcd.next_work st).2.address_from_port p = st.address_from_port p) ∧
    (∀ w p, (hcd.finish_work st w).address_from_port p = st.address_from_port p) ∧
    (∀ handle fresh r st' p, hcd.cancel_process_urb_work st handle fresh = .ok (r, st') →
      st'.address_from_port p = st.address_from_port p) ∧
    (∀ c p, (hcd.add_work_enqueued_callback st c).address_from_port p =
      st.address_from_port p) ∧
    (∀ c p, (hcd.remove_work_enqueued_callback st c).address_from_port p =
      st.address_from_port p) := by
  refine ⟨?_, fun _ => rfl, fun w p => address_from_port_congr _ _ (finish_work_port_info st w) p,
    fun handle fresh r st' p h =>
      address_from_port_congr _ _ (cancel_process_urb_work_port_info st st' handle fresh r h) p,
    fun _ _ => rfl, fun _ _ => rfl⟩
  intro st' fetched data fresh p hrun hbefore hafter
  rcases bg_work_address_step K st st' fetched data fresh hrun p with h | h | h
  · rw [h] at hafter
    exact absurd hafter hbefore
  · obtain ⟨ks, hf, hidx, _, _, h | h⟩ := h
    · exact Or.inl ⟨ks, hf, hidx, h.1⟩
    · rw [h.2] at hafter
      exact absurd (Except.ok.inj hafter) (by decide)
  · obtain ⟨handle, ku, hf, c1, c2, c3, _, hp, _, hv⟩ := h
    rw [hv] at hafter
    exact Or.inr ⟨handle, ku, hf, c1, c2, c3, Except.ok.inj hafter, hp⟩

/-- Claim C18, amended, at a concrete input: the address of port 1 goes from 5 to 0 in the
step of a `SET_ADDRESS` request with `wValue = 0` for the device address 5. -/
theorem C18_address_zero_amended_witness :
    ∃ st',
      (one_port_hcd 5 ⟨0x0103, 0, 0⟩).bg_work header_1
        (some (.PROCESS_URB 77 { set_address_urb 0 0 with address := 5 })) none 1000 =
        .ok st' ∧
      (one_port_hcd 5 ⟨0x0103, 0, 0⟩).address_from_port 1 ≠ .ok 0 ∧
      st'.address_from_port 1 = .ok 0 ∧
      ((∃ ks, some (usb_vhci_ioc_work.PROCESS_URB 77 { set_address_urb 0 0 with address := 5 }) =
          some (.PORT_STAT ks) ∧ ks.index = 1 ∧
          ks.change &&& USB_VHCI_PORT_STAT_C_RESET ≠ 0 ∧
          ks.status &&& USB_VHCI_PORT_STAT_RESET = 0 ∧
          ks.status &&& USB_VHCI_PORT_STAT_ENABLE ≠ 0) ∨
       (∃ handle ku,
          some (usb_vhci_ioc_work.PROCESS_URB 77 { set_address_urb 0 0 with address := 5 }) =
            some (.PROCESS_URB handle ku) ∧
          ku.type = USB_VHCI_URB_TYPE_CONTROL ∧ ku.setup_packet.bmRequestType = 0 ∧
          ku.setup_packet.bRequest = 5 ∧ ku.setup_packet.wValue = 0 ∧
          (one_port_hcd 5 ⟨0x0103, 0, 0⟩).port_from_address ku.address = .ok 1)) := by
  have hb : (one_port_hcd 5 ⟨0x0103, 0, 0⟩).address_from_port 1 ≠ .ok 0 := by
    intro h
    have h' : (Except.ok 5 : Except cpp_exception Nat) = .ok 0 := h
    exact absurd (Except.ok.inj h') (by decide)
  exact ⟨_, rfl, hb, rfl,
    (C18_address_zero_amended header_1 (one_port_hcd 5 ⟨0x0103, 0, 0⟩)).1 _ _ none 1000 1
      rfl hb rfl⟩

/-! ## Status round trips, URB constructors, iso results and the decoded header -/

/-- The end of the field-wise constructor writes only the field `buffer`. -/
theorem urb_fields_buffer_fields (self : usb_vhci_urb) (buffer_length : Int)
    (buffer : Option (List Nat)) (own_buffer : Bool) (u : urb)
    (h : urb.urb_fields_buffer self buffer_length buffer own_buffer = .ok u) :
    ∃ b, u._urb = { self with buffer := b } := by
  unfold urb.urb_fields_buffer at h
  by_cases h0 : buffer_length = 0
  · simp only [h0, ne_eq, not_true_eq_false, if_false, Except.ok.injEq] at h
    exact ⟨self.buffer, by rw [← h]⟩
  · simp only [h0, ne_eq, not_false_eq_true, if_true] at h
    cases buffer with
    | none =>
      simp only [] at h
      split_ifs at h
      cases h
      exact ⟨_, rfl⟩
    | some b =>
      simp only [] at h
      split_ifs at h <;> cases h <;> exact ⟨_, rfl⟩

/-- Claim C23: the field-wise constructor called with a kind other than control fails with
`invalid_argument` naming the first of `bmRequestType`, `bRequest`, `wValue`, `wIndex`,
`wLength` that is not zero, when there is one; every URB it returns has all five setup
fields equal to zero. -/
theorem C23_fields_setup_zero (handle type : Nat) (buffer_length : Int)
    (buffer : Option (List Nat)) (own_buffer : Bool) (iso_packet_count : Int)
    (iso_packets : Option (List usb_vhci_iso_packet)) (own_iso_packets : Bool)
    (buffer_actual status error_count : Int)
    (flags interval devadr epadr bmRequestType bRequest wValue wIndex wLength : Nat)
    (ht : type ≠ urb_type_control) :
    (bmRequestType ≠ 0 →
      urb.urb_fields handle type buffer_length buffer own_buffer iso_packet_count iso_packets
        own_iso_packets buffer_actual status error_count flags interval devadr epadr
        bmRequestType bRequest wValue wIndex wLength =
      .error (.invalid_argument "bmRequestType")) ∧
    (bmRequestType = 0 → bRequest ≠ 0 →
      urb.urb_fields handle type buffer_length buffer own_buffer iso_packet_count iso_packets
        own_iso_packets buffer_actual status error_count flags interval devadr epadr
        bmRequestType bRequest wValue wIndex wLength =
      .error (.invalid_argument "bRequest")) ∧
    (bmRequestType = 0 → bRequest = 0 → wValue ≠ 0 →
      urb.urb_fields handle type buffer_length buffer own_buffer iso_packet_count iso_packets
        own_iso_packets buffer_actual status error_count flags interval devadr epadr
        bmRequestType bRequest wValue wIndex wLength =
      .error (.invalid_argument "wValue")) ∧
    (bmRequestType = 0 → bRequest = 0 → wValue = 0 → wIndex ≠ 0 →
      urb.urb_fields handle type buffer_length buffer own_buffer iso_packet_count iso_packets
        own_iso_packets buffer_actual status error_count flags interval devadr epadr
        bmRequestType bRequest wValue wIndex wLength =
      .error (.invalid_argument "wIndex")) ∧
    (bmRequestType = 0 → bRequest = 0 → wValue = 0 → wIndex = 0 → wLength ≠ 0 →
      urb.urb_fields handle type buffer_length buffer own_buffer iso_packet_count iso_packets
        own_iso_packets buffer_actual status error_count flags interval devadr epadr
        bmRequestType bRequest wValue wIndex wLength =
      .error (.invalid_argument "wLength")) ∧
    (∀ u,
      urb.urb_fields handle type buffer_length buffer own_buffer iso_packet_count iso_packets
        own_iso_packets buffer_actual status error_count flags interval devadr epadr
        bmRequestType bRequest wValue wIndex wLength = .ok u →
      (bmRequestType = 0 ∧ bRequest = 0 ∧ wValue = 0 ∧ wIndex = 0 ∧ wLength = 0) ∧
      u._urb.bmRequestType = 0 ∧ u._urb.bRequest = 0 ∧ u._urb.wValue = 0 ∧
      u._urb.wIndex = 0 ∧ u._urb.wLength = 0) := by
  have e1 : bmRequestType ≠ 0 →
      urb.urb_fields handle type buffer_length buffer own_buffer iso_packet_count iso_packets
        own_iso_packets buffer_actual status error_count flags interval devadr epadr
        bmRequestType bRequest wValue wIndex wLength =
      .error (.invalid_argument "bmRequestType") := by
    intro h1
    simp only [urb.urb_fields, ht, h1, ne_eq, not_false_eq_true, and_self, if_true]
  have e2 : bmRequestType = 0 → bRequest ≠ 0 →
      urb.urb_fields handle type buffer_length buffer own_buffer iso_packet_count iso_packets
        own_iso_packets buffer_actual status error_count flags interval devadr epadr
        bmRequestType bRequest wValue wIndex wLength =
      .error (.invalid_argument "bRequest") := by
    intro h1 h2
    simp only [urb.urb_fields, ht, h1, h2, ne_eq, not_false_eq_true, and_self, if_true,
      not_true_eq_false, and_false, if_false]
  have e3 : bmRequestType = 0 → bRequest = 0 → wValue ≠ 0 →
      urb.urb_fields handle type buffer_length buffer own_buffer iso_packet_count iso_packets
        own_iso_packets buffer_actual status error_count flags interval devadr epadr
        bmRequestType bRequest wValue wIndex wLength =
      .error (.invalid_argument "wValue") := by
    intro h1 h2 h3
    simp only [urb.urb_fields, ht, h1, h2, h3, ne_eq, not_false_eq_true, and_self, if_true,
      not_true_eq_false, and_false, if_false]
  have e4 : bmRequestType = 0 → bRequest = 0 → wValue = 0 → wIndex ≠ 0 →
      urb.urb_fields handle type buffer_length buffer own_buffer iso_packet_count iso_packets
        own_iso_packets buffer_actual status error_count flags interval devadr epadr
        bmRequestType bRequest wValue wIndex wLength =
      .error (.invalid_argument "wIndex") := by
    intro h1 h2 h3 h4
    simp only [urb.urb_fields, ht, h1, h2, h3, h4, ne_eq, not_false_eq_true, and_self, if_true,
      not_true_eq_false, and_false, if_false]
  have e5 : bmRequestType = 0 → bRequest = 0 → wValue = 0 → wIndex = 0 → wLength ≠ 0 →
      urb.urb_fields handle type buffer_length buffer own_buffer iso_packet_count iso_packets
        own_iso_packets buffer_actual status error_count flags interval devadr epadr
        bmRequestType bRequest wValue wIndex wLength =
      .error (.invalid_argument "wLength") := by
    intro h1 h2 h3 h4 h5
    simp only [urb.urb_fields, ht, h1, h2, h3, h4, h5, ne_eq, not_false_eq_true, and_self,
      if_true, not_true_eq_false, and_false, if_false]
  refine ⟨e1, e2, e3, e4, e5, ?_⟩
  intro u hu
  have h1 : bmRequestType = 0 := by
    by_contra h; rw [e1 h] at hu; cases hu
  have h2 : bRequest = 0 := by
    by_contra h; rw [e2 h1 h] at hu; cases hu
  have h3 : wValue = 0 := by
    by_contra h; rw [e3 h1 h2 h] at hu; cases hu
  have h4 : wIndex = 0 := by
    by_contra h; rw [e4 h1 h2 h3 h] at hu; cases hu
  have h5 : wLength = 0 := by
    by_contra h; rw [e5 h1 h2 h3 h4 h] at hu; cases hu
  refine ⟨⟨h1, h2, h3, h4, h5⟩, ?_⟩
  simp only [urb.urb_fields, ht, h1, h2, h3, h4, h5, ne_eq, not_true_eq_false, and_false,
    if_false] at hu
  split_ifs at hu
  all_goals first
    | (obtain ⟨b, hb⟩ := urb_fields_buffer_fields _ buffer_length buffer own_buffer u hu
       rw [hb]
       exact ⟨rfl, rfl, rfl, rfl, rfl⟩)
    | (cases iso_packets with
       | none => cases hu
       | some p =>
         simp only [] at hu
         try split_ifs at hu
         all_goals first
           | cases hu
           | (obtain ⟨b, hb⟩ := urb_fields_buffer_fields _ buffer_length buffer own_buffer u hu
              rw [hb]
              exact ⟨rfl, rfl, rfl, rfl, rfl⟩))

/-- Claim C23 at concrete inputs: a bulk URB with `wValue = 7` is refused with
`invalid_argument("wValue")`, one with `bRequest = 5` and `wValue = 7` with
`invalid_argument("bRequest")`. -/
theorem C23_fields_setup_zero_witness :
    urb_type_bulk ≠ urb_type_control ∧
    urb.urb_fields 1 urb_type_bulk 0 none false 0 none false 0 0 0 0 0 1 0x02 0 0 7 0 0 =
      .error (.invalid_argument "wValue") ∧
    urb.urb_fields 1 urb_type_bulk 0 none false 0 none false 0 0 0 0 0 1 0x02 0 5 7 0 0 =
      .error (.invalid_argument "bRequest") :=
  ⟨by decide,
   (C23_fields_setup_zero 1 urb_type_bulk 0 none false 0 none false 0 0 0 0 0 1 0x02 0 0 7 0 0
     (by decide)).2.2.1 rfl rfl (by decide),
   (C23_fields_setup_zero 1 urb_type_bulk 0 none false 0 none false 0 0 0 0 0 1 0x02 0 5 7 0 0
     (by decide)).2.1 rfl (by decide)⟩

/-- Claim C24 fails on the code: the wire header of a bulk URB with `wValue = 1` is
accepted by the deep-copy constructor and by the ownership-taking constructor, which
return a bulk URB whose `wValue` is 1; `urb::_chk` never looks at the setup fields. The
field-wise constructor refuses the same values with `invalid_argument("wValue")`. -/
theorem C24_wire_header_setup_accepted :
    (bulk_header 1 0).type ≠ USB_VHCI_URB_TYPE_CONTROL ∧ (bulk_header 1 0).wValue ≠ 0 ∧
    urb.urb_copy (bulk_header 1 0) = .ok ⟨bulk_header 1 0⟩ ∧
    urb.urb_own (bulk_header 1 0) true = .ok ⟨bulk_header 1 0⟩ ∧
    urb.urb_own (bulk_header 1 0) false = .ok ⟨bulk_header 1 0⟩ ∧
    (⟨bulk_header 1 0⟩ : urb).get_wValue = 1 ∧
    urb.urb_fields 7 urb_type_bulk 0 none false 0 none false 0 USB_VHCI_STATUS_PENDING 0 0 0 1
      0x02 0 0 1 0 0 = .error (.invalid_argument "wValue") :=
  ⟨by decide, by decide, rfl, rfl, rfl, rfl, rfl⟩

/-- Claim C25 fails on the code: the ownership-taking constructor accepts the wire header
of an isochronous URB with `packet_count = 1`, a payload buffer and a NULL iso packet
array, and returns it as it is; only a non-NULL array with `packet_count = 0` is refused.
The field-wise constructor refuses the same values with
`invalid_argument("iso_packets")`. -/
theorem C25_own_null_iso_array_accepted :
    urb.urb_own (iso_header 1 none) true = .ok ⟨iso_header 1 none⟩ ∧
    (⟨iso_header 1 none⟩ : urb).is_isochronous = true ∧
    (⟨iso_header 1 none⟩ : urb).get_iso_packet_count = 1 ∧
    (iso_header 1 none).iso_packets = none ∧
    urb.urb_own (iso_header 0 (some [⟨0, 4, 0, 0⟩])) true = .error (.invalid_argument "urb") ∧
    urb.urb_fields 7 urb_type_isochronous 4 (some [0, 0, 0, 0]) true 1 none true 0
      USB_VHCI_STATUS_PENDING 0 0 0 1 0x81 0 0 0 0 0 =
      .error (.invalid_argument "iso_packets") :=
  ⟨rfl, rfl, rfl, rfl, rfl, rfl⟩

/-- Claim C26 fails on the code: the wire header of a bulk URB with `interval = 1` is
accepted by the deep-copy constructor and by the ownership-taking constructor, which
return a bulk URB whose interval is 1; `urb::_chk` never looks at the interval. The
field-wise constructor refuses the same values with `invalid_argument("interval")`. -/
theorem C26_wire_header_bulk_interval_accepted :
    urb.urb_copy (bulk_header 0 1) = .ok ⟨bulk_header 0 1⟩ ∧
    urb.urb_own (bulk_header 0 1) true = .ok ⟨bulk_header 0 1⟩ ∧
    urb.urb_own (bulk_header 0 1) false = .ok ⟨bulk_header 0 1⟩ ∧
    (bulk_header 0 1).type = USB_VHCI_URB_TYPE_BULK ∧ (bulk_header 0 1).interval = 1 ∧
    urb.urb_fields 7 urb_type_bulk 0 none false 0 none false 0 USB_VHCI_STATUS_PENDING 0 0 1 1
      0x02 0 0 0 0 0 = .error (.invalid_argument "interval") :=
  ⟨rfl, rfl, rfl, rfl, rfl, rfl⟩

/-- The number of packets of `ps` whose status is not success. -/
theorem failed_packets_cons (p : usb_vhci_iso_packet) (ps : List usb_vhci_iso_packet) :
    (((p :: ps).filter fun q => decide (q.status ≠ USB_VHCI_STATUS_SUCCESS)).length : Int) =
      (if p.status ≠ USB_VHCI_STATUS_SUCCESS then 1 else 0) +
      ((ps.filter fun q => decide (q.status ≠ USB_VHCI_STATUS_SUCCESS)).length : Int) := by
  by_cases h : p.status = USB_VHCI_STATUS_SUCCESS
  · simp [List.filter_cons, h]
  · simp [List.filter_cons, h]
    omega

/-- The counting loop of `set_iso_results`, started at the index `i` with `fuel` packets
left before `packet_count`, all of them in the array, adds the number of those packets
whose status is not success. -/
theorem set_iso_results_loop_count (u : urb) (ps : List usb_vhci_iso_packet)
    (hps : u._urb.iso_packets.getD [] = ps) :
    ∀ (fuel i : Nat) (errors : Int), (i : Int) + fuel = u.get_iso_packet_count →
      i + fuel ≤ ps.length →
      set_iso_results_loop u fuel i errors =
        errors + ((((ps.drop i).take fuel).filter
          fun q => decide (q.status ≠ USB_VHCI_STATUS_SUCCESS)).length : Int) := by
  intro fuel
  induction fuel with
  | zero => intro i errors _ _; simp [set_iso_results_loop]
  | succ fuel ih =>
    intro i errors hc hl
    have hlt : (i : Int) < u.get_iso_packet_count := by omega
    have hi : i < ps.length := by omega
    have hst : u.get_iso_packet_status (i : Int) = (ps[i]).status := by
      unfold urb.get_iso_packet_status
      rw [hps, Int.toNat_ofNat, List.getD_eq_getElem?_getD, List.getElem?_eq_getElem hi]
      rfl
    have hdrop : ps.drop i = ps[i] :: ps.drop (i + 1) := List.drop_eq_getElem_cons hi
    unfold set_iso_results_loop
    rw [if_pos hlt]
    have hnext := ih (i + 1)
      (if u.get_iso_packet_status (i : Int) ≠ USB_VHCI_STATUS_SUCCESS then errors + 1
       else errors) (by push_cast; omega) (by omega)
    have hcast : ((i : Int) + 1) = ((i + 1 : Nat) : Int) := by push_cast; rfl
    rw [hcast, hnext, hdrop, List.take_succ_cons, failed_packets_cons, hst]
    split_ifs <;> ring

/-- The counting loop reads the URB through `packet_count` and the iso packet array
only. -/
theorem set_iso_results_loop_congr (u v : urb)
    (hc : v._urb.packet_count = u._urb.packet_count)
    (hp : v._urb.iso_packets = u._urb.iso_packets) :
    ∀ (fuel : Nat) (i errors : Int),
      set_iso_results_loop v fuel i errors = set_iso_results_loop u fuel i errors := by
  intro fuel
  induction fuel with
  | zero => intro i errors; rfl
  | succ fuel ih =>
    intro i errors
    simp only [set_iso_results_loop, urb.get_iso_packet_count, urb.get_iso_packet_status, hc, hp]
    split_ifs
    · exact ih _ _
    · exact ih _ _
    · rfl

/-- The count that `set_iso_results` reaches on an URB whose `packet_count` packets are
all in the array. -/
theorem set_iso_results_errors (u : urb)
    (hps : u._urb.packet_count.toNat ≤ (u._urb.iso_packets.getD []).length) :
    set_iso_results_loop u u.get_iso_packet_count.toNat 0 0 =
      ((((u._urb.iso_packets.getD []).take u._urb.packet_count.toNat).filter
        fun q => decide (q.status ≠ USB_VHCI_STATUS_SUCCESS)).length : Int) := by
  by_cases hc : 0 ≤ u._urb.packet_count
  · have h := set_iso_results_loop_count u _ rfl u._urb.packet_count.toNat 0 0
      (by simp [urb.get_iso_packet_count, Int.toNat_of_nonneg hc]) (by simpa using hps)
    simpa [urb.get_iso_packet_count] using h
  · have h0 : u._urb.packet_count.toNat = 0 := by
      apply Int.toNat_eq_zero.2
      omega
    simp [urb.get_iso_packet_count, h0, set_iso_results_loop]

/-- What `set_iso_results` writes on an isochronous URB, in terms of the count `c` that
its loop reaches. -/
theorem set_iso_results_of_errors (u : urb) (c : Int) (hiso : u.is_isochronous = true)
    (hc : set_iso_results_loop u u.get_iso_packet_count.toNat 0 0 = c) :
    u.set_iso_results = .ok ⟨{ u._urb with
      error_count := c,
      status := if c = u._urb.packet_count then USB_VHCI_STATUS_ALL_ISO_PACKETS_FAILED
                else USB_VHCI_STATUS_SUCCESS,
      buffer_actual := if u._urb.epadr &&& 0x80 ≠ 0 then u._urb.buffer_length
                       else u._urb.buffer_actual }⟩ := by
  unfold urb.set_iso_results
  rw [hiso, hc]
  simp only [Bool.not_true, Bool.false_eq_true, if_false, urb.set_iso_error_count,
    urb.get_iso_packet_count, urb.set_status, urb.ack, urb.is_in, urb.set_buffer_actual,
    urb.get_buffer_length]
  by_cases hall : c = u._urb.packet_count <;>
    by_cases hin : u._urb.epadr &&& 0x80 = 0 <;>
    simp [hall, hin]

/-- Claim C27: on an isochronous URB whose `packet_count` packets are all in the iso packet
array, `set_iso_results` returns with `error_count` set to the number of those packets
whose status is not success, the status set to all_iso_packets_failed when that number
equals `packet_count` and to success otherwise, `buffer_actual` set to `buffer_length`
when the URB is IN and left as it was when it is OUT, and every other field, the iso
packets among them, as it was. On an URB that is not isochronous it fails with
`logic_error`, before anything is written. -/
theorem C27_set_iso_results (u : urb) :
    (u.is_isochronous = true →
      u._urb.packet_count.toNat ≤ (u._urb.iso_packets.getD []).length →
      u.set_iso_results = .ok ⟨{ u._urb with
        error_count :=
          ((((u._urb.iso_packets.getD []).take u._urb.packet_count.toNat).filter
            fun q => decide (q.status ≠ USB_VHCI_STATUS_SUCCESS)).length : Int),
        status :=
          if ((((u._urb.iso_packets.getD []).take u._urb.packet_count.toNat).filter
              fun q => decide (q.status ≠ USB_VHCI_STATUS_SUCCESS)).length : Int) =
            u._urb.packet_count
          then USB_VHCI_STATUS_ALL_ISO_PACKETS_FAILED else USB_VHCI_STATUS_SUCCESS,
        buffer_actual :=
          if u._urb.epadr &&& 0x80 ≠ 0 then u._urb.buffer_length
          else u._urb.buffer_actual }⟩) ∧
    (u.is_isochronous = false →
      u.set_iso_results = .error (.logic_error "not an isochronous urb")) := by
  constructor
  · intro hiso hps
    exact set_iso_results_of_errors u _ hiso (set_iso_results_errors u hps)
  · intro hiso
    unfold urb.set_iso_results
    rw [hiso]
    rfl

/-- Claim C27 at a concrete input: an IN iso URB with three packets (statuses success,
stall, success) and `buffer_actual = 0`: one error is counted, the status becomes success
and `buffer_actual` becomes the buffer length 4. -/
theorem C27_set_iso_results_witness :
    (⟨iso_header 3 (some [⟨0, 1, 1, 0⟩, ⟨1, 1, 0, USB_VHCI_STATUS_STALL⟩, ⟨2, 2, 2, 0⟩])⟩ :
      urb).is_isochronous = true ∧
    (3 : Int).toNat ≤ [(⟨0, 1, 1, 0⟩ : usb_vhci_iso_packet),
      ⟨1, 1, 0, USB_VHCI_STATUS_STALL⟩, ⟨2, 2, 2, 0⟩].length ∧
    (⟨iso_header 3 (some [⟨0, 1, 1, 0⟩, ⟨1, 1, 0, USB_VHCI_STATUS_STALL⟩, ⟨2, 2, 2, 0⟩])⟩ :
      urb).set_iso_results =
      .ok ⟨{ iso_header 3 (some [⟨0, 1, 1, 0⟩, ⟨1, 1, 0, USB_VHCI_STATUS_STALL⟩, ⟨2, 2, 2, 0⟩])
             with error_count := 1, status := USB_VHCI_STATUS_SUCCESS, buffer_actual := 4 }⟩ :=
  ⟨rfl, by decide,
   ((C27_set_iso_results
      ⟨iso_header 3 (some [⟨0, 1, 1, 0⟩, ⟨1, 1, 0, USB_VHCI_STATUS_STALL⟩, ⟨2, 2, 2, 0⟩])⟩).1
      rfl (by decide)).trans rfl⟩

/-- Claim C28: on an isochronous URB `set_iso_results` returns, and a second call on the
URB it returns gives that URB again: the same `error_count`, the same status, the same
URB. -/
theorem C28_set_iso_results_idempotent (u : urb) (hiso : u.is_isochronous = true) :
    ∃ v, u.set_iso_results = .ok v ∧ v.set_iso_results = .ok v ∧
      (∀ w, v.set_iso_results = .ok w →
        w.get_iso_error_count = v.get_iso_error_count ∧ w.get_status = v.get_status) := by
  have key : ∀ v, u.set_iso_results = .ok v → v.set_iso_results = .ok v := by
    intro v hv
    unfold urb.set_iso_results at hv
    rw [hiso] at hv
    simp only [Bool.not_true, Bool.false_eq_true, if_false] at hv
    have hv' := Except.ok.inj hv
    have hc : v._urb.packet_count = u._urb.packet_count := by
      rw [← hv']
      simp only [urb.set_iso_error_count, urb.get_iso_packet_count, urb.set_status, urb.ack,
        urb.is_in, urb.set_buffer_actual, urb.get_buffer_length]
      split_ifs <;> rfl
    have hp : v._urb.iso_packets = u._urb.iso_packets := by
      rw [← hv']
      simp only [urb.set_iso_error_count, urb.get_iso_packet_count, urb.set_status, urb.ack,
        urb.is_in, urb.set_buffer_actual, urb.get_buffer_length]
      split_ifs <;> rfl
    have ht : v.is_isochronous = true := by
      rw [← hiso, ← hv']
      simp only [urb.set_iso_error_count, urb.get_iso_packet_count, urb.set_status, urb.ack,
        urb.is_in, urb.set_buffer_actual, urb.get_buffer_length, urb.is_isochronous,
        urb.get_type]
      split_ifs <;> rfl
    have hl := set_iso_results_loop_congr u v hc hp
    unfold urb.set_iso_results
    rw [ht]
    simp only [Bool.not_true, Bool.false_eq_true, if_false, urb.get_iso_packet_count, hl, hc]
    rw [← hv']
    simp only [urb.set_iso_error_count, urb.get_iso_packet_count, urb.set_status, urb.ack,
      urb.is_in, urb.set_buffer_actual, urb.get_buffer_length]
    split_ifs <;> rfl
  have hex : ∃ v, u.set_iso_results = .ok v := by
    unfold urb.set_iso_results
    rw [hiso]
    exact ⟨_, rfl⟩
  obtain ⟨v, hv⟩ := hex
  refine ⟨v, hv, key v hv, ?_⟩
  intro w hw
  rw [key v hv] at hw
  cases hw
  exact ⟨rfl, rfl⟩

/-- Claim C28 at a concrete input: the IN iso URB with three packets, one of them
stalled, is brought to `error_count = 1`, status success and `buffer_actual = 4` by the
first call and stays so in the second. -/
theorem C28_set_iso_results_idempotent_witness :
    (⟨iso_header 3 (some [⟨0, 1, 1, 0⟩, ⟨1, 1, 0, USB_VHCI_STATUS_STALL⟩, ⟨2, 2, 2, 0⟩])⟩ :
      urb).is_isochronous = true ∧
    ∃ v,
      (⟨iso_header 3 (some [⟨0, 1, 1, 0⟩, ⟨1, 1, 0, USB_VHCI_STATUS_STALL⟩, ⟨2, 2, 2, 0⟩])⟩ :
        urb).set_iso_results = .ok v ∧
      v.get_iso_error_count = 1 ∧ v.set_iso_results = .ok v := by
  obtain ⟨v, h1, h2, _⟩ := C28_set_iso_results_idempotent
    ⟨iso_header 3 (some [⟨0, 1, 1, 0⟩, ⟨1, 1, 0, USB_VHCI_STATUS_STALL⟩, ⟨2, 2, 2, 0⟩])⟩ rfl
  have hv : v = ⟨{ iso_header 3
      (some [⟨0, 1, 1, 0⟩, ⟨1, 1, 0, USB_VHCI_STATUS_STALL⟩, ⟨2, 2, 2, 0⟩])
      with error_count := 1, status := USB_VHCI_STATUS_SUCCESS, buffer_actual := 4 }⟩ := by
    have h : (Except.ok _ : Except cpp_exception urb) = .ok v := h1
    exact (Except.ok.inj h).symm
  subst hv
  exact ⟨rfl, _, h1, rfl, h2⟩

/-- Claim C29 fails on the code for the endpoint number: `get_endpoint_number` masks the
endpoint address with `0x07`, so the OUT endpoint 8 (`0x08`) and the IN endpoint 15
(`0x8f`) are reported as the endpoints 0 and 7, where the low four bits are 8 and 15. The
direction part holds: `is_in` is the test of the bit `0x80`, `is_out` its negation. -/
theorem C29_endpoint_number_mask :
    (⟨{ usb_vhci_urb.zero with epadr := 0x08 }⟩ : urb).get_endpoint_number = 0 ∧
    (0x08 : Nat) &&& 0x0f = 8 ∧
    (⟨{ usb_vhci_urb.zero with epadr := 0x8f }⟩ : urb).get_endpoint_number = 7 ∧
    (0x8f : Nat) &&& 0x0f = 15 ∧
    (∀ u : urb, u.get_endpoint_number = u._urb.epadr &&& 0x07) ∧
    (∀ u : urb, (u.is_in = true ↔ u._urb.epadr &&& 0x80 ≠ 0) ∧ u.is_out = !u.is_in) := by
  refine ⟨by decide, by decide, by decide, by decide, fun _ => rfl, fun u => ⟨?_, rfl⟩⟩
  simp [urb.is_in]

/-- Claim C30: for every URB event that the fetch-work ioctl returns, with the handle
`handle` and the header `ku`: when the kind is iso, int, control or bulk the decoded
header has the status pending, the handle, kind, buffer length, device address and
endpoint address of the event, the setup fields of the event for control and zero
otherwise, `packet_count` of the event for iso and zero otherwise, the interval of the
event for iso and int and zero otherwise, the flags of the event masked to
`SHORT_NOT_OK | ZERO_PACKET` for bulk and zero otherwise, `buffer_actual` equal to the
buffer length when the endpoint is OUT or the kind is iso and zero otherwise, NULL
pointers and `error_count = 0`; the return value is 1 exactly when `buffer_actual` or
`packet_count` is not zero. For every other kind the call fails with `EBADMSG`. -/
theorem C30_fetch_work_decode (K : kernel_header) (handle : Nat) (ku : usb_vhci_ioc_urb) :
    ((ku.type = USB_VHCI_URB_TYPE_ISO ∨ ku.type = USB_VHCI_URB_TYPE_INT ∨
        ku.type = USB_VHCI_URB_TYPE_CONTROL ∨ ku.type = USB_VHCI_URB_TYPE_BULK) →
      usb_vhci_fetch_work_timeout K (.PROCESS_URB handle ku) =
        .ok (.PROCESS_URB
          { handle := handle, buffer := none, iso_packets := none,
            buffer_length := ku.buffer_length,
            buffer_actual :=
              if ku.endpoint &&& 0x80 = 0 ∨ ku.type = USB_VHCI_URB_TYPE_ISO
              then ku.buffer_length else 0,
            packet_count := if ku.type = USB_VHCI_URB_TYPE_ISO then ku.packet_count else 0,
            error_count := 0,
            status := USB_VHCI_STATUS_PENDING,
            interval :=
              if ku.type = USB_VHCI_URB_TYPE_ISO ∨ ku.type = USB_VHCI_URB_TYPE_INT
              then ku.interval else 0,
            flags :=
              if ku.type = USB_VHCI_URB_TYPE_BULK
              then ku.flags &&&
                (K.USB_VHCI_URB_FLAGS_SHORT_NOT_OK ||| K.USB_VHCI_URB_FLAGS_ZERO_PACKET)
              else 0,
            wValue :=
              if ku.type = USB_VHCI_URB_TYPE_CONTROL then ku.setup_packet.wValue else 0,
            wIndex :=
              if ku.type = USB_VHCI_URB_TYPE_CONTROL then ku.setup_packet.wIndex else 0,
            wLength :=
              if ku.type = USB_VHCI_URB_TYPE_CONTROL then ku.setup_packet.wLength else 0,
            bmRequestType :=
              if ku.type = USB_VHCI_URB_TYPE_CONTROL then ku.setup_packet.bmRequestType else 0,
            bRequest :=
              if ku.type = USB_VHCI_URB_TYPE_CONTROL then ku.setup_packet.bRequest else 0,
            devadr := ku.address, epadr := ku.endpoint, type := ku.type },
          if (if ku.endpoint &&& 0x80 = 0 ∨ ku.type = USB_VHCI_URB_TYPE_ISO
              then ku.buffer_length else 0) ≠ 0 ∨
             (if ku.type = USB_VHCI_URB_TYPE_ISO then ku.packet_count else 0) ≠ 0
          then 1 else 0)) ∧
    (¬ (ku.type = USB_VHCI_URB_TYPE_ISO ∨ ku.type = USB_VHCI_URB_TYPE_INT ∨
        ku.type = USB_VHCI_URB_TYPE_CONTROL ∨ ku.type = USB_VHCI_URB_TYPE_BULK) →
      usb_vhci_fetch_work_timeout K (.PROCESS_URB handle ku) = .error .EBADMSG ∧
      usb_vhci_fetch_work K (some (.PROCESS_URB handle ku)) = none) := by
  constructor
  · intro hk
    by_cases hout : ku.endpoint &&& 0x80 = 0 <;>
      rcases hk with h | h | h | h <;>
      simp [usb_vhci_fetch_work_timeout, h, usb_vhci_is_out, usb_vhci_is_iso, hout,
        USB_VHCI_URB_TYPE_ISO, USB_VHCI_URB_TYPE_INT, USB_VHCI_URB_TYPE_CONTROL,
        USB_VHCI_URB_TYPE_BULK, usb_vhci_urb.zero]
  · intro hk
    simp only [not_or] at hk
    obtain ⟨h1, h2, h3, h4⟩ := hk
    simp [usb_vhci_fetch_work, usb_vhci_fetch_work_timeout, h1, h2, h3, h4]

/-- Claim C30 at concrete inputs: the `SET_ADDRESS` control header decodes with its setup
packet and without a data stage; a header of kind 4 is refused. -/
theorem C30_fetch_work_decode_witness :
    usb_vhci_fetch_work_timeout header_1 (.PROCESS_URB 77 (set_address_urb 42 0)) =
      .ok (.PROCESS_URB (set_address_urb_object 77 42 0 USB_VHCI_STATUS_PENDING)._urb, 0) ∧
    usb_vhci_fetch_work_timeout header_1
      (.PROCESS_URB 77 { set_address_urb 42 0 with type := 4 }) = .error .EBADMSG :=
  ⟨((C30_fetch_work_decode header_1 77 (set_address_urb 42 0)).1
      (Or.inr (Or.inr (Or.inl rfl)))).trans rfl,
   ((C30_fetch_work_decode header_1 77 { set_address_urb 42 0 with type := 4 }).2
      (by decide)).1⟩

/-! ## Data fetch, port operations, work ports, giveback and the pump invariants -/

/-- The header and the return value that `usb_vhci_fetch_work_timeout` gives for an URB
event of a kind it knows. -/
theorem fetch_work_timeout_decoded (K : kernel_header) (handle : Nat) (ku : usb_vhci_ioc_urb)
    (hk : ku.type = USB_VHCI_URB_TYPE_ISO ∨ ku.type = USB_VHCI_URB_TYPE_INT ∨
      ku.type = USB_VHCI_URB_TYPE_CONTROL ∨ ku.type = USB_VHCI_URB_TYPE_BULK) :
    usb_vhci_fetch_work_timeout K (.PROCESS_URB handle ku) =
      .ok (.PROCESS_URB
        { handle := handle, buffer := none, iso_packets := none,
          buffer_length := ku.buffer_length,
          buffer_actual :=
            if ku.endpoint &&& 0x80 = 0 ∨ ku.type = USB_VHCI_URB_TYPE_ISO
            then ku.buffer_length else 0,
          packet_count := if ku.type = USB_VHCI_URB_TYPE_ISO then ku.packet_count else 0,
          error_count := 0,
          status := USB_VHCI_STATUS_PENDING,
          interval :=
            if ku.type = USB_VHCI_URB_TYPE_ISO ∨ ku.type = USB_VHCI_URB_TYPE_INT
            then ku.interval else 0,
          flags :=
            if ku.type = USB_VHCI_URB_TYPE_BULK
            then ku.flags &&&
              (K.USB_VHCI_URB_FLAGS_SHORT_NOT_OK ||| K.USB_VHCI_URB_FLAGS_ZERO_PACKET)
            else 0,
          wValue := if ku.type = USB_VHCI_URB_TYPE_CONTROL then ku.setup_packet.wValue else 0,
          wIndex := if ku.type = USB_VHCI_URB_TYPE_CONTROL then ku.setup_packet.wIndex else 0,
          wLength :=
            if ku.type = USB_VHCI_URB_TYPE_CONTROL then ku.setup_packet.wLength else 0,
          bmRequestType :=
            if ku.type = USB_VHCI_URB_TYPE_CONTROL then ku.setup_packet.bmRequestType else 0,
          bRequest :=
            if ku.type = USB_VHCI_URB_TYPE_CONTROL then ku.setup_packet.bRequest else 0,
          devadr := ku.address, epadr := ku.endpoint, type := ku.type },
        if (if ku.endpoint &&& 0x80 = 0 ∨ ku.type = USB_VHCI_URB_TYPE_ISO
            then ku.buffer_length else 0) ≠ 0 ∨
           (if ku.type = USB_VHCI_URB_TYPE_ISO then ku.packet_count else 0) ≠ 0
        then 1 else 0) := by
  by_cases hout : ku.endpoint &&& 0x80 = 0 <;>
    rcases hk with h | h | h | h <;>
    simp [usb_vhci_fetch_work_timeout, h, usb_vhci_is_out, usb_vhci_is_iso, hout,
      USB_VHCI_URB_TYPE_ISO, USB_VHCI_URB_TYPE_INT, USB_VHCI_URB_TYPE_CONTROL,
      USB_VHCI_URB_TYPE_BULK, usb_vhci_urb.zero]

/-- Claim C31: for every URB event of a kind that decodes (iso, int, control, bulk) the
fetch returns 1 if the endpoint is OUT or the kind is iso, and `buffer_length` is not
zero, or if the kind is iso and `packet_count` is not zero; otherwise it returns 0. -/
theorem C31_fetch_work_needs_data (K : kernel_header) (handle : Nat) (ku : usb_vhci_ioc_urb)
    (hk : ku.type = USB_VHCI_URB_TYPE_ISO ∨ ku.type = USB_VHCI_URB_TYPE_INT ∨
      ku.type = USB_VHCI_URB_TYPE_CONTROL ∨ ku.type = USB_VHCI_URB_TYPE_BULK) :
    ∃ hdr,
      usb_vhci_fetch_work K (some (.PROCESS_URB handle ku)) =
        some (.PROCESS_URB hdr,
          if ((ku.endpoint &&& 0x80 = 0 ∨ ku.type = USB_VHCI_URB_TYPE_ISO) ∧
                ku.buffer_length ≠ 0) ∨
             (ku.type = USB_VHCI_URB_TYPE_ISO ∧ ku.packet_count ≠ 0)
          then 1 else 0) := by
  have key : ∀ (r x : Int) (R : usb_vhci_urb), r = x →
      ∃ hdr, (some (usb_vhci_work.PROCESS_URB R, r) : Option (usb_vhci_work × Int)) =
        some (.PROCESS_URB hdr, x) := fun r x R h => ⟨R, by rw [h]⟩
  simp only [usb_vhci_fetch_work]
  rw [fetch_work_timeout_decoded K handle ku hk]
  apply key
  by_cases h1 : ku.endpoint &&& 0x80 = 0 ∨ ku.type = USB_VHCI_URB_TYPE_ISO <;>
    by_cases h2 : ku.type = USB_VHCI_URB_TYPE_ISO <;>
    simp [h1, h2]

/-- Claim C31 at concrete inputs: the `SET_ADDRESS` request (control, OUT, no buffer) needs
no data; a bulk OUT URB of 8 bytes does; a bulk IN URB of 8 bytes does not. -/
theorem C31_fetch_work_needs_data_witness :
    (∃ hdr, usb_vhci_fetch_work header_1 (some (.PROCESS_URB 77 (set_address_urb 42 0))) =
      some (.PROCESS_URB hdr, 0)) ∧
    (∃ hdr, usb_vhci_fetch_work header_1 (some (.PROCESS_URB 77
        { set_address_urb 0 0x02 with type := USB_VHCI_URB_TYPE_BULK, buffer_length := 8 })) =
      some (.PROCESS_URB hdr, 1)) ∧
    (∃ hdr, usb_vhci_fetch_work header_1 (some (.PROCESS_URB 77
        { set_address_urb 0 0x82 with type := USB_VHCI_URB_TYPE_BULK, buffer_length := 8 })) =
      some (.PROCESS_URB hdr, 0)) :=
  ⟨C31_fetch_work_needs_data header_1 77 (set_address_urb 42 0) (Or.inr (Or.inr (Or.inl rfl))),
   C31_fetch_work_needs_data header_1 77
     { set_address_urb 0 0x02 with type := USB_VHCI_URB_TYPE_BULK, buffer_length := 8 }
     (Or.inr (Or.inr (Or.inr rfl))),
   C31_fetch_work_needs_data header_1 77
     { set_address_urb 0 0x82 with type := USB_VHCI_URB_TYPE_BULK, buffer_length := 8 }
     (Or.inr (Or.inr (Or.inr rfl)))⟩

/-- Claim C32: for every port other than 0, the record that each C port function hands to
the kernel has `index = port`, `flags = 0` and: connect, `status` = connection, with the
low-speed bit for the rate low and the high-speed bit for the rate high (never both),
`change` = connection; disconnect, `status = 0`, `change` = connection; disable,
`status = 0`, `change` = enable; resumed, `status = 0`, `change` = suspend; overcurrent,
`status` = overcurrent if set else 0, `change` = overcurrent; reset done, `status` =
enable if `enable` else 0, `change` = reset, with the enable-change bit exactly when
`enable` is 0. -/
theorem C32_port_op_records (port : Nat) (ioctl_ok : Bool) (hport : port ≠ 0) :
    (usb_vhci_port_connect port USB_VHCI_DATA_RATE_FULL ioctl_ok).1 =
      some ⟨USB_PORT_STAT_CONNECTION, USB_PORT_STAT_C_CONNECTION, port, 0⟩ ∧
    (usb_vhci_port_connect port USB_VHCI_DATA_RATE_LOW ioctl_ok).1 =
      some ⟨USB_PORT_STAT_CONNECTION ||| USB_PORT_STAT_LOW_SPEED, USB_PORT_STAT_C_CONNECTION,
        port, 0⟩ ∧
    (usb_vhci_port_connect port USB_VHCI_DATA_RATE_HIGH ioctl_ok).1 =
      some ⟨USB_PORT_STAT_CONNECTION ||| USB_PORT_STAT_HIGH_SPEED, USB_PORT_STAT_C_CONNECTION,
        port, 0⟩ ∧
    (∀ rate ps, (usb_vhci_port_connect port rate ioctl_ok).1 = some ps →
      ¬ (ps.status &&& USB_PORT_STAT_LOW_SPEED ≠ 0 ∧
         ps.status &&& USB_PORT_STAT_HIGH_SPEED ≠ 0)) ∧
    (usb_vhci_port_disconnect port ioctl_ok).1 =
      some ⟨0, USB_PORT_STAT_C_CONNECTION, port, 0⟩ ∧
    (usb_vhci_port_disable port ioctl_ok).1 = some ⟨0, USB_PORT_STAT_C_ENABLE, port, 0⟩ ∧
    (usb_vhci_port_resumed port ioctl_ok).1 = some ⟨0, USB_PORT_STAT_C_SUSPEND, port, 0⟩ ∧
    (∀ set, (usb_vhci_port_overcurrent port set ioctl_ok).1 =
      some ⟨if set ≠ 0 then USB_PORT_STAT_OVERCURRENT else 0, USB_PORT_STAT_C_OVERCURRENT,
        port, 0⟩) ∧
    (∀ enable, enable ≠ 0 → (usb_vhci_port_reset_done port enable ioctl_ok).1 =
      some ⟨USB_PORT_STAT_ENABLE, USB_PORT_STAT_C_RESET, port, 0⟩) ∧
    (usb_vhci_port_reset_done port 0 ioctl_ok).1 =
      some ⟨0, USB_PORT_STAT_C_RESET ||| USB_PORT_STAT_C_ENABLE, port, 0⟩ := by
  refine ⟨?_, ?_, ?_, ?_, ?_, ?_, ?_, ?_, ?_, ?_⟩
  · simp [usb_vhci_port_connect, hport, port_stat_ioctl, USB_VHCI_DATA_RATE_FULL,
      USB_VHCI_DATA_RATE_LOW, USB_VHCI_DATA_RATE_HIGH]
  · simp [usb_vhci_port_connect, hport, port_stat_ioctl, USB_VHCI_DATA_RATE_FULL,
      USB_VHCI_DATA_RATE_LOW, USB_VHCI_DATA_RATE_HIGH]
  · simp [usb_vhci_port_connect, hport, port_stat_ioctl, USB_VHCI_DATA_RATE_FULL,
      USB_VHCI_DATA_RATE_LOW, USB_VHCI_DATA_RATE_HIGH]
  · intro rate ps hps
    by_cases hr : rate = USB_VHCI_DATA_RATE_FULL ∨ rate = USB_VHCI_DATA_RATE_LOW ∨
        rate = USB_VHCI_DATA_RATE_HIGH
    · rcases hr with rfl | rfl | rfl <;>
        simp [usb_vhci_port_connect, hport, port_stat_ioctl, USB_VHCI_DATA_RATE_FULL,
          USB_VHCI_DATA_RATE_LOW, USB_VHCI_DATA_RATE_HIGH] at hps <;>
        subst hps <;>
        simp [USB_PORT_STAT_CONNECTION, USB_PORT_STAT_LOW_SPEED, USB_PORT_STAT_HIGH_SPEED] <;>
        decide
    · simp only [not_or] at hr
      simp [usb_vhci_port_connect, hport, hr.1, hr.2.1, hr.2.2] at hps
  · simp [usb_vhci_port_disconnect, hport, port_stat_ioctl]
  · simp [usb_vhci_port_disable, hport, port_stat_ioctl]
  · simp [usb_vhci_port_resumed, hport, port_stat_ioctl]
  · intro set
    simp [usb_vhci_port_overcurrent, hport, port_stat_ioctl]
  · intro enable he
    simp [usb_vhci_port_reset_done, hport, port_stat_ioctl, he, USB_PORT_STAT_C_RESET]
  · simp [usb_vhci_port_reset_done, hport, port_stat_ioctl]

/-- Claim C32 at a concrete input: connecting a low-speed device to port 3 hands the
record `status = 0x0201, change = 0x0001, index = 3, flags = 0` to the kernel;
`reset_done` with `enable = 0` on port 3 hands `status = 0, change = 0x0012`. -/
theorem C32_port_op_records_witness :
    (3 : Nat) ≠ 0 ∧
    (usb_vhci_port_connect 3 USB_VHCI_DATA_RATE_LOW true).1 = some ⟨0x0201, 0x0001, 3, 0⟩ ∧
    (usb_vhci_port_reset_done 3 0 true).1 = some ⟨0, 0x0012, 3, 0⟩ :=
  ⟨by decide, (C32_port_op_records 3 true (by decide)).2.1.trans rfl,
   (C32_port_op_records 3 true (by decide)).2.2.2.2.2.2.2.2.2.trans rfl⟩

/-- Claim C33: every port operation of the facade called with `port = 0` throws
`invalid_argument`, and called with `port > port_count` throws `out_of_range`; in both
cases no record is handed to the kernel and the controller state is what it was. -/
theorem C33_port_ops_reject (st : local_hcd) (port : Nat)
    (hbad : port = 0 ∨ port > hcd.get_port_count st) :
    st.get_port_stat port =
      .error (if port = 0 then .invalid_argument "port" else .out_of_range "port") ∧
    (∀ rate ok, st.port_connect port rate ok =
      ⟨some (if port = 0 then .invalid_argument "port" else .out_of_range "port"), none, st⟩) ∧
    (∀ ok, st.port_disconnect port ok =
      ⟨some (if port = 0 then .invalid_argument "port" else .out_of_range "port"), none, st⟩) ∧
    (∀ ok, st.port_disable port ok =
      ⟨some (if port = 0 then .invalid_argument "port" else .out_of_range "port"), none, st⟩) ∧
    (∀ ok, st.port_resumed port ok =
      ⟨some (if port = 0 then .invalid_argument "port" else .out_of_range "port"), none, st⟩) ∧
    (∀ set ok, st.port_overcurrent port set ok =
      ⟨some (if port = 0 then .invalid_argument "port" else .out_of_range "port"), none, st⟩) ∧
    (∀ enable ok, st.port_reset_done port enable ok =
      ⟨some (if port = 0 then .invalid_argument "port" else .out_of_range "port"), none, st⟩) := by
  have key : ∀ call, st.port_op port call =
      ⟨some (if port = 0 then .invalid_argument "port" else .out_of_range "port"), none, st⟩ := by
    intro call
    unfold local_hcd.port_op
    by_cases h0 : port = 0
    · simp only [h0, if_true]
    · have h1 : port > hcd.get_port_count st := hbad.resolve_left h0
      simp only [h0, h1, if_false, if_true]
  refine ⟨?_, fun _ _ => key _, fun _ => key _, fun _ => key _, fun _ => key _,
    fun _ _ => key _, fun _ _ => key _⟩
  unfold local_hcd.get_port_stat
  by_cases h0 : port = 0
  · simp only [h0, if_true]
  · have h1 : port > hcd.get_port_count st := hbad.resolve_left h0
    simp only [h0, h1, if_false, if_true]

/-- Claim C33 at concrete inputs: on a controller with one port, `port_connect(0, low)`
throws `invalid_argument` and `port_reset_done(2, true)` throws `out_of_range`; nothing
is handed to the kernel and the state is kept. -/
theorem C33_port_ops_reject_witness :
    (one_port_hcd 5 ⟨0x0103, 0, 0⟩).port_connect 0 USB_VHCI_DATA_RATE_LOW true =
      ⟨some (.invalid_argument "port"), none, one_port_hcd 5 ⟨0x0103, 0, 0⟩⟩ ∧
    (2 : Nat) > hcd.get_port_count (one_port_hcd 5 ⟨0x0103, 0, 0⟩) ∧
    (one_port_hcd 5 ⟨0x0103, 0, 0⟩).port_reset_done 2 true true =
      ⟨some (.out_of_range "port"), none, one_port_hcd 5 ⟨0x0103, 0, 0⟩⟩ :=
  ⟨((C33_port_ops_reject (one_port_hcd 5 ⟨0x0103, 0, 0⟩) 0 (Or.inl rfl)).2.1
      USB_VHCI_DATA_RATE_LOW true).trans rfl,
   by decide,
   ((C33_port_ops_reject (one_port_hcd 5 ⟨0x0103, 0, 0⟩) 2 (Or.inr (by decide))).2.2.2.2.2.2
      true true).trans rfl⟩

/-- With a negative `packet_count` the record of an iso URB carries no packet array (the
`malloc` fails and the loop does not run) and the negative count. -/
theorem giveback_record_negative_count (E : errno_h) (urb : usb_vhci_urb)
    (hiso : urb.type = USB_VHCI_URB_TYPE_ISO) (hpc : urb.packet_count < 0) :
    (usb_vhci_giveback_record E urb).iso_packets = none ∧
    (usb_vhci_giveback_record E urb).packet_count = urb.packet_count := by
  unfold usb_vhci_giveback_record
  by_cases h2 : usb_vhci_is_in urb.epadr = true ∧ urb.buffer_actual > 0 <;>
    simp [hiso, h2, hpc, usb_vhci_is_iso]

/-- Claim C35: for every URB that, when isochronous, has a `packet_count` from 0 on and
that many packets in its array, the record that `usb_vhci_giveback` hands to the kernel
has the handle of the URB, the status `usb_vhci_to_errno(urb.status, kind is iso)` and the
`buffer_actual` of the URB; the data buffer is attached exactly when the URB is IN and
`buffer_actual` is positive; for an iso URB the record carries `packet_count`,
`error_count` and an array of `packet_count` entries, per packet
`usb_vhci_to_errno(status, 0)` and `packet_actual` (converted to `uint32_t`, which keeps
every value from 0 on), for every other kind `packet_count = error_count = 0` and no
packet array; a URB with the status success reaches the kernel with the status 0. -/
theorem C35_giveback_record (E : errno_h) (urb : usb_vhci_urb)
    (hwf : urb.type = USB_VHCI_URB_TYPE_ISO →
      0 ≤ urb.packet_count ∧ urb.packet_count.toNat ≤ (urb.iso_packets.getD []).length) :
    (usb_vhci_giveback_record E urb).handle = urb.handle ∧
    (usb_vhci_giveback_record E urb).status =
      usb_vhci_to_errno E urb.status (if urb.type = USB_VHCI_URB_TYPE_ISO then 1 else 0) ∧
    (usb_vhci_giveback_record E urb).buffer_actual = urb.buffer_actual ∧
    (usb_vhci_giveback_record E urb).buffer =
      (if urb.epadr &&& 0x80 ≠ 0 ∧ urb.buffer_actual > 0 then urb.buffer else none) ∧
    (urb.type = USB_VHCI_URB_TYPE_ISO →
      (usb_vhci_giveback_record E urb).packet_count = urb.packet_count ∧
      (usb_vhci_giveback_record E urb).error_count = urb.error_count ∧
      (usb_vhci_giveback_record E urb).iso_packets =
        some (((urb.iso_packets.getD []).take urb.packet_count.toNat).map fun p =>
          { packet_actual := to_uint32 p.packet_actual,
            status := usb_vhci_to_errno E p.status 0 }) ∧
      (((((urb.iso_packets.getD []).take urb.packet_count.toNat).map fun p =>
          ({ packet_actual := to_uint32 p.packet_actual,
             status := usb_vhci_to_errno E p.status 0 } :
            usb_vhci_ioc_iso_packet_giveback)).length : Nat) : Int) = urb.packet_count) ∧
    (urb.type ≠ USB_VHCI_URB_TYPE_ISO →
      (usb_vhci_giveback_record E urb).packet_count = 0 ∧
      (usb_vhci_giveback_record E urb).error_count = 0 ∧
      (usb_vhci_giveback_record E urb).iso_packets = none) ∧
    (urb.status = USB_VHCI_STATUS_SUCCESS → (usb_vhci_giveback_record E urb).status = 0) ∧
    (∀ x : Int, 0 ≤ x → x < 2 ^ 32 → (to_uint32 x : Int) = x) ∧
    (∀ ioctl_errno, (usb_vhci_giveback E urb ioctl_errno).1 = usb_vhci_giveback_record E urb) := by
  have hstatus : (usb_vhci_giveback_record E urb).status =
      usb_vhci_to_errno E urb.status (if urb.type = USB_VHCI_URB_TYPE_ISO then 1 else 0) := by
    unfold usb_vhci_giveback_record
    by_cases h1 : urb.type = USB_VHCI_URB_TYPE_ISO <;>
      by_cases h2 : usb_vhci_is_in urb.epadr = true ∧ urb.buffer_actual > 0 <;>
      simp [h1, h2, usb_vhci_is_iso]
  refine ⟨?_, hstatus, ?_, ?_, ?_, ?_, ?_, ?_, fun _ => rfl⟩
  · unfold usb_vhci_giveback_record
    by_cases h1 : urb.type = USB_VHCI_URB_TYPE_ISO <;>
      by_cases h2 : usb_vhci_is_in urb.epadr = true ∧ urb.buffer_actual > 0 <;>
      simp [h1, h2, usb_vhci_is_iso]
  · unfold usb_vhci_giveback_record
    by_cases h1 : urb.type = USB_VHCI_URB_TYPE_ISO <;>
      by_cases h2 : usb_vhci_is_in urb.epadr = true ∧ urb.buffer_actual > 0 <;>
      simp [h1, h2, usb_vhci_is_iso]
  · unfold usb_vhci_giveback_record
    by_cases h1 : urb.type = USB_VHCI_URB_TYPE_ISO <;>
      by_cases h2 : urb.epadr &&& 0x80 = 0 <;>
      by_cases h3 : urb.buffer_actual > 0 <;>
      simp [h1, h2, h3, usb_vhci_is_iso, usb_vhci_is_in]
  · intro h1
    obtain ⟨hpc, hlen⟩ := hwf h1
    have hneg : ¬ urb.packet_count < 0 := by omega
    refine ⟨?_, ?_, ?_, ?_⟩
    · unfold usb_vhci_giveback_record
      by_cases h2 : usb_vhci_is_in urb.epadr = true ∧ urb.buffer_actual > 0 <;>
        simp [h1, h2, usb_vhci_is_iso]
    · unfold usb_vhci_giveback_record
      by_cases h2 : usb_vhci_is_in urb.epadr = true ∧ urb.buffer_actual > 0 <;>
        simp [h1, h2, usb_vhci_is_iso]
    · unfold usb_vhci_giveback_record
      by_cases h2 : usb_vhci_is_in urb.epadr = true ∧ urb.buffer_actual > 0 <;>
        simp [h1, h2, hneg, usb_vhci_is_iso, usb_vhci_giveback_loop,
          usb_vhci_to_iso_packets_errno]
    · rw [List.length_map, List.length_take, Nat.min_eq_left hlen]
      exact Int.toNat_of_nonneg hpc
  · intro h1
    unfold usb_vhci_giveback_record
    by_cases h2 : usb_vhci_is_in urb.epadr = true ∧ urb.buffer_actual > 0 <;>
      simp [h1, h2, usb_vhci_is_iso]
  · intro hs
    rw [hstatus, hs]
    simp [usb_vhci_to_errno, USB_VHCI_STATUS_SUCCESS]
  · intro x h0 h1
    unfold to_uint32
    rw [Int.emod_eq_of_lt h0 h1, Int.toNat_of_nonneg h0]

/-- Claim C36: `usb_vhci_giveback` returns 0 when the kernel accepts the record and when
the ioctl fails with `ECANCELED`, and `-1` when it fails with any other `errno`. -/
theorem C36_giveback_return (E : errno_h) (urb : usb_vhci_urb) :
    (usb_vhci_giveback E urb none).2 = 0 ∧
    (usb_vhci_giveback E urb (some E.ECANCELED)).2 = 0 ∧
    (∀ e : Int, e ≠ E.ECANCELED → (usb_vhci_giveback E urb (some e)).2 = -1) := by
  refine ⟨rfl, ?_, ?_⟩
  · simp [usb_vhci_giveback]
  · intro e he
    simp [usb_vhci_giveback, he]

/-- Claim C36 under the Linux values: the answer `ECANCELED` (125) gives 0, the answer
`EINVAL` (22) gives `-1`. -/
theorem C36_giveback_return_witness :
    (usb_vhci_giveback errno_linux get_descriptor_urb_object._urb (some 125)).2 = 0 ∧
    (usb_vhci_giveback errno_linux get_descriptor_urb_object._urb (some 22)).2 = -1 :=
  ⟨(C36_giveback_return errno_linux get_descriptor_urb_object._urb).2.1,
   (C36_giveback_return errno_linux get_descriptor_urb_object._urb).2.2 22 (by decide)⟩

theorem finishing_work_lists (st : local_hcd) (w : work) :
    (st.finishing_work w).inbox = st.inbox ∧ (st.finishing_work w).processing = st.processing ∧
    (st.finishing_work w).port_info = st.port_info := by
  unfold local_hcd.finishing_work
  cases w.derived <;> exact ⟨rfl, rfl, rfl⟩

theorem mem_map_cancel_port (l : List work) (addr : Nat) (w : work)
    (hw : w ∈ l.map fun x => if x.addr = addr then x.cancel else x) :
    ∃ x ∈ l, x.port = w.port := by
  obtain ⟨x, hx, hxw⟩ := List.mem_map.1 hw
  refine ⟨x, hx, ?_⟩
  rw [← hxw]
  split_ifs <;> rfl

/-- The items that `next_work` leaves in the inbox were in the inbox, and the items it
leaves in processing were in processing or in the inbox. -/
theorem next_work_loop_mem (inbox processing : List work) :
    (∀ w ∈ (next_work_loop inbox processing).2.2.1, w ∈ inbox) ∧
    (∀ w ∈ (next_work_loop inbox processing).2.2.2, w ∈ processing ∨ w ∈ inbox) := by
  induction inbox with
  | nil => exact ⟨fun w hw => hw, fun w hw => Or.inl hw⟩
  | cons a inbox ih =>
    unfold next_work_loop
    split_ifs
    · refine ⟨fun w hw => List.mem_cons_of_mem _ hw, fun w hw => ?_⟩
      rcases List.mem_append.1 hw with h | h
      · exact Or.inl h
      · exact Or.inr (by rw [List.mem_singleton.1 h]; exact List.mem_cons_self _ _)
    · refine ⟨fun w hw => List.mem_cons_of_mem _ (ih.1 w hw), fun w hw => ?_⟩
      rcases ih.2 w hw with h | h
      · exact Or.inl h
      · exact Or.inr (List.mem_cons_of_mem _ h)

/-- Canceling keeps the ports of the work items in range. -/
theorem cancel_process_urb_work_ports (st st' : local_hcd) (handle fresh : Nat) (r : Bool)
    (h : hcd.cancel_process_urb_work st handle fresh = .ok (r, st'))
    (hinv : ∀ w, w ∈ st.inbox ∨ w ∈ st.processing →
      1 ≤ w.port ∧ w.port ≤ st.port_info.length) :
    ∀ w, w ∈ st'.inbox ∨ w ∈ st'.processing → 1 ≤ w.port ∧ w.port ≤ st'.port_info.length := by
  have hlen := cancel_process_urb_work_port_info st st' handle fresh r h
  rw [hlen]
  cases hin : st.inbox.find? (is_process_urb_work_of handle) with
  | some w0 =>
    rw [cancel_process_urb_work_inbox st handle fresh w0 hin] at h
    simp only [Except.ok.injEq, Prod.mk.injEq] at h
    obtain ⟨f1, f2, _⟩ := finishing_work_lists (st.write_work w0.addr work.cancel) w0.cancel
    intro w hw
    rw [← h.2, f1, f2] at hw
    rcases hw with hw | hw
    · obtain ⟨x, hx, hp⟩ := mem_map_cancel_port st.inbox w0.addr w hw
      rw [← hp]
      exact hinv x (Or.inl hx)
    · obtain ⟨x, hx, hp⟩ := mem_map_cancel_port st.processing w0.addr w hw
      rw [← hp]
      exact hinv x (Or.inr hx)
  | none =>
    cases hpr : st.processing.find? (is_process_urb_work_of handle) with
    | none =>
      simp only [hcd.cancel_process_urb_work, hin, hpr, Except.ok.injEq, Prod.mk.injEq] at h
      rw [← h.2]
      exact hinv
    | some w0 =>
      have hmem : w0 ∈ st.processing := List.mem_of_find?_eq_some hpr
      have hport := hinv w0 (Or.inr hmem)
      rw [cancel_process_urb_work_processing st handle fresh w0 hin hpr (by omega)] at h
      simp only [Except.ok.injEq, Prod.mk.injEq] at h
      intro w hw
      rw [← h.2] at hw
      simp only [hcd.on_work_enqueued, hcd.enqueue_work, List.mem_append,
        List.mem_singleton] at hw
      rcases hw with (hw | hw) | hw
      · exact hinv w (Or.inl hw)
      · rw [hw]
        exact hport
      · exact hinv w (Or.inr hw)

/-- Setting an address or a snapshot writes the port table only. -/
theorem set_adr_lists (st : local_hcd) (i a : Nat) :
    (st.set_adr i a).inbox = st.inbox ∧ (st.set_adr i a).processing = st.processing :=
  ⟨rfl, rfl⟩

theorem set_stat_lists (st : local_hcd) (i : Nat) (s : port_stat) :
    (st.set_stat i s).inbox = st.inbox ∧ (st.set_stat i s).processing = st.processing :=
  ⟨rfl, rfl⟩

/-- An iteration of the pump keeps the ports of the work items in range and the number of
ports as it is. -/
theorem bg_work_ports (K : kernel_header) (st st' : local_hcd)
    (fetched : Option usb_vhci_ioc_work) (data : Option usb_vhci_ioc_urb_data) (fresh : Nat)
    (hrun : st.bg_work K fetched data fresh = .ok st')
    (hinv : ∀ w, w ∈ st.inbox ∨ w ∈ st.processing →
      1 ≤ w.port ∧ w.port ≤ st.port_info.length) :
    ∀ w, w ∈ st'.inbox ∨ w ∈ st'.processing → 1 ≤ w.port ∧ w.port ≤ st'.port_info.length := by
  cases fetched with
  | none =>
    simp only [local_hcd.bg_work, usb_vhci_fetch_work, Except.ok.injEq] at hrun
    subst hrun
    exact hinv
  | some kw =>
    cases kw with
    | other =>
      simp only [local_hcd.bg_work, usb_vhci_fetch_work, usb_vhci_fetch_work_timeout,
        Except.ok.injEq] at hrun
      subst hrun
      exact hinv
    | CANCEL_URB h =>
      simp only [local_hcd.bg_work, usb_vhci_fetch_work, usb_vhci_fetch_work_timeout] at hrun
      cases hc : hcd.cancel_process_urb_work st h fresh with
      | error e => simp [hc] at hrun
      | ok r =>
        simp only [hc, Except.ok.injEq] at hrun
        subst hrun
        exact cancel_process_urb_work_ports st r.2 h fresh r.1 hc hinv
    | PORT_STAT ks =>
      by_cases hr : 1 ≤ ks.index ∧ ks.index ≤ hcd.get_port_count st
      · rw [bg_work_port_stat_in_range K st ks data fresh hr.1 hr.2] at hrun
        simp only [Except.ok.injEq] at hrun
        subst hrun
        intro w hw
        have hl : ∀ s : local_hcd, (hcd.on_work_enqueued s).port_info = s.port_info :=
          fun _ => rfl
        simp only [hl]
        have hlen : ∀ (c1 c2 : Bool) (s : local_hcd) (i : Nat) (n : port_stat),
            (if c2 = true then
              (if c1 = true then (s.set_stat i n).set_adr i 0xff else s.set_stat i n).set_adr i 0
             else (if c1 = true then (s.set_stat i n).set_adr i 0xff
                   else s.set_stat i n)).port_info.length = s.port_info.length := by
          intro c1 c2 s i n
          cases c1 <;> cases c2 <;>
            simp [port_info_length_set_adr, port_info_length_set_stat]
        have hlists : ∀ (c1 c2 : Bool) (s : local_hcd) (i : Nat) (n : port_stat),
            (if c2 = true then
              (if c1 = true then (s.set_stat i n).set_adr i 0xff else s.set_stat i n).set_adr i 0
             else (if c1 = true then (s.set_stat i n).set_adr i 0xff
                   else s.set_stat i n)).inbox = s.inbox ∧
            (if c2 = true then
              (if c1 = true then (s.set_stat i n).set_adr i 0xff else s.set_stat i n).set_adr i 0
             else (if c1 = true then (s.set_stat i n).set_adr i 0xff
                   else s.set_stat i n)).processing = s.processing := by
          intro c1 c2 s i n
          cases c1 <;> cases c2 <;> exact ⟨rfl, rfl⟩
        simp only [hcd.on_work_enqueued] at hw
        rw [hlen]
        rw [(hlists _ _ _ _ _).1, (hlists _ _ _ _ _).2] at hw
        simp only [hcd.enqueue_work, List.mem_append, List.mem_singleton] at hw ⊢
        rcases hw with (hw | hw) | hw
        · exact hinv w (Or.inl hw)
        · rw [hw]
          exact ⟨hr.1, hr.2⟩
        · exact hinv w (Or.inr hw)
      · have hout : ks.index = 0 ∨ ks.index > hcd.get_port_count st := by omega
        simp only [local_hcd.bg_work, usb_vhci_fetch_work, usb_vhci_fetch_work_timeout,
          bg_work_port_stat, hout, if_true, Except.ok.injEq] at hrun
        subst hrun
        exact hinv
    | PROCESS_URB handle ku =>
      rcases bg_work_process_urb_cases K st st' handle ku data fresh hrun with h | h
      · subst h
        exact hinv
      · obtain ⟨hdr, res, u, p, _, _, hp, hp0, hst⟩ := h
        subst hst
        have hple := port_from_address_le st hdr.devadr p hp hp0
        intro w hw
        have hs : (bg_work_set_address st p u).2.inbox = st.inbox ∧
            (bg_work_set_address st p u).2.processing = st.processing ∧
            (bg_work_set_address st p u).2.port_info.length = st.port_info.length := by
          rcases bg_work_set_address_cases st p u with hs | hs
          · rw [hs]; exact ⟨rfl, rfl, rfl⟩
          · rw [hs.2.2.2.2]; exact ⟨rfl, rfl, port_info_length_set_adr _ _ _⟩
        have hl : (hcd.on_work_enqueued (hcd.enqueue_work (bg_work_set_address st p u).2
            { addr := fresh, port := p, canceled := false,
              derived := .process_urb_work (bg_work_set_address st p u).1 })).port_info.length =
            st.port_info.length := hs.2.2
        rw [hl]
        simp only [hcd.on_work_enqueued, hcd.enqueue_work, List.mem_append,
          List.mem_singleton, hs.1, hs.2.1] at hw
        rcases hw with (hw | hw) | hw
        · exact hinv w (Or.inl hw)
        · rw [hw]
          exact ⟨Nat.pos_of_ne_zero hp0, hple⟩
        · exact hinv w (Or.inr hw)

theorem list_set_getD_self {α : Type} (l : List α) (i : Nat) (d : α) :
    l.set i (l.getD i d) = l := by
  induction l generalizing i with
  | nil => rfl
  | cons a l ih =>
    cases i with
    | zero => rfl
    | succ i =>
      have h := ih i
      simp only [List.getD_eq_getElem?_getD] at h
      simp [h]

/-- Writing a port's own address back leaves the controller state as it is. -/
theorem set_adr_self (st : local_hcd) (i : Nat) :
    st.set_adr i (st.port_info_at i).adr = st := by
  unfold local_hcd.set_adr local_hcd.port_info_at
  have h : ({ st.port_info.getD i _port_info.default with
      adr := (st.port_info.getD i _port_info.default).adr } : _port_info) =
      st.port_info.getD i _port_info.default := rfl
  rw [h, list_set_getD_self]

/-- A second write of the address of a port replaces the first. -/
theorem set_adr_set_adr (st : local_hcd) (i a b : Nat) (hi : i < st.port_info.length) :
    (st.set_adr i a).set_adr i b = st.set_adr i b := by
  have h1 := port_info_at_set_adr_same st i a hi
  unfold local_hcd.set_adr at h1 ⊢
  simp only [h1, List.set_set]

/-- The failed enqueue with its rollback leaves the controller state as it found it. -/
theorem bg_work_route_urb_nomem_state (st st' : local_hcd) (devadr : Nat) (u : urb)
    (fresh : Nat) (h : bg_work_route_urb_nomem st devadr u fresh = .ok st') : st' = st := by
  unfold bg_work_route_urb_nomem at h
  cases hp : st.port_from_address devadr with
  | error e => simp [hp] at h
  | ok index =>
    simp only [hp] at h
    by_cases h0 : index = 0
    · simp only [h0, if_true, Except.ok.injEq] at h
      exact h.symm
    · have hle := port_from_address_le st devadr index hp h0
      simp only [h0, if_false, process_urb_work.ctor, Except.ok.injEq] at h
      rw [← h]
      rcases bg_work_set_address_cases st index u with hs | hs
      · rw [hs]
        exact set_adr_self st (index - 1)
      · rw [hs.2.2.2.2, set_adr_set_adr st _ _ _ (by omega)]
        exact set_adr_self st (index - 1)

/-- Claim C34: in every reachable controller state every work item in the inbox or in the
processing list has a port from 1 to `port_count`; each of the three constructors of a
work item fails with `invalid_argument` when the port is 0. -/
theorem C34_work_ports (K : kernel_header) :
    (∀ st, reachable K st → ∀ w, w ∈ st.inbox ∨ w ∈ st.processing →
      1 ≤ w.get_port ∧ w.get_port ≤ hcd.get_port_count st) ∧
    (∀ addr u, process_urb_work.ctor addr 0 u = .error (.invalid_argument "port")) ∧
    (∀ addr handle, cancel_urb_work.ctor addr 0 handle = .error (.invalid_argument "port")) ∧
    (∀ addr stat prev,
      port_stat_work.ctor K addr 0 stat prev = .error (.invalid_argument "port")) := by
  refine ⟨?_, fun _ _ => rfl, fun _ _ => rfl, fun _ _ _ => rfl⟩
  intro st hr
  show ∀ w, w ∈ st.inbox ∨ w ∈ st.processing → 1 ≤ w.port ∧ w.port ≤ st.port_info.length
  induction hr with
  | ctor ports st hc =>
    unfold local_hcd.ctor at hc
    split_ifs at hc
    simp only [Except.ok.injEq] at hc
    subst hc
    intro w hw
    simp at hw
  | bg_work st st' fetched data fresh _ hrun ih =>
    exact bg_work_ports K st st' fetched data fresh hrun ih
  | next_work st _ ih =>
    intro w hw
    obtain ⟨m1, m2⟩ := next_work_loop_mem st.inbox st.processing
    simp only [hcd.next_work] at hw ⊢
    rcases hw with hw | hw
    · exact ih w (Or.inl (m1 w hw))
    · rcases m2 w hw with h | h
      · exact ih w (Or.inr h)
      · exact ih w (Or.inl h)
  | finish_work st w0 _ _ ih =>
    intro w hw
    rw [finish_work_port_info]
    obtain ⟨f1, f2, _⟩ := finishing_work_lists st w0
    simp only [hcd.finish_work, f1, f2, List.mem_filter] at hw
    rcases hw with hw | hw
    · exact ih w (Or.inl hw)
    · exact ih w (Or.inr hw.1)
  | cancel_process_urb_work st st' handle fresh r _ hc ih =>
    exact cancel_process_urb_work_ports st st' handle fresh r hc ih
  | add_work_enqueued_callback st c _ ih => exact ih
  | remove_work_enqueued_callback st c _ ih => exact ih

/-- Claim C34 at a concrete input: in the state reached from `local_hcd(2)` by a port
status event for port 1, the one work item has the port 1; the constructor of a cancel
item refuses the port 0. -/
theorem C34_work_ports_witness :
    (∀ w, w ∈ (two_port_hcd ⟨0, ⟨0x0103, 0x0010, 0⟩⟩ _port_info.default
        [reset_done_item 1000 1]).inbox ∨
      w ∈ (two_port_hcd ⟨0, ⟨0x0103, 0x0010, 0⟩⟩ _port_info.default
        [reset_done_item 1000 1]).processing → 1 ≤ w.get_port ∧ w.get_port ≤ 2) ∧
    cancel_urb_work.ctor 1000 0 7 = .error (.invalid_argument "port") := by
  have h0 : local_hcd.ctor 2 = .ok (two_port_hcd _port_info.default _port_info.default []) :=
    rfl
  have h1 : (two_port_hcd _port_info.default _port_info.default []).bg_work header_1
      (some (.PORT_STAT ⟨0x0103, 0x0010, 1, 0⟩)) none 1000 =
      .ok (two_port_hcd ⟨0, ⟨0x0103, 0x0010, 0⟩⟩ _port_info.default
        [reset_done_item 1000 1]) := rfl
  exact ⟨(C34_work_ports header_1).1 _
      (reachable.bg_work _ _ _ _ _ (reachable.ctor 2 _ h0) h1),
    (C34_work_ports header_1).2.2.1 1000 7⟩

/-- Claim C37: the trigger flags that the constructor `port_stat_work(port, stat, prev)`
computes equal `usb_vhci_port_stat_triggers(stat, prev)` of the C interface on the same
snapshots, for every port number (the constructor stores them for every port but 0, which
it refuses); power on and power off are never both set. -/
theorem C37_trigger_flags_refinement (K : kernel_header) (addr port : Nat)
    (stat prev : port_stat) (i j : Nat) :
    port_stat_work.trigger_flags K stat prev =
      usb_vhci_port_stat_triggers K ⟨stat.status, stat.change, i, stat.flags⟩
        ⟨prev.status, prev.change, j, prev.flags⟩ ∧
    (port ≠ 0 → port_stat_work.ctor K addr port stat prev =
      .ok { addr := addr, port := port, canceled := false,
            derived := .port_stat_work stat
              (usb_vhci_port_stat_triggers K ⟨stat.status, stat.change, i, stat.flags⟩
                ⟨prev.status, prev.change, j, prev.flags⟩) }) ∧
    ¬ (port_stat_work.trigger_flags K stat prev &&& USB_VHCI_PORT_STAT_TRIGGER_POWER_ON ≠ 0 ∧
       port_stat_work.trigger_flags K stat prev &&& USB_VHCI_PORT_STAT_TRIGGER_POWER_OFF ≠ 0) ∧
    ¬ (usb_vhci_port_stat_triggers K ⟨stat.status, stat.change, i, stat.flags⟩
          ⟨prev.status, prev.change, j, prev.flags⟩ &&&
          USB_VHCI_PORT_STAT_TRIGGER_POWER_ON ≠ 0 ∧
       usb_vhci_port_stat_triggers K ⟨stat.status, stat.change, i, stat.flags⟩
          ⟨prev.status, prev.change, j, prev.flags⟩ &&&
          USB_VHCI_PORT_STAT_TRIGGER_POWER_OFF ≠ 0) := by
  have heq := trigger_flags_eq_triggers K stat prev i j
  obtain ⟨_, _, _, _, h5, h6, _⟩ :=
    trigger_bits_core _ _ _ _ _ _
      (usb_vhci_port_stat_triggers K ⟨stat.status, stat.change, i, stat.flags⟩
        ⟨prev.status, prev.change, j, prev.flags⟩) rfl
  have hnot : ¬ (usb_vhci_port_stat_triggers K ⟨stat.status, stat.change, i, stat.flags⟩
        ⟨prev.status, prev.change, j, prev.flags⟩ &&&
        USB_VHCI_PORT_STAT_TRIGGER_POWER_ON ≠ 0 ∧
      usb_vhci_port_stat_triggers K ⟨stat.status, stat.change, i, stat.flags⟩
        ⟨prev.status, prev.change, j, prev.flags⟩ &&&
        USB_VHCI_PORT_STAT_TRIGGER_POWER_OFF ≠ 0) := by
    intro h
    exact (h5.1 h.1).1 (h6.1 h.2).1
  refine ⟨heq, ?_, ?_, hnot⟩
  · intro hp
    simp only [port_stat_work.ctor, hp, if_false, heq]
  · rw [heq]
    exact hnot

/-- Claim C37 at a concrete input: for the snapshot `0x0103` after the empty snapshot both
computations give `0x10` (power on). -/
theorem C37_trigger_flags_refinement_witness :
    port_stat_work.trigger_flags header_1 ⟨0x0103, 0x0010, 0⟩ ⟨0, 0, 0⟩ = 0x10 ∧
    usb_vhci_port_stat_triggers header_1 ⟨0x0103, 0x0010, 1, 0⟩ ⟨0, 0, 1, 0⟩ = 0x10 ∧
    port_stat_work.ctor header_1 1000 1 ⟨0x0103, 0x0010, 0⟩ ⟨0, 0, 0⟩ =
      .ok (reset_done_item 1000 1) :=
  ⟨rfl, ((C37_trigger_flags_refinement header_1 1000 1 ⟨0x0103, 0x0010, 0⟩ ⟨0, 0, 0⟩
      1 1).1.symm).trans rfl,
   ((C37_trigger_flags_refinement header_1 1000 1 ⟨0x0103, 0x0010, 0⟩ ⟨0, 0, 0⟩ 1 1).2.1
      (by decide)).trans rfl⟩

/-- Claim C38: after the constructor every port has the address unset (`0xff`); in every
reachable controller state the address of every port is unset or at most `0x7f`; and the
path of the pump on which the enqueue fails, with its rollback of the address, leaves
the controller state as it found it, so it reaches no further state. -/
theorem C38_address_range (K : kernel_header) :
    (∀ ports st, local_hcd.ctor ports = .ok st →
      hcd.get_port_count st = ports ∧
      ∀ q, 1 ≤ q → q ≤ ports → st.address_from_port q = .ok 0xff) ∧
    (∀ st, reachable K st → ∀ q a, st.address_from_port q = .ok a → a = 0xff ∨ a ≤ 0x7f) ∧
    (∀ st, reachable K st → ∀ q, 1 ≤ q → q ≤ hcd.get_port_count st →
      ∃ a, st.address_from_port q = .ok a ∧ (a = 0xff ∨ a ≤ 0x7f)) ∧
    (∀ st st' devadr u fresh, bg_work_route_urb_nomem st devadr u fresh = .ok st' →
      st' = st) := by
  refine ⟨?_, fun st hr => reachable_address_range K st hr, ?_,
    fun st st' devadr u fresh h => bg_work_route_urb_nomem_state st st' devadr u fresh h⟩
  · intro ports st hc
    unfold local_hcd.ctor at hc
    split_ifs at hc
    simp only [Except.ok.injEq] at hc
    subst hc
    refine ⟨by simp [hcd.get_port_count], ?_⟩
    intro q h1 h2
    have hq0 : q ≠ 0 := by omega
    have hq : ¬ q > ports := by omega
    simp only [local_hcd.address_from_port, hcd.get_port_count, List.length_replicate, hq0,
      hq, if_false, local_hcd.port_info_at, List.getD_eq_getElem?_getD,
      List.getElem?_replicate]
    have : q - 1 < ports := by omega
    simp [this, _port_info.default]
  · intro st hr q h1 h2
    have hq0 : q ≠ 0 := by omega
    have hq : ¬ q > hcd.get_port_count st := by omega
    refine ⟨(st.port_info_at (q - 1)).adr, ?_, ?_⟩
    · simp only [local_hcd.address_from_port, hq0, hq, if_false]
    · apply reachable_address_range K st hr q
      simp only [local_hcd.address_from_port, hq0, hq, if_false]

/-- Claim C38 at a concrete input: `local_hcd(2)` starts with both addresses unset; after
a reset-done event for port 1 its address is 0, within the range. -/
theorem C38_address_range_witness :
    (two_port_hcd _port_info.default _port_info.default []).address_from_port 2 = .ok 0xff ∧
    ((0 : Nat) = 0xff ∨ (0 : Nat) ≤ 0x7f) ∧
    (two_port_hcd ⟨0, ⟨0x0103, 0x0010, 0⟩⟩ _port_info.default
      [reset_done_item 1000 1]).address_from_port 1 = .ok 0 := by
  have h0 : local_hcd.ctor 2 = .ok (two_port_hcd _port_info.default _port_info.default []) :=
    rfl
  have h1 : (two_port_hcd _port_info.default _port_info.default []).bg_work header_1
      (some (.PORT_STAT ⟨0x0103, 0x0010, 1, 0⟩)) none 1000 =
      .ok (two_port_hcd ⟨0, ⟨0x0103, 0x0010, 0⟩⟩ _port_info.default
        [reset_done_item 1000 1]) := rfl
  exact ⟨((C38_address_range header_1).1 2 _ h0).2 2 (by decide) (by decide),
    (C38_address_range header_1).2.1 _
      (reachable.bg_work _ _ _ _ _ (reachable.ctor 2 _ h0) h1) 1 0 rfl, rfl⟩

/-- Claim C39: on an isochronous URB with `packet_count = 0`, `set_iso_results` sets
`error_count` to 0 and the status to all_iso_packets_failed, not to success: zero errors
equal zero packets. -/
theorem C39_set_iso_results_no_packets (u : urb) (hiso : u.is_isochronous = true)
    (hpc : u.get_iso_packet_count = 0) :
    ∃ v, u.set_iso_results = .ok v ∧ v.get_iso_error_count = 0 ∧
      v.get_status = USB_VHCI_STATUS_ALL_ISO_PACKETS_FAILED ∧
      v.get_status ≠ USB_VHCI_STATUS_SUCCESS ∧
      v = ⟨{ u._urb with
        error_count := 0, status := USB_VHCI_STATUS_ALL_ISO_PACKETS_FAILED,
        buffer_actual := if u._urb.epadr &&& 0x80 ≠ 0 then u._urb.buffer_length
                         else u._urb.buffer_actual }⟩ := by
  have hloop : set_iso_results_loop u u.get_iso_packet_count.toNat 0 0 = 0 := by
    rw [hpc]
    rfl
  have h := set_iso_results_of_errors u 0 hiso hloop
  have hpc' : u._urb.packet_count = 0 := hpc
  rw [hpc'] at h
  simp only [if_true] at h
  exact ⟨_, h, rfl, rfl,
    (by decide : USB_VHCI_STATUS_ALL_ISO_PACKETS_FAILED ≠ USB_VHCI_STATUS_SUCCESS), rfl⟩

/-- Claim C39 at a concrete input: the iso URB without packets ends with
`error_count = 0` and the status all_iso_packets_failed. -/
theorem C39_set_iso_results_no_packets_witness :
    (⟨iso_header 0 none⟩ : urb).is_isochronous = true ∧
    (⟨iso_header 0 none⟩ : urb).get_iso_packet_count = 0 ∧
    (⟨iso_header 0 none⟩ : urb).set_iso_results =
      .ok ⟨{ iso_header 0 none with
             error_count := 0, status := USB_VHCI_STATUS_ALL_ISO_PACKETS_FAILED,
             buffer_actual := 4 }⟩ := by
  obtain ⟨v, h1, _, _, _, h5⟩ := C39_set_iso_results_no_packets ⟨iso_header 0 none⟩ rfl rfl
  subst h5
  exact ⟨rfl, rfl, h1⟩

/-- Claim C35 under the Linux values: an IN iso URB with two packets, the second stalled,
`buffer_actual = 4` and the status success reaches the kernel with the status 0, its
buffer attached, `packet_count = 2` and the packet statuses 0 and `-EPIPE` (`-32`). -/
theorem C35_giveback_record_witness :
    ((({ iso_header 2 (some [⟨0, 2, 2, 0⟩, ⟨2, 2, 0, USB_VHCI_STATUS_STALL⟩]) with
        status := USB_VHCI_STATUS_SUCCESS, buffer_actual := 4, error_count := 1 } :
        usb_vhci_urb).type = USB_VHCI_URB_TYPE_ISO) →
      (0 : Int) ≤ 2 ∧ (2 : Int).toNat ≤
        [(⟨0, 2, 2, 0⟩ : usb_vhci_iso_packet), ⟨2, 2, 0, USB_VHCI_STATUS_STALL⟩].length) ∧
    usb_vhci_giveback_record errno_linux
      { iso_header 2 (some [⟨0, 2, 2, 0⟩, ⟨2, 2, 0, USB_VHCI_STATUS_STALL⟩]) with
        status := USB_VHCI_STATUS_SUCCESS, buffer_actual := 4, error_count := 1 } =
      { handle := 7, status := 0, buffer_actual := 4, buffer := some [0, 0, 0, 0],
        iso_packets := some [⟨2, 0⟩, ⟨0, -32⟩], packet_count := 2, error_count := 1 } ∧
    (usb_vhci_giveback_record errno_linux
      { iso_header 2 (some [⟨0, 2, 2, 0⟩, ⟨2, 2, 0, USB_VHCI_STATUS_STALL⟩]) with
        status := USB_VHCI_STATUS_SUCCESS, buffer_actual := 4, error_count := 1 }).iso_packets =
      some [⟨2, 0⟩, ⟨0, -32⟩] ∧
    (usb_vhci_giveback_record errno_linux
      { iso_header 2 (some [⟨0, 2, 2, 0⟩, ⟨2, 2, 0, USB_VHCI_STATUS_STALL⟩]) with
        status := USB_VHCI_STATUS_SUCCESS, buffer_actual := 4, error_count := 1 }).status = 0 :=
  ⟨fun _ => ⟨by decide, by decide⟩, by decide,
   ((C35_giveback_record errno_linux
      { iso_header 2 (some [⟨0, 2, 2, 0⟩, ⟨2, 2, 0, USB_VHCI_STATUS_STALL⟩]) with
        status := USB_VHCI_STATUS_SUCCESS, buffer_actual := 4, error_count := 1 }
      (fun _ => ⟨by decide, by decide⟩)).2.2.2.2.1 rfl).2.2.1.trans (by decide),
   (C35_giveback_record errno_linux
      { iso_header 2 (some [⟨0, 2, 2, 0⟩, ⟨2, 2, 0, USB_VHCI_STATUS_STALL⟩]) with
        status := USB_VHCI_STATUS_SUCCESS, buffer_actual := 4, error_count := 1 }
      (fun _ => ⟨by decide, by decide⟩)).2.2.2.2.2.2.1 rfl⟩

/-- The wrapper `usb_vhci_fetch_work` hands on what `usb_vhci_fetch_work_timeout`
decodes. -/
theorem fetch_work_of_timeout (K : kernel_header) (w : usb_vhci_ioc_work)
    (r : usb_vhci_work × Int) (h : usb_vhci_fetch_work_timeout K w = .ok r) :
    usb_vhci_fetch_work K (some w) = some r := by
  simp only [usb_vhci_fetch_work, h]

/-- Claim C40: for every URB event of a kind that decodes, with `buffer_length >= 0` and
`packet_count >= 0`, the construction of the URB object in the pump (which allocates the
payload buffer when `buffer_length` is not zero and the iso array when `packet_count` is
not zero) throws `invalid_argument` exactly when the kind is iso, `packet_count` is not
zero and `buffer_length` is zero, and the exception leaves `bg_work`; for every other
decoded header the construction succeeds. -/
theorem C40_pump_urb_construction (K : kernel_header) (handle : Nat) (ku : usb_vhci_ioc_urb)
    (data : Option usb_vhci_ioc_urb_data)
    (hk : ku.type = USB_VHCI_URB_TYPE_ISO ∨ ku.type = USB_VHCI_URB_TYPE_INT ∨
      ku.type = USB_VHCI_URB_TYPE_CONTROL ∨ ku.type = USB_VHCI_URB_TYPE_BULK)
    (_hb : 0 ≤ ku.buffer_length) (_hp : 0 ≤ ku.packet_count) :
    ∃ hdr res,
      usb_vhci_fetch_work K (some (.PROCESS_URB handle ku)) = some (.PROCESS_URB hdr, res) ∧
      ((ku.type = USB_VHCI_URB_TYPE_ISO ∧ ku.packet_count ≠ 0 ∧ ku.buffer_length = 0) →
        bg_work_fetch_urb hdr res data = .error (.invalid_argument "urb") ∧
        ∀ (st : local_hcd) (fresh : Nat),
          st.bg_work K (some (.PROCESS_URB handle ku)) data fresh =
            .error (.invalid_argument "urb")) ∧
      (¬ (ku.type = USB_VHCI_URB_TYPE_ISO ∧ ku.packet_count ≠ 0 ∧ ku.buffer_length = 0) →
        ∃ ou, bg_work_fetch_urb hdr res data = .ok ou) := by
  have ht := fetch_work_timeout_decoded K handle ku hk
  have hex : ∃ hdr res, usb_vhci_fetch_work K (some (.PROCESS_URB handle ku)) =
        some (.PROCESS_URB hdr, res) ∧
      hdr.type = ku.type ∧ hdr.buffer_length = ku.buffer_length ∧
      hdr.packet_count = (if ku.type = USB_VHCI_URB_TYPE_ISO then ku.packet_count else 0) ∧
      hdr.buffer = none ∧ hdr.iso_packets = none := by
    exact ⟨_, _, fetch_work_of_timeout K _ _ ht, rfl, rfl, rfl, rfl, rfl⟩
  obtain ⟨hdr, res, hdec, e1, e2, e3, e4, e5⟩ := hex
  refine ⟨hdr, res, hdec, ?_, ?_⟩
  · rintro ⟨h1, h2, h3⟩
    have herr : bg_work_fetch_urb hdr res data = .error (.invalid_argument "urb") := by
      rw [h1] at e1
      rw [h3] at e2
      rw [if_pos h1] at e3
      simp [bg_work_fetch_urb, e1, e2, e3, h2, urb.urb_own, urb._chk]
    refine ⟨herr, ?_⟩
    intro st fresh
    simp only [local_hcd.bg_work, hdec, bg_work_process_urb, herr]
  · intro hok
    exact bg_work_fetch_urb_decoded K handle ku hdr res data hdec hok

/-- Claim C40 at concrete inputs: an iso header with 3 packets and no buffer makes the
pump throw `invalid_argument("urb")`; with a buffer of 8 bytes the URB object is
constructed. -/
theorem C40_pump_urb_construction_witness :
    (one_port_hcd 0 ⟨0x0103, 0, 0⟩).bg_work header_1 (some (.PROCESS_URB 77
        { set_address_urb 0 0x81 with type := USB_VHCI_URB_TYPE_ISO, packet_count := 3 }))
      none 1000 = .error (.invalid_argument "urb") ∧
    (∃ st', (one_port_hcd 0 ⟨0x0103, 0, 0⟩).bg_work header_1 (some (.PROCESS_URB 77
        { set_address_urb 0 0x81 with type := USB_VHCI_URB_TYPE_ISO, packet_count := 3,
                                      buffer_length := 8 }))
      none 1000 = .ok st') := by
  obtain ⟨hdr, res, _, h2, _⟩ := C40_pump_urb_construction header_1 77
    { set_address_urb 0 0x81 with type := USB_VHCI_URB_TYPE_ISO, packet_count := 3 } none
    (Or.inl rfl) (by decide) (by decide)
  exact ⟨(h2 ⟨rfl, by decide, rfl⟩).2 _ 1000, _, rfl⟩

end LibusbVhci
